import Mathlib

/-!
# Hantek 5xxxB oscilloscope driver: protocol engine

A shallow embedding of `src/hardware/hantek-5xxxb/protocol.c`, `protocol.h`
and the acquisition entry points of `api.c`.

Conventions of the embedding:

* a byte buffer is a `List Nat`; reading index `i` is `buf.getD i 0`;
* a register snapshot (`struct hantek_5xxxb_sys_data`, packed, 240 bytes) is
  its wire image, a `List Nat`, and a field is read at its byte offset;
* the USB link is an oracle: a list of outcomes for the OUT transfers still to
  come and a list of outcomes for the IN transfers still to come; an exhausted
  list is a transfer that times out;
* the packets handed to the session are appended to a log, in order.
-/

namespace Hantek5xxxb

/-! ## Constants of `protocol.h` -/

abbrev SR_OK : Int := 0
abbrev SR_ERR : Int := -1
abbrev SR_ERR_ARG : Int := -3
abbrev SR_ERR_NA : Int := -6

abbrev HANTEK_5XXXB_USB_NORM_MSG : Nat := 0x53
abbrev HANTEK_5XXXB_CMD_RD_SYSDATA : Nat := 0x01
abbrev HANTEK_5XXXB_CMD_RD_SAMPLEDATA : Nat := 0x02
abbrev HANTEK_5XXXB_CMD_SUB_RD_SAMPLEDATA : Nat := 0x01
abbrev HANTEK_5XXXB_CMD_WR_SYSDATA : Nat := 0x11
abbrev HANTEK_5XXXB_CMD_LOCK : Nat := 0x12
abbrev HANTEK_5XXXB_CMD_SUB_LOCK : Nat := 0x01
abbrev HANTEK_5XXXB_NUM_HDIV_MENU_ON : Int := 16
abbrev HANTEK_5XXXB_NUM_HDIV_MENU_OFF_INT : Int := 20

/-- The value of `sizeof(struct hantek_5xxxb_sys_data)`: the packed structure
has 2 x 10 bytes of vertical data, 147 bytes of trigger data, 11 of horizontal
data, 6 + 8 + 4 + 16 + 4 bytes of math, display, acquire, measure and control
data and 24 trailing bytes. -/
abbrev SYS_DATA_SIZE : Nat := 240

/-! ## Buffers -/

/-- Every element of the buffer is a byte. -/
def allBytes (buf : List Nat) : Prop := ∀ b ∈ buf, b < 256

instance (buf : List Nat) : Decidable (allBytes buf) := by
  unfold allBytes; infer_instance

/-- The `len` bytes of `buf` starting at `off` (the source of a `memcpy`). -/
def slice (buf : List Nat) (off len : Nat) : List Nat :=
  (List.range len).map (fun i => buf.getD (off + i) 0)

/-- The receive buffer after a transfer stored `rx` at its start: the bytes
behind the received ones keep what the buffer held before. -/
def recvInto (in_buf rx : List Nat) : List Nat :=
  rx ++ in_buf.drop rx.length

/-! ## Frame checksum and response validation -/

/-- Embedding of `calc_checksum`: `msg_size` is a `uint16_t` parameter, the
running sum a `uint16_t`, the result the low byte of the sum. -/
def calc_checksum (msg : List Nat) (msg_size : Nat) : Nat :=
  let sum := (List.range (msg_size % 65536)).foldl
    (fun sum i => (sum + msg.getD i 0) % 65536) 0
  (0x00FF &&& sum) % 256

/-- The length field of a frame as `receive_bulk` reads it:
`(in_buf[2] << 8) | in_buf[1]`. -/
def package_size (in_buf : List Nat) : Nat :=
  (in_buf.getD 2 0 <<< 8) ||| in_buf.getD 1 0

/-- The part of `receive_bulk` that follows a successful transfer of
`in_size` bytes into `in_buf`: size check, checksum check, command echo check.
`in_size - 1` is converted to the `uint16_t` parameter of `calc_checksum`. -/
def receive_bulk_check (in_buf : List Nat) (in_size : Nat) (expected_cmd : Nat) : Int :=
  if in_size ≠ package_size in_buf + 3 then SR_ERR
  else if in_buf.getD (in_size - 1) 0 ≠ calc_checksum in_buf (in_size - 1) then SR_ERR
  else if in_buf.getD 3 0 ≠ expected_cmd + 0x80 then SR_ERR
  else SR_OK

/-! ## Register snapshot: fields at their byte offsets

`struct hantek_5xxxb_sys_data_vert_ch` is 10 bytes (eight `uint8_t`, one
`int16_t`); `vert_ch[0]` is at offset 0 and `vert_ch[1]` at offset 10. The
trigger block starts at offset 20, the horizontal block at 167, the acquire
block at 192 and the control block at 212. -/

/-- A little-endian unsigned field of `n` bytes at offset `off`. -/
def le_field (sd : List Nat) (off : Nat) : Nat → Nat
  | 0 => 0
  | n + 1 => sd.getD off 0 + 256 * le_field sd (off + 1) n

/-- A little-endian two's complement field of `n` bytes at offset `off`. -/
def le_field_signed (sd : List Nat) (off n : Nat) : Int :=
  let u := le_field sd off n
  if u < 2 ^ (8 * n - 1) then (u : Int) else (u : Int) - 2 ^ (8 * n)

def vert_ch_disp (sd : List Nat) (ch_idx : Nat) : Nat := sd.getD (10 * ch_idx + 0) 0
def vert_ch_vb (sd : List Nat) (ch_idx : Nat) : Nat := sd.getD (10 * ch_idx + 1) 0
def vert_ch_coup (sd : List Nat) (ch_idx : Nat) : Nat := sd.getD (10 * ch_idx + 2) 0
def vert_ch_f20mhz (sd : List Nat) (ch_idx : Nat) : Nat := sd.getD (10 * ch_idx + 3) 0
def vert_ch_fine (sd : List Nat) (ch_idx : Nat) : Nat := sd.getD (10 * ch_idx + 4) 0
def vert_ch_probe (sd : List Nat) (ch_idx : Nat) : Nat := sd.getD (10 * ch_idx + 5) 0
def vert_ch_rphase (sd : List Nat) (ch_idx : Nat) : Nat := sd.getD (10 * ch_idx + 6) 0
def vert_ch_cnt_fine (sd : List Nat) (ch_idx : Nat) : Nat := sd.getD (10 * ch_idx + 7) 0
def vert_ch_pos (sd : List Nat) (ch_idx : Nat) : Int := le_field_signed sd (10 * ch_idx + 8) 2

def trig_src (sd : List Nat) : Nat := sd.getD 22 0
def trig_vpos (sd : List Nat) : Int := le_field_signed sd 25 2
def trig_edge_slope (sd : List Nat) : Nat := sd.getD 59 0
def horiz_tb (sd : List Nat) : Nat := sd.getD 167 0
def horiz_win_tb (sd : List Nat) : Nat := sd.getD 168 0
def horiz_trigtime (sd : List Nat) : Int := le_field_signed sd 170 8
def acqurie_mode (sd : List Nat) : Nat := sd.getD 192 0
def acqurie_avg_cnt (sd : List Nat) : Nat := sd.getD 193 0
def acqurie_store_depth (sd : List Nat) : Nat := sd.getD 195 0
def control_disp_menu (sd : List Nat) : Nat := sd.getD 214 0

/-- The test `memcmp(a, b, n) != 0`. -/
def memcmp_ne (a b : List Nat) (n : Nat) : Bool :=
  decide (slice a 0 n ≠ slice b 0 n)

/-! ## Lookup tables of `protocol.h`

An index outside a table reads the default element. -/

/-- Table `ch_vdiv[probe factor][vertical base]`, numerator and denominator. -/
def ch_vdiv : List (List (Nat × Nat)) :=
  [ [(2, 1000), (5, 1000), (10, 1000), (20, 1000), (50, 1000), (100, 1000),
     (200, 1000), (500, 1000), (1, 1), (2, 1), (5, 1)],
    [(20, 1000), (50, 1000), (100, 1000), (200, 1000), (500, 1000), (1, 1),
     (2, 1), (5, 1), (10, 1), (20, 1), (50, 1)],
    [(200, 1000), (500, 1000), (1, 1), (2, 1), (5, 1), (10, 1), (20, 1),
     (50, 1), (100, 1), (200, 1), (500, 1)],
    [(2, 1), (5, 1), (10, 1), (20, 1), (50, 1), (100, 1), (200, 1), (500, 1),
     (1000, 1), (2000, 1), (5000, 1)] ]

/-- The pair `ch_vdiv[probe_idx][vb_idx]`. -/
def ch_vdiv_at (probe_idx vb_idx : Nat) : Nat × Nat :=
  (ch_vdiv.getD probe_idx []).getD vb_idx (0, 0)

def ch_coupling : List String := ["AC", "DC", "GND"]

def probe_factor : List Nat := [1, 10, 100, 1000]

def trigger_source : List String := ["CH1", "CH2", "Ext", "Ext/5", "AC Line"]

def trigger_slope : List String := ["r", "f", "r+f"]

/-- Table `win_timebase`, numerator and denominator of the seconds per
division, for the codes 0x00 to 0x1F. -/
def win_timebase : List (Nat × Nat) :=
  [ (2, 1000000000), (4, 1000000000), (8, 1000000000), (20, 1000000000),
    (40, 1000000000), (80, 1000000000), (200, 1000000000), (400, 1000000000),
    (800, 1000000000),
    (2, 1000000), (4, 1000000), (8, 1000000), (20, 1000000), (40, 1000000),
    (80, 1000000), (200, 1000000), (400, 1000000), (800, 1000000),
    (2, 1000), (4, 1000), (8, 1000), (20, 1000), (40, 1000), (80, 1000),
    (200, 1000), (400, 1000), (800, 1000),
    (2, 1), (4, 1), (8, 1), (20, 1), (40, 1) ]

/-- Table `memory_depth_mapper`: memory depth, store depth code of the
snapshot, index into the sample rate table. -/
def memory_depth_mapper : List (Nat × Nat × Nat) :=
  [ (4 * 1024, 0x00, 0), (40 * 1024, 0x04, 1), (512 * 1024, 0x06, 2),
    (1 * 1024 * 1024, 0x07, 3) ]

/-! ## Device instance, session packets, limits -/

/-- The acquisition states, `enum states`. -/
inductive states
  | IDLE
  | CAPTURE
  | STOPPING
  deriving DecidableEq, Repr

/-- The configuration keys that the driver names, in metadata packets and in
`config_get` and `config_set`; `SR_CONF_OTHER` is any other key. -/
inductive ConfKey
  | SR_CONF_ENABLED
  | SR_CONF_VDIV
  | SR_CONF_COUPLING
  | SR_CONF_FILTER
  | SR_CONF_PROBE_FACTOR
  | SR_CONF_TRIGGER_SOURCE
  | SR_CONF_TRIGGER_SLOPE
  | SR_CONF_TRIGGER_LEVEL
  | SR_CONF_HORIZ_TRIGGERPOS
  | SR_CONF_TIMEBASE
  | SR_CONF_SAMPLERATE
  | SR_CONF_NUM_HDIV
  | SR_CONF_BUFFERSIZE
  | SR_CONF_AVERAGING
  | SR_CONF_AVG_SAMPLES
  | SR_CONF_NUM_VDIV
  | SR_CONF_LIMIT_MSEC
  | SR_CONF_LIMIT_SAMPLES
  | SR_CONF_LIMIT_FRAMES
  | SR_CONF_CONN
  | SR_CONF_OTHER (key : Nat)
  deriving DecidableEq, Repr

/-- The value of a metadata packet or of a configuration key, a `GVariant`.
In a metadata packet, a value that the driver computes in floating point, or
from a table that `protocol.h` does not declare, is kept as the integers it is
computed from. -/
inductive MetaVal
  /-- A `g_variant_new_boolean`. -/
  | boolean (b : Bool)
  /-- A `g_variant_new("(tt)", p, q)`. -/
  | tuple (p q : Nat)
  /-- A `g_variant_new_string`. -/
  | string (s : String)
  /-- A `g_variant_new_uint64`. -/
  | uint64 (n : Nat)
  /-- A `g_variant_new_int32`. -/
  | int32 (n : Int)
  /-- The trigger level: `hantek_5xxxb_get_value_from_vert_pos` of `pos` with
  the volts/div and the offset of channel `ch_idx` of the shadow snapshot. -/
  | trigger_level (pos : Int) (ch_idx : Nat)
  /-- The horizontal trigger position: `ps / 1e12` seconds. -/
  | horiz_triggerpos (ps : Int)
  /-- The result of `hantek_5xxxb_get_samplerate` on the snapshot `sys_data`. -/
  | samplerate (sys_data : List Nat)
  /-- The test `acqurie_mode == ACQ_MODE_AVG` on the byte `mode`. -/
  | averaging (mode : Nat)
  /-- The entry `average_count[code]`. -/
  | avg_samples (code : Nat)
  /-- A `g_variant_new_double`, in exact arithmetic. -/
  | double (x : ℚ)
  deriving DecidableEq, Repr

/-- A packet handed to the session. -/
inductive Packet
  | SR_DF_HEADER
  | SR_DF_END
  | SR_DF_FRAME_BEGIN
  | SR_DF_FRAME_END
  /-- An analog packet of `send_df_chunk`: channel, `num_samples`, and the raw
  bytes the sample values are computed from. -/
  | SR_DF_ANALOG (channel_idx : Nat) (num_samples : Int) (data : List Nat)
  /-- A metadata packet of `sr_session_send_meta`. -/
  | SR_DF_META (key : ConfKey) (value : MetaVal)
  deriving DecidableEq, Repr

/-- Modelled from the spec: the limit tracker `sr_sw_limits` (its code is not
part of the driver), reduced to the sample and frame counters and their limits
and to the configured time limit; a limit of 0 is no limit. -/
structure sr_sw_limits where
  limit_samples : Nat
  limit_frames : Nat
  samples_read : Nat
  frames_read : Nat
  limit_msec : Nat := 0
  deriving DecidableEq, Repr

/-- Modelled from the spec: `sr_sw_limits_acquisition_start` resets the
counters. -/
def sr_sw_limits_acquisition_start (limits : sr_sw_limits) : sr_sw_limits :=
  { limits with samples_read := 0, frames_read := 0 }

/-- Modelled from the spec: `sr_sw_limits_update_samples_read`. -/
def sr_sw_limits_update_samples_read (limits : sr_sw_limits) (n : Nat) : sr_sw_limits :=
  { limits with samples_read := limits.samples_read + n }

/-- Modelled from the spec: `sr_sw_limits_update_frames_read`. -/
def sr_sw_limits_update_frames_read (limits : sr_sw_limits) (n : Nat) : sr_sw_limits :=
  { limits with frames_read := limits.frames_read + n }

/-- Modelled from the spec: `sr_sw_limits_check`; `time_up` tells whether the
time limit has been reached when the check is made. -/
def sr_sw_limits_check (limits : sr_sw_limits) (time_up : Bool) : Bool :=
  (decide (0 < limits.limit_samples) && decide (limits.limit_samples ≤ limits.samples_read))
  || (decide (0 < limits.limit_frames) && decide (limits.limit_frames ≤ limits.frames_read))
  || time_up

/-- The USB connection `sdi->conn` with the link behind it: the outcomes of
the bulk transfers still to come (an OUT transfer succeeds or fails, an IN
transfer fails or delivers bytes), the frames handed to OUT transfers so far,
`stack`, the bytes a local receive buffer holds before the first transfer
into it, and the bus number and the address of the device. -/
structure sr_usb_dev_inst where
  out_results : List Bool
  in_results : List (Option (List Nat))
  out_log : List (List Nat)
  stack : List Nat
  bus : Nat := 0
  address : Nat := 0
  deriving DecidableEq, Repr

/-- The driver context `struct dev_context` (without the mutex). -/
structure dev_context where
  limits : sr_sw_limits
  dev_state : states
  in_sys_data : List Nat
  out_sys_data : List Nat
  deriving DecidableEq, Repr

/-- The device instance: connection, driver context, the packets sent to the
session so far and whether the periodic callback is registered. -/
structure sr_dev_inst where
  conn : sr_usb_dev_inst
  priv : dev_context
  session : List Packet
  source_added : Bool
  deriving DecidableEq, Repr

/-- Modelled from the spec: `sr_session_send`, the session event sink; the
packet is appended to the session log. -/
def sr_session_send (sdi : sr_dev_inst) (packet : Packet) : sr_dev_inst :=
  { sdi with session := sdi.session ++ [packet] }

/-! ## Bulk transfers -/

/-- Embedding of `send_bulk`: the frame is handed to an OUT transfer, whose
outcome is the next one of the link. -/
def send_bulk (sdi : sr_dev_inst) (out_buf : List Nat) (out_size : Nat) : Int × sr_dev_inst :=
  let usb := sdi.conn
  let ret := if usb.out_results.head? = some true then SR_OK else SR_ERR
  (ret, { sdi with conn := { usb with
    out_results := usb.out_results.tail,
    out_log := usb.out_log ++ [out_buf.take out_size] } })

/-- The result of `receive_bulk`: return code, device instance, receive buffer
and `*in_size`. -/
structure recv_result where
  ret : Int
  sdi : sr_dev_inst
  in_buf : List Nat
  in_size : Nat

/-- Embedding of `receive_bulk`: the next IN transfer of the link either fails
(also when it would deliver more than `max_size` bytes), or stores its bytes
in `in_buf`, which is then validated. -/
def receive_bulk (sdi : sr_dev_inst) (in_buf : List Nat) (max_size expected_cmd : Nat) :
    recv_result :=
  let usb := sdi.conn
  let sdi1 := { sdi with conn := { usb with in_results := usb.in_results.tail } }
  match usb.in_results.head? with
  | some (some rx) =>
    if rx.length ≤ max_size then
      let in_buf1 := recvInto in_buf rx
      ⟨receive_bulk_check in_buf1 rx.length expected_cmd, sdi1, in_buf1, rx.length⟩
    else ⟨SR_ERR, sdi1, in_buf, 0⟩
  | _ => ⟨SR_ERR, sdi1, in_buf, 0⟩

/-! ## Request frames -/

/-- The byte a `gboolean` is stored as. -/
def gboolean_byte (b : Bool) : Nat := if b then 1 else 0

/-- The frame `hantek_5xxxb_lock_panel` builds in `out_buf`. -/
def lock_panel_frame (lock : Bool) : List Nat :=
  let out_buf := [HANTEK_5XXXB_USB_NORM_MSG, 4, 0, HANTEK_5XXXB_CMD_LOCK,
    HANTEK_5XXXB_CMD_SUB_LOCK, gboolean_byte lock]
  out_buf ++ [calc_checksum out_buf 6]

/-- The frame `hantek_5xxxb_get_sys_data` builds in `out_buf`. -/
def get_sys_data_frame : List Nat :=
  let out_buf := [HANTEK_5XXXB_USB_NORM_MSG, 2, 0, HANTEK_5XXXB_CMD_RD_SYSDATA]
  out_buf ++ [calc_checksum out_buf 4]

/-- The frame `hantek_5xxxb_set_sys_data` builds in `out_buf`; the length is
stored in the single byte `out_buf[1]`. -/
def set_sys_data_frame (out_sys_data : List Nat) : List Nat :=
  let out_buf := [HANTEK_5XXXB_USB_NORM_MSG, (SYS_DATA_SIZE + 2) % 256, 0,
    HANTEK_5XXXB_CMD_WR_SYSDATA] ++ slice out_sys_data 0 SYS_DATA_SIZE
  out_buf ++ [calc_checksum out_buf (SYS_DATA_SIZE + 4)]

/-- The frame `hantek_5xxxb_get_sample_data` builds in `out_buf`. -/
def get_sample_data_frame (channel_idx : Nat) : List Nat :=
  let out_buf := [HANTEK_5XXXB_USB_NORM_MSG, 4, 0, HANTEK_5XXXB_CMD_RD_SAMPLEDATA,
    HANTEK_5XXXB_CMD_SUB_RD_SAMPLEDATA, channel_idx % 256]
  out_buf ++ [calc_checksum out_buf 6]

/-! ## Panel lock and register snapshot transfer -/

/-- Embedding of `hantek_5xxxb_lock_panel`. -/
def hantek_5xxxb_lock_panel (sdi : sr_dev_inst) (lock : Bool) : Int × sr_dev_inst :=
  let in_buf := sdi.conn.stack
  let (ret, sdi) := send_bulk sdi (lock_panel_frame lock) 7
  if ret ≠ SR_OK then (ret, sdi)
  else
    let r := receive_bulk sdi in_buf 128 HANTEK_5XXXB_CMD_LOCK
    if r.ret ≠ SR_OK then (r.ret, r.sdi)
    else if r.in_buf.getD 4 0 ≠ HANTEK_5XXXB_CMD_SUB_LOCK then (SR_ERR, r.sdi)
    else if r.in_buf.getD 5 0 ≠ gboolean_byte lock then (SR_ERR, r.sdi)
    else (SR_OK, r.sdi)

/-- Embedding of `hantek_5xxxb_get_sys_data`: return code, device instance and
the destination snapshot `*sys_data` after the call. -/
def hantek_5xxxb_get_sys_data (sdi : sr_dev_inst) (sys_data : List Nat) :
    Int × sr_dev_inst × List Nat :=
  let in_buf := sdi.conn.stack
  /- Always lock panel before getting SysDATA -/
  let (ret, sdi) := hantek_5xxxb_lock_panel sdi true
  if ret ≠ SR_OK then (ret, sdi, sys_data)
  else
    let (ret, sdi) := send_bulk sdi get_sys_data_frame 5
    if ret ≠ SR_OK then
      /- Try to unlock panel -/
      let (_, sdi) := hantek_5xxxb_lock_panel sdi false
      (ret, sdi, sys_data)
    else
      let r := receive_bulk sdi in_buf 512 HANTEK_5XXXB_CMD_RD_SYSDATA
      if r.ret ≠ SR_OK then
        /- Try to unlock panel -/
        let (_, sdi) := hantek_5xxxb_lock_panel r.sdi false
        (r.ret, sdi, sys_data)
      else
        /- Unlock panel -/
        let (ret, sdi) := hantek_5xxxb_lock_panel r.sdi false
        if ret ≠ SR_OK then (ret, sdi, sys_data)
        else (SR_OK, sdi, slice r.in_buf 4 SYS_DATA_SIZE)

/-- Embedding of `hantek_5xxxb_set_sys_data`. -/
def hantek_5xxxb_set_sys_data (sdi : sr_dev_inst) : Int × sr_dev_inst :=
  let in_buf := sdi.conn.stack
  let (ret, sdi) := send_bulk sdi (set_sys_data_frame sdi.priv.out_sys_data) (SYS_DATA_SIZE + 5)
  if ret ≠ SR_OK then (ret, sdi)
  else
    let r := receive_bulk sdi in_buf 32 HANTEK_5XXXB_CMD_WR_SYSDATA
    if r.ret ≠ SR_OK then (r.ret, r.sdi)
    /- Check return status byte -/
    else if r.in_buf.getD 4 0 ≠ 0 then (SR_ERR, r.sdi)
    else (SR_OK, r.sdi)

/-! ## Sample retrieval -/

/-- Embedding of `send_df_chunk`: one analog packet for channel `channel_idx`
with `num_samples` samples computed from the bytes at `buf`. The digits and
the voltages are floating point values and are not part of the packet here;
they are `send_df_chunk_digits` and `send_df_chunk_data`. -/
def send_df_chunk (sdi : sr_dev_inst) (buf : List Nat) (num_samples : Int)
    (channel_idx : Nat) : sr_dev_inst :=
  sr_session_send sdi (Packet.SR_DF_ANALOG channel_idx num_samples
    (slice buf 0 num_samples.toNat))

/-- The declared sample length of a status response, little endian:
`in_buf[7] << 16 | in_buf[6] << 8 | in_buf[5]`. -/
def sample_length (in_buf : List Nat) : Nat :=
  (in_buf.getD 7 0 <<< 16) ||| (in_buf.getD 6 0 <<< 8) ||| in_buf.getD 5 0

/-- The `while (TRUE)` loop of `hantek_5xxxb_get_sample_data`, with the
`uint32_t` counter `samples_read`. The first component is `SR_OK` when the
loop is left by `break` and the return code when the function returns from
inside the loop. Every turn of the loop takes one IN transfer and a turn on an
exhausted link returns, so that a `fuel` above the number of IN outcomes the
link still has is never used up (`get_sample_data_loop_fuel`). -/
def get_sample_data_loop (channel_idx : Nat) :
    Nat → sr_dev_inst → List Nat → Nat → Int × sr_dev_inst × Nat
  | 0, sdi, _, samples_read => (SR_ERR, sdi, samples_read)
  | fuel + 1, sdi, in_buf, samples_read =>
    let r := receive_bulk sdi in_buf 10007 HANTEK_5XXXB_CMD_RD_SAMPLEDATA
    if r.ret ≠ SR_OK then (r.ret, r.sdi, samples_read)
    else if r.in_buf.getD 4 0 = 0x02 then (SR_OK, r.sdi, samples_read)
    else if r.in_buf.getD 4 0 = 0x03 then
      get_sample_data_loop channel_idx fuel r.sdi r.in_buf samples_read
    else if r.in_buf.getD 4 0 ≠ 0x01 then (SR_OK, r.sdi, samples_read)
    else
      let samples_read1 := (((samples_read : Int) + ((r.in_size : Int) - 7)) % 2 ^ 32).toNat
      let sdi1 := send_df_chunk r.sdi (r.in_buf.drop 6) ((r.in_size : Int) - 7) channel_idx
      get_sample_data_loop channel_idx fuel sdi1 r.in_buf samples_read1

/-- Embedding of `hantek_5xxxb_get_sample_data`. -/
def hantek_5xxxb_get_sample_data (sdi : sr_dev_inst) (channel_idx : Nat) :
    Int × sr_dev_inst :=
  let in_buf := sdi.conn.stack
  if vert_ch_disp sdi.priv.in_sys_data channel_idx = 0 then (SR_OK, sdi)
  else
    let (ret, sdi) := send_bulk sdi (get_sample_data_frame channel_idx) 7
    if ret ≠ SR_OK then (ret, sdi)
    else
      /- Read sample data (status) packet -/
      let r := receive_bulk sdi in_buf 128 HANTEK_5XXXB_CMD_RD_SAMPLEDATA
      if r.ret ≠ SR_OK then (r.ret, r.sdi)
      else if r.in_buf.getD 4 0 = 0x03 then (SR_OK, r.sdi)
      else if r.in_buf.getD 4 0 ≠ 0x00 then (SR_ERR, r.sdi)
      else
        /- Tell the frontend a new frame is on the way. -/
        let sdi := sr_session_send r.sdi Packet.SR_DF_FRAME_BEGIN
        let (ret, sdi, samples_read) :=
          get_sample_data_loop channel_idx (sdi.conn.in_results.length + 1) sdi r.in_buf 0
        if ret ≠ SR_OK then (ret, sdi)
        else
          /- Mark the end of this frame. -/
          let sdi := sr_session_send sdi Packet.SR_DF_FRAME_END
          let limits := sr_sw_limits_update_frames_read
            (sr_sw_limits_update_samples_read sdi.priv.limits samples_read) 1
          (SR_OK, { sdi with priv := { sdi.priv with limits := limits } })

/-! ## Acquisition: start, stop and the periodic callback -/

/-- Modelled from the spec: `std_session_send_df_header` sends the
acquisition start packet. -/
def std_session_send_df_header (sdi : sr_dev_inst) : sr_dev_inst :=
  sr_session_send sdi Packet.SR_DF_HEADER

/-- Modelled from the spec: `std_session_send_df_end` sends the acquisition
end packet. -/
def std_session_send_df_end (sdi : sr_dev_inst) : sr_dev_inst :=
  sr_session_send sdi Packet.SR_DF_END

/-- Modelled from the spec: `sr_session_send_meta` sends one metadata packet
with a key and a value. -/
def sr_session_send_meta (sdi : sr_dev_inst) (key : ConfKey) (value : MetaVal) :
    sr_dev_inst :=
  sr_session_send sdi (Packet.SR_DF_META key value)

/-- Embedding of `dev_acquisition_start` of `api.c`. -/
def dev_acquisition_start (sdi : sr_dev_inst) : Int × sr_dev_inst :=
  let sdi := { sdi with priv := { sdi.priv with dev_state := states.CAPTURE } }
  let sdi := { sdi with priv := { sdi.priv with
    limits := sr_sw_limits_acquisition_start sdi.priv.limits } }
  let sdi := std_session_send_df_header sdi
  /- usb_source_add: register the periodic callback -/
  let sdi := { sdi with source_added := true }
  (SR_OK, sdi)

/-- Embedding of `dev_acquisition_stop` of `api.c`. -/
def dev_acquisition_stop (sdi : sr_dev_inst) : Int × sr_dev_inst :=
  (SR_OK, { sdi with priv := { sdi.priv with dev_state := states.STOPPING } })

/-- The body of the loop "Check channel vertical settings" of
`hantek_5xxxb_receive_data` for one channel: the metadata packets it sends,
`sys_data` being the fetched snapshot and `in_sys_data` the shadow. -/
def vert_ch_meta (sys_data in_sys_data : List Nat) (ch_idx : Nat) :
    List (ConfKey × MetaVal) :=
  if vert_ch_disp sys_data ch_idx ≠ vert_ch_disp in_sys_data ch_idx then
    [(ConfKey.SR_CONF_ENABLED, MetaVal.boolean (vert_ch_disp sys_data ch_idx != 0))]
  else if vert_ch_vb sys_data ch_idx ≠ vert_ch_vb in_sys_data ch_idx then
    let vb_idx := vert_ch_vb sys_data ch_idx
    let probe_idx := vert_ch_probe sys_data ch_idx
    [(ConfKey.SR_CONF_VDIV,
      MetaVal.tuple (ch_vdiv_at probe_idx vb_idx).1 (ch_vdiv_at probe_idx vb_idx).2)]
  else if vert_ch_coup sys_data ch_idx ≠ vert_ch_coup in_sys_data ch_idx then
    [(ConfKey.SR_CONF_COUPLING,
      MetaVal.string (ch_coupling.getD (vert_ch_coup sys_data ch_idx) ""))]
  else if vert_ch_f20mhz sys_data ch_idx ≠ vert_ch_f20mhz in_sys_data ch_idx then
    [(ConfKey.SR_CONF_FILTER, MetaVal.boolean (vert_ch_f20mhz sys_data ch_idx != 0))]
  else if vert_ch_probe sys_data ch_idx ≠ vert_ch_probe in_sys_data ch_idx then
    let vb_idx := vert_ch_vb sys_data ch_idx
    let probe_idx := vert_ch_probe sys_data ch_idx
    [(ConfKey.SR_CONF_PROBE_FACTOR, MetaVal.uint64 (probe_factor.getD probe_idx 0)),
     (ConfKey.SR_CONF_VDIV,
      MetaVal.tuple (ch_vdiv_at probe_idx vb_idx).1 (ch_vdiv_at probe_idx vb_idx).2)]
  else []

/-- The chain "Check trigger settings" of `hantek_5xxxb_receive_data`. -/
def trigger_meta (sys_data in_sys_data : List Nat) : List (ConfKey × MetaVal) :=
  if trig_src sys_data ≠ trig_src in_sys_data then
    [(ConfKey.SR_CONF_TRIGGER_SOURCE,
      MetaVal.string (trigger_source.getD (trig_src sys_data) ""))]
  else if trig_edge_slope sys_data ≠ trig_edge_slope in_sys_data then
    [(ConfKey.SR_CONF_TRIGGER_SLOPE,
      MetaVal.string (trigger_slope.getD (trig_edge_slope sys_data) ""))]
  else if trig_vpos sys_data ≠ trig_vpos in_sys_data then
    let ch_idx := trig_src sys_data
    [(ConfKey.SR_CONF_TRIGGER_LEVEL, MetaVal.trigger_level (trig_vpos sys_data) ch_idx)]
  else if horiz_trigtime sys_data ≠ horiz_trigtime in_sys_data then
    /- Trigger pos is in ps (1e12) -/
    [(ConfKey.SR_CONF_HORIZ_TRIGGERPOS, MetaVal.horiz_triggerpos (horiz_trigtime sys_data))]
  else []

/-- The memory depth that the loop over `memory_depth_mapper` in
`hantek_5xxxb_receive_data` finds for a store depth code, 0 when the code is
not in the table. -/
def buffersize_of (store_depth : Nat) : Nat :=
  match memory_depth_mapper.find? (fun e => e.2.1 == store_depth) with
  | some e => e.1
  | none => 0

/-- The chain "Check horizontal settings" of `hantek_5xxxb_receive_data`,
which goes on with the menu flag and the acquire block. -/
def horizontal_meta (sys_data in_sys_data : List Nat) : List (ConfKey × MetaVal) :=
  if horiz_tb sys_data ≠ horiz_tb in_sys_data ∨
      horiz_win_tb sys_data ≠ horiz_win_tb in_sys_data then
    [(ConfKey.SR_CONF_TIMEBASE,
      MetaVal.tuple (win_timebase.getD (horiz_win_tb sys_data) (0, 0)).1
        (win_timebase.getD (horiz_win_tb sys_data) (0, 0)).2),
     (ConfKey.SR_CONF_SAMPLERATE, MetaVal.samplerate sys_data)]
  else if control_disp_menu sys_data ≠ control_disp_menu in_sys_data then
    [(ConfKey.SR_CONF_NUM_HDIV,
      MetaVal.int32 (if control_disp_menu sys_data ≠ 0 then HANTEK_5XXXB_NUM_HDIV_MENU_ON
        else HANTEK_5XXXB_NUM_HDIV_MENU_OFF_INT)),
     (ConfKey.SR_CONF_SAMPLERATE, MetaVal.samplerate sys_data)]
  else if acqurie_store_depth sys_data ≠ acqurie_store_depth in_sys_data then
    [(ConfKey.SR_CONF_BUFFERSIZE, MetaVal.uint64 (buffersize_of (acqurie_store_depth sys_data)))]
  else if acqurie_mode sys_data ≠ acqurie_mode in_sys_data then
    [(ConfKey.SR_CONF_AVERAGING, MetaVal.averaging (acqurie_mode sys_data))]
  else if acqurie_avg_cnt sys_data ≠ acqurie_avg_cnt in_sys_data then
    [(ConfKey.SR_CONF_AVG_SAMPLES, MetaVal.avg_samples (acqurie_avg_cnt sys_data))]
  else []

/-- The metadata that `hantek_5xxxb_receive_data` sends when the fetched
snapshot `sys_data` differs from the shadow `in_sys_data`: the channel loop for
`ch_idx` 0 and 1, then the trigger chain, then the horizontal chain. -/
def changed_meta (sys_data in_sys_data : List Nat) : List (ConfKey × MetaVal) :=
  vert_ch_meta sys_data in_sys_data 0 ++ vert_ch_meta sys_data in_sys_data 1
    ++ trigger_meta sys_data in_sys_data ++ horizontal_meta sys_data in_sys_data

/-- Sends a list of metadata packets in order. -/
def send_metas (sdi : sr_dev_inst) (ms : List (ConfKey × MetaVal)) : sr_dev_inst :=
  ms.foldl (fun sdi m => sr_session_send_meta sdi m.1 m.2) sdi

/-- Embedding of `hantek_5xxxb_receive_data`, the periodic callback.
`time_up` is the outcome of the time limit in `sr_sw_limits_check`. The
result is the `gboolean` the callback returns and the device instance. -/
def hantek_5xxxb_receive_data (sdi : sr_dev_inst) (time_up : Bool) : Bool × sr_dev_inst :=
  if sdi.priv.dev_state = states.STOPPING then
    /- usb_source_remove -/
    let sdi := { sdi with source_added := false }
    let sdi := std_session_send_df_end sdi
    (true, { sdi with priv := { sdi.priv with dev_state := states.IDLE } })
  else
    let sys_data := List.replicate SYS_DATA_SIZE 0
    let (ret, sdi, sys_data) := hantek_5xxxb_get_sys_data sdi sys_data
    if ret ≠ SR_OK then (false, sdi)
    else
      /- Check if some of the common settings have changed. -/
      let sdi :=
        if memcmp_ne sys_data sdi.priv.in_sys_data SYS_DATA_SIZE then
          let sdi := send_metas sdi (changed_meta sys_data sdi.priv.in_sys_data)
          /- Set changed SysDATA to device instance -/
          { sdi with priv := { sdi.priv with in_sys_data := sys_data } }
        else sdi
      let (ret, sdi) := hantek_5xxxb_get_sample_data sdi 0
      if ret ≠ SR_OK then (false, sdi)
      else
        let (ret, sdi) := hantek_5xxxb_get_sample_data sdi 1
        if ret ≠ SR_OK then (false, sdi)
        else if sr_sw_limits_check sdi.priv.limits time_up then
          (true, (dev_acquisition_stop sdi).2)
        else (true, sdi)

/-! ## Reading the session log -/

/-- The metadata packets of a session log, in order. -/
def metas_of (session : List Packet) : List (ConfKey × MetaVal) :=
  session.filterMap (fun p =>
    match p with
    | Packet.SR_DF_META key value => some (key, value)
    | _ => none)

/-- The packets of a sample frame: frame begin, frame end, analog data. -/
def is_frame_packet : Packet → Bool
  | Packet.SR_DF_FRAME_BEGIN => true
  | Packet.SR_DF_FRAME_END => true
  | Packet.SR_DF_ANALOG _ _ _ => true
  | _ => false

/-- The device instance `b` differs from `a` only by transfers made on the
link, by sample frame packets appended to the session, and by the limit
counters. -/
structure frames_only (a b : sr_dev_inst) : Prop where
  dev_state_eq : b.priv.dev_state = a.priv.dev_state
  in_sys_data_eq : b.priv.in_sys_data = a.priv.in_sys_data
  out_sys_data_eq : b.priv.out_sys_data = a.priv.out_sys_data
  source_added_eq : b.source_added = a.source_added
  stack_eq : b.conn.stack = a.conn.stack
  session_ext : ∃ evs, b.session = a.session ++ evs ∧ ∀ e ∈ evs, is_frame_packet e = true

/-! ## Change detection in the words of the specification -/

/-- The packets of the first entry of an ordered list of checks whose field
differs; no packet when no field differs. An entry pairs the test "the field
differs between the two snapshots" with the packets that report the field. -/
def first_differing : List (Bool × List (ConfKey × MetaVal)) → List (ConfKey × MetaVal)
  | [] => []
  | (differs, packets) :: rest => if differs then packets else first_differing rest

/-- The field group of one vertical channel in evaluation order: enabled,
range, coupling, 20 MHz filter, probe factor. -/
def vert_ch_group (sys_data in_sys_data : List Nat) (ch_idx : Nat) :
    List (Bool × List (ConfKey × MetaVal)) :=
  let vdiv := MetaVal.tuple
    (ch_vdiv_at (vert_ch_probe sys_data ch_idx) (vert_ch_vb sys_data ch_idx)).1
    (ch_vdiv_at (vert_ch_probe sys_data ch_idx) (vert_ch_vb sys_data ch_idx)).2
  [ (vert_ch_disp sys_data ch_idx != vert_ch_disp in_sys_data ch_idx,
      [(ConfKey.SR_CONF_ENABLED, MetaVal.boolean (vert_ch_disp sys_data ch_idx != 0))]),
    (vert_ch_vb sys_data ch_idx != vert_ch_vb in_sys_data ch_idx,
      [(ConfKey.SR_CONF_VDIV, vdiv)]),
    (vert_ch_coup sys_data ch_idx != vert_ch_coup in_sys_data ch_idx,
      [(ConfKey.SR_CONF_COUPLING,
        MetaVal.string (ch_coupling.getD (vert_ch_coup sys_data ch_idx) ""))]),
    (vert_ch_f20mhz sys_data ch_idx != vert_ch_f20mhz in_sys_data ch_idx,
      [(ConfKey.SR_CONF_FILTER, MetaVal.boolean (vert_ch_f20mhz sys_data ch_idx != 0))]),
    (vert_ch_probe sys_data ch_idx != vert_ch_probe in_sys_data ch_idx,
      [(ConfKey.SR_CONF_PROBE_FACTOR,
        MetaVal.uint64 (probe_factor.getD (vert_ch_probe sys_data ch_idx) 0)),
       (ConfKey.SR_CONF_VDIV, vdiv)]) ]

/-- The trigger field group in evaluation order: source, slope, level,
horizontal position. -/
def trigger_group (sys_data in_sys_data : List Nat) :
    List (Bool × List (ConfKey × MetaVal)) :=
  [ (trig_src sys_data != trig_src in_sys_data,
      [(ConfKey.SR_CONF_TRIGGER_SOURCE,
        MetaVal.string (trigger_source.getD (trig_src sys_data) ""))]),
    (trig_edge_slope sys_data != trig_edge_slope in_sys_data,
      [(ConfKey.SR_CONF_TRIGGER_SLOPE,
        MetaVal.string (trigger_slope.getD (trig_edge_slope sys_data) ""))]),
    (trig_vpos sys_data != trig_vpos in_sys_data,
      [(ConfKey.SR_CONF_TRIGGER_LEVEL,
        MetaVal.trigger_level (trig_vpos sys_data) (trig_src sys_data))]),
    (horiz_trigtime sys_data != horiz_trigtime in_sys_data,
      [(ConfKey.SR_CONF_HORIZ_TRIGGERPOS,
        MetaVal.horiz_triggerpos (horiz_trigtime sys_data))]) ]

/-- The horizontal and acquisition field group in evaluation order: timebase,
menu flag, memory depth, averaging, average count. -/
def horizontal_group (sys_data in_sys_data : List Nat) :
    List (Bool × List (ConfKey × MetaVal)) :=
  [ (horiz_tb sys_data != horiz_tb in_sys_data
        || horiz_win_tb sys_data != horiz_win_tb in_sys_data,
      [(ConfKey.SR_CONF_TIMEBASE,
        MetaVal.tuple (win_timebase.getD (horiz_win_tb sys_data) (0, 0)).1
          (win_timebase.getD (horiz_win_tb sys_data) (0, 0)).2),
       (ConfKey.SR_CONF_SAMPLERATE, MetaVal.samplerate sys_data)]),
    (control_disp_menu sys_data != control_disp_menu in_sys_data,
      [(ConfKey.SR_CONF_NUM_HDIV,
        MetaVal.int32 (if control_disp_menu sys_data ≠ 0 then HANTEK_5XXXB_NUM_HDIV_MENU_ON
          else HANTEK_5XXXB_NUM_HDIV_MENU_OFF_INT)),
       (ConfKey.SR_CONF_SAMPLERATE, MetaVal.samplerate sys_data)]),
    (acqurie_store_depth sys_data != acqurie_store_depth in_sys_data,
      [(ConfKey.SR_CONF_BUFFERSIZE,
        MetaVal.uint64 (buffersize_of (acqurie_store_depth sys_data)))]),
    (acqurie_mode sys_data != acqurie_mode in_sys_data,
      [(ConfKey.SR_CONF_AVERAGING, MetaVal.averaging (acqurie_mode sys_data))]),
    (acqurie_avg_cnt sys_data != acqurie_avg_cnt in_sys_data,
      [(ConfKey.SR_CONF_AVG_SAMPLES, MetaVal.avg_samples (acqurie_avg_cnt sys_data))]) ]

/-- The metadata that one run of `hantek_5xxxb_receive_data` in a state other
than `STOPPING` has to report: the packets of `changed_meta` when the fetch
succeeds with a snapshot that differs from the shadow, none otherwise. -/
def tick_meta (sdi : sr_dev_inst) : List (ConfKey × MetaVal) :=
  if (hantek_5xxxb_get_sys_data sdi (List.replicate SYS_DATA_SIZE 0)).1 = SR_OK
      ∧ memcmp_ne (hantek_5xxxb_get_sys_data sdi (List.replicate SYS_DATA_SIZE 0)).2.2
          sdi.priv.in_sys_data SYS_DATA_SIZE = true then
    changed_meta (hantek_5xxxb_get_sys_data sdi (List.replicate SYS_DATA_SIZE 0)).2.2
      sdi.priv.in_sys_data
  else []

/-! ## Sample chunks as the link delivers them -/

/-- A received chunk that fits a receive buffer of `max_size` bytes, holds the
tag byte (byte 4) and passes the validation of `receive_bulk` for the sample
data command. -/
def valid_chunk (max_size : Nat) (rx : List Nat) : Prop :=
  5 ≤ rx.length ∧ rx.length ≤ max_size
    ∧ receive_bulk_check rx rx.length HANTEK_5XXXB_CMD_RD_SAMPLEDATA = SR_OK

instance (max_size : Nat) (rx : List Nat) : Decidable (valid_chunk max_size rx) := by
  unfold valid_chunk; infer_instance

/-- The chunks tagged 0x01 (more data) of a sequence of chunks, in order. -/
def data_chunks (chunks : List (List Nat)) : List (List Nat) :=
  chunks.filter (fun c => c.getD 4 0 == 0x01)

/-- The analog packet of a data chunk: received size minus 7 samples, taken
from byte 6 on. -/
def analog_packet (channel_idx : Nat) (c : List Nat) : Packet :=
  Packet.SR_DF_ANALOG channel_idx ((c.length : Int) - 7) ((c.drop 6).take (c.length - 7))

/-- The number of samples of a sequence of chunks: the sum of the received
sizes minus 7 of its data chunks. -/
def samples_of (chunks : List (List Nat)) : Nat :=
  ((data_chunks chunks).map (fun c => c.length - 7)).sum

/-! ## Device instances for examples -/

/-- A device instance as `scan` creates it (zeroed snapshots, state `IDLE`, no
limits, nothing sent yet), in front of a link with the given transfer outcomes
and a zeroed stack. -/
def fresh_sdi (out_results : List Bool) (in_results : List (Option (List Nat))) :
    sr_dev_inst :=
  { conn := { out_results := out_results, in_results := in_results, out_log := [],
              stack := [] },
    priv := { limits := { limit_samples := 0, limit_frames := 0, samples_read := 0,
                          frames_read := 0 },
              dev_state := states.IDLE,
              in_sys_data := List.replicate SYS_DATA_SIZE 0,
              out_sys_data := List.replicate SYS_DATA_SIZE 0 },
    session := [],
    source_added := false }

/-- The response `53 04 00 92 01 b cs` of the device to a lock or unlock
request. -/
def lock_response (lock : Bool) : List Nat :=
  [0x53, 4, 0, 0x92, 0x01, gboolean_byte lock, 0xEA + gboolean_byte lock]

/-- The response of the device to the read request: command echo 0x81 and
the 240 bytes of the snapshot. -/
def sys_data_response (sys_data : List Nat) : List Nat :=
  let body := [0x53, 242, 0, 0x81] ++ sys_data
  body ++ [body.sum % 256]

/-- A device instance on which the acquisition was started. -/
def capture_sdi (out_results : List Bool) (in_results : List (Option (List Nat))) :
    sr_dev_inst :=
  (dev_acquisition_start (fresh_sdi out_results in_results)).2

/-- The zeroed snapshot with the range code of channel 1 set to 0x03 and the
trigger source set to 0x01. -/
def snapshot_vb_trig : List Nat :=
  ((List.replicate SYS_DATA_SIZE 0).set 1 3).set 22 1

/-- The zeroed snapshot with the trigger source set to 0x01 and the trigger
slope set to 0x01. -/
def snapshot_src_slope : List Nat :=
  ((List.replicate SYS_DATA_SIZE 0).set 22 1).set 59 1

/-- A status response to a sample data request: data ready (sub-status
0x00), declared length 1. -/
def sample_status_response : List Nat := [0x53, 6, 0, 0x82, 0x00, 1, 0, 0, 0xDC]

/-- A data chunk (tag 0x01) of 8 bytes with the single sample 7. -/
def one_sample_chunk : List Nat := [0x53, 5, 0, 0x82, 0x01, 0, 7, 0xE2]

/-- An error chunk (tag 0x03). -/
def error_chunk : List Nat := [0x53, 3, 0, 0x82, 0x03, 0xDB]

/-- A final chunk (tag 0x02). -/
def final_chunk : List Nat := [0x53, 3, 0, 0x82, 0x02, 0xDA]

/-- A device instance whose shadow snapshot has channel 1 enabled and nothing
else set, in front of a link that accepts every OUT transfer made and has the
given IN transfer outcomes. -/
def enabled_sdi (in_results : List (Option (List Nat))) : sr_dev_inst :=
  { conn := { out_results := [true], in_results := in_results, out_log := [], stack := [] },
    priv := { limits := { limit_samples := 0, limit_frames := 0, samples_read := 0,
                          frames_read := 0 },
              dev_state := states.CAPTURE,
              in_sys_data := (List.replicate SYS_DATA_SIZE 0).set 0 1,
              out_sys_data := List.replicate SYS_DATA_SIZE 0 },
    session := [],
    source_added := true }

/-- The chunk sequence made of 2 ^ 32 copies of `one_sample_chunk`. -/
def wrap_chunks : List (List Nat) := List.replicate (2 ^ 32) one_sample_chunk

/-! ## The frame codec in the words of the specification -/

/-- The outgoing frame layout of the specification: marker, 16-bit little
endian length, command, arguments, checksum, where the length counts command,
arguments and checksum and the checksum is the low byte of the sum of all
preceding bytes. -/
def spec_encode_frame (command : Nat) (args : List Nat) : List Nat :=
  let body := [HANTEK_5XXXB_USB_NORM_MSG, (args.length + 2) % 256,
    (args.length + 2) / 256 % 256, command] ++ args
  body ++ [body.sum % 256]

/-- Frame decoding by the size rule and the checksum rule of `receive_bulk`:
a frame that passes both yields its command byte and its argument bytes. -/
def spec_decode_frame (frame : List Nat) : Option (Nat × List Nat) :=
  if frame.length ≠ package_size frame + 3 then none
  else if frame.getD (frame.length - 1) 0 ≠ calc_checksum frame (frame.length - 1) then none
  else some (frame.getD 3 0, slice frame 4 (frame.length - 5))

/-! ## Machine integers and exact arithmetic

The floating point computations of the volts per division, of the sample
values and of the digits are embedded in exact arithmetic, over the rational
numbers. The sample rate, whose result is an integer, is computed in the
floating point numbers of the section that follows. -/

/-- The conversion of an `int` to `int8_t`: the value modulo 2 ^ 8 in the
range -128 to 127. -/
def int8_wrap (x : Int) : Int := (x + 128) % 256 - 128

/-- The conversion of an `int` to `int16_t`: the value modulo 2 ^ 16 in the
range -32768 to 32767. -/
def int16_wrap (x : Int) : Int := (x + 32768) % 65536 - 32768

/-- The conversion of an `int` to `int64_t`. -/
def int64_wrap (x : Int) : Int := (x + 2 ^ 63) % 2 ^ 64 - 2 ^ 63

/-- The conversion of a floating point value to an integer type: the
fractional part is discarded (truncation toward zero). -/
def rat_trunc (q : ℚ) : Int := if 0 ≤ q then ⌊q⌋ else ⌈q⌉

/-- The integer part of the decimal logarithm of `n` for `1 ≤ n`: the number of
times `n` can be divided by 10 before it is below 10. -/
def ilog10 : Nat → Nat → Nat
  | 0, _ => 0
  | fuel + 1, n => if n < 10 then 0 else ilog10 fuel (n / 10) + 1

/-- The value `(int)log10f(x)` in exact arithmetic, for `0 < x`: the decimal
logarithm truncated toward zero. For `1 ≤ x` it is the integer part of the
logarithm of the integer part of `x`; for `x < 1` the logarithm is negative
and its truncation is minus the integer part of the logarithm of `1 / x`. -/
def log10_trunc (x : ℚ) : Int :=
  if 1 ≤ x then (ilog10 ⌊x⌋₊ ⌊x⌋₊ : Int) else -(ilog10 ⌊1 / x⌋₊ ⌊1 / x⌋₊ : Int)

/-! ## Floating point numbers

The sample rate is computed in IEEE 754 arithmetic: every operation is
rounded to the nearest number of its type, ties to even, `float` being
binary32 and `double` binary64, each operation evaluated in its own type. A
finite non-negative number is kept as mantissa and exponent, so that every
operation is exact integer arithmetic followed by one rounding. Overflow to
infinity does not occur for the operands of this driver and is left out; a
division by zero, which the code does not reach for a timebase code of the
table, gives 0 here. -/

/-- The integer part of the binary logarithm of `n`; `fuel` bounds the
recursion and `ilog2 n n` is the logarithm of `n`. -/
def ilog2 : Nat → Nat → Nat
  | 0, _ => 0
  | fuel + 1, n => if n < 2 then 0 else ilog2 fuel (n / 2) + 1

/-- A finite non-negative floating point number, the value `m * 2 ^ e`. -/
structure fp where
  m : Nat
  e : Int
  deriving DecidableEq, Repr

/-- The value of a floating point number. -/
def fp_val (x : fp) : ℚ := (x.m : ℚ) * (2 : ℚ) ^ x.e

/-- The quotient `n / d` rounded to the nearest floating point number with
`p` bits of mantissa and exponents of the last bit from `emin` on, ties to
even: the exponent of the last bit is `s`, the quotient in units of `2 ^ s`
is `num / den`, and `m` is that quotient rounded to the nearest integer. -/
def fp_round (p : Nat) (emin : Int) (n d : Nat) : fp :=
  if n = 0 ∨ d = 0 then ⟨0, 0⟩
  else
    let e0 : Int := (ilog2 n n : Int) - (ilog2 d d : Int)
    let ge : Bool := if 0 ≤ e0 then decide (d * 2 ^ e0.toNat ≤ n)
      else decide (d ≤ n * 2 ^ (-e0).toNat)
    let e : Int := if ge then e0 else e0 - 1
    let s : Int := max (e - ((p : Int) - 1)) emin
    let num : Nat := if 0 ≤ s then n else n * 2 ^ (-s).toNat
    let den : Nat := if 0 ≤ s then d * 2 ^ s.toNat else d
    let k := num / den
    let r := num % den
    let m := if 2 * r < den then k else if den < 2 * r then k + 1 else k + k % 2
    ⟨m, s⟩

/-- The quotient of two floating point numbers, rounded. -/
def fp_div (p : Nat) (emin : Int) (x y : fp) : fp :=
  if 0 ≤ x.e - y.e then fp_round p emin (x.m * 2 ^ (x.e - y.e).toNat) y.m
  else fp_round p emin x.m (y.m * 2 ^ (y.e - x.e).toNat)

/-- The product of two floating point numbers, rounded. -/
def fp_mul (p : Nat) (emin : Int) (x y : fp) : fp :=
  if 0 ≤ x.e + y.e then fp_round p emin (x.m * y.m * 2 ^ (x.e + y.e).toNat) 1
  else fp_round p emin (x.m * y.m) (2 ^ (-(x.e + y.e)).toNat)

/-- The conversion of a floating point number to an unsigned integer: the
fraction is cut off. -/
def fp_trunc (x : fp) : Nat :=
  if 0 ≤ x.e then x.m * 2 ^ x.e.toNat else x.m / 2 ^ (-x.e).toNat

/-- The conversion of an unsigned integer to `float` (binary32: 24 bits, last
bit from 2 ^ -149 on). -/
def float_of_nat (n : Nat) : fp := fp_round 24 (-149) n 1

/-- The division of two `float` numbers. -/
def float_div (x y : fp) : fp := fp_div 24 (-149) x y

/-- The decimal constant `n / d` as a `double` (binary64: 53 bits, last bit
from 2 ^ -1074 on); an unsigned integer `n` is `double_of_ratio n 1`. -/
def double_of_ratio (n d : Nat) : fp := fp_round 53 (-1074) n d

/-- The product of two `double` numbers; a `float` operand is converted to
`double` without change. -/
def double_mul (x y : fp) : fp := fp_mul 53 (-1074) x y

/-- The division of two `double` numbers. -/
def double_div (x y : fp) : fp := fp_div 53 (-1074) x y

/-! ## Further constants and tables of `protocol.h` -/

abbrev VB_2MV : Nat := 0x00
abbrev VB_5MV : Nat := 0x01
abbrev VB_10MV : Nat := 0x02
abbrev VB_20MV : Nat := 0x03
abbrev VB_50MV : Nat := 0x04
abbrev VB_100MV : Nat := 0x05
abbrev VB_200MV : Nat := 0x06
abbrev VB_500MV : Nat := 0x07
abbrev VB_1V : Nat := 0x08
abbrev VB_2V : Nat := 0x09
abbrev VB_5V : Nat := 0x0A

/-- The constant `HANTEK_5XXXB_NUM_VDIV`, 10.2 divisions. -/
def HANTEK_5XXXB_NUM_VDIV : ℚ := 102 / 10

abbrev HANTEK_5XXXB_NUM_VDIV_INT : Int := 11

/-- The constant `HANTEK_5XXXB_NUM_HDIV_MENU_OFF`, 19.2 divisions. -/
def HANTEK_5XXXB_NUM_HDIV_MENU_OFF : ℚ := 192 / 10

/-- Table `sample_count[timebase][ch2][disp menu][memory depth]`. -/
def sample_count : List (List (List (List Nat))) :=
  [
    [[[768, 768, 768, 768], [640, 640, 640, 640]], [[768, 768, 768, 0], [640, 640, 640, 0]]],
    [[[768, 768, 768, 768], [640, 640, 640, 640]], [[768, 768, 768, 0], [640, 640, 640, 0]]],
    [[[768, 768, 768, 768], [640, 640, 640, 640]], [[768, 768, 768, 0], [640, 640, 640, 0]]],
    [[[768, 768, 768, 768], [640, 640, 640, 640]], [[768, 768, 768, 0], [640, 640, 640, 0]]],
    [[[768, 768, 768, 768], [640, 640, 640, 640]], [[768, 768, 768, 0], [640, 640, 640, 0]]],
    [[[1536, 768, 768, 768], [1280, 640, 640, 640]], [[768, 768, 768, 0], [640, 640, 640, 0]]],
    [[[3072, 1536, 1536, 1536], [2560, 1280, 1280, 1280]], [[1536, 1536, 1536, 0], [1280, 1280, 1280, 0]]],
    [[[3072, 3072, 3072, 3072], [2560, 2560, 2560, 2560]], [[3072, 3072, 3072, 0], [2560, 2560, 2560, 0]]],
    [[[3072, 6144, 6144, 6144], [2560, 5120, 5120, 5120]], [[3072, 3072, 3072, 0], [2560, 2560, 2560, 0]]],
    [[[3840, 15360, 15360, 15360], [3200, 12800, 12800, 12800]], [[3840, 7680, 7680, 0], [3200, 6400, 6400, 0]]],
    [[[3840, 30720, 30720, 30720], [3200, 25600, 25600, 25600]], [[3840, 15360, 15360, 0], [3200, 12800, 12800, 0]]],
    [[[3840, 30720, 61440, 61440], [3200, 25600, 51200, 51200]], [[3840, 30720, 30720, 0], [3200, 25600, 25600, 0]]],
    [[[3840, 38400, 153600, 153600], [3200, 32000, 128000, 128000]], [[3840, 38400, 76800, 0], [3200, 32000, 64000, 0]]],
    [[[3840, 38400, 307200, 307200], [3200, 32000, 256000, 256000]], [[3840, 38400, 153600, 0], [3200, 32000, 128000, 0]]],
    [[[3840, 38400, 307200, 614400], [3200, 32000, 256000, 512000]], [[3840, 38400, 307200, 0], [3200, 32000, 256000, 0]]],
    [[[3840, 38400, 384000, 0], [3200, 32000, 320000, 0]], [[3840, 38400, 384000, 0], [3200, 32000, 320000, 0]]],
    [[[3840, 38400, 384000, 768000], [3200, 32000, 320000, 640000]], [[3840, 38400, 384000, 0], [3200, 32000, 320000, 0]]],
    [[[3840, 38400, 384000, 768000], [3200, 32000, 320000, 640000]], [[3840, 38400, 384000, 0], [3200, 32000, 320000, 0]]],
    [[[3840, 38400, 384000, 768000], [3200, 32000, 320000, 640000]], [[3840, 38400, 384000, 0], [3200, 32000, 320000, 0]]],
    [[[3840, 38400, 384000, 768000], [3200, 32000, 320000, 640000]], [[3840, 38400, 384000, 0], [3200, 32000, 320000, 0]]],
    [[[3840, 38400, 384000, 768000], [3200, 32000, 320000, 640000]], [[3840, 38400, 384000, 0], [3200, 32000, 320000, 0]]],
    [[[3840, 38400, 384000, 768000], [3200, 32000, 320000, 640000]], [[3840, 38400, 384000, 0], [3200, 32000, 320000, 0]]],
    [[[3840, 38400, 384000, 768000], [3200, 32000, 320000, 640000]], [[3840, 38400, 384000, 0], [3200, 32000, 320000, 0]]],
    [[[3840, 38400, 384000, 768000], [3200, 32000, 320000, 640000]], [[3840, 38400, 384000, 0], [3200, 32000, 320000, 0]]],
    [[[3840, 38400, 384000, 768000], [3200, 32000, 320000, 640000]], [[3840, 38400, 384000, 0], [3200, 32000, 320000, 0]]],
    [[[3840, 38400, 384000, 768000], [3200, 32000, 320000, 640000]], [[3840, 38400, 384000, 0], [3200, 32000, 320000, 0]]],
    [[[3840, 38400, 384000, 768000], [3200, 32000, 320000, 640000]], [[3840, 38400, 384000, 0], [3200, 32000, 320000, 0]]],
    [[[3840, 38400, 384000, 768000], [3200, 32000, 320000, 640000]], [[3840, 38400, 384000, 0], [3200, 32000, 320000, 0]]],
    [[[3840, 38400, 384000, 768000], [3200, 32000, 320000, 640000]], [[3840, 38400, 384000, 0], [3200, 32000, 320000, 0]]],
    [[[3840, 38400, 384000, 768000], [3200, 32000, 320000, 640000]], [[3840, 38400, 384000, 0], [3200, 32000, 320000, 0]]],
    [[[3840, 38400, 384000, 768000], [3200, 32000, 320000, 640000]], [[3840, 38400, 384000, 0], [3200, 32000, 320000, 0]]],
    [[[3840, 38400, 384000, 768000], [3200, 32000, 320000, 640000]], [[3840, 38400, 384000, 0], [3200, 32000, 320000, 0]]] ]

/-- Table `sample_rate[timebase][ch2][memory depth]`. -/
def sample_rate : List (List (List Nat)) :=
  [
    [[1000000000, 400000000, 400000000, 400000000], [500000000, 200000000, 200000000, 0]],
    [[1000000000, 400000000, 400000000, 400000000], [500000000, 200000000, 200000000, 0]],
    [[1000000000, 400000000, 400000000, 400000000], [500000000, 200000000, 200000000, 0]],
    [[800000000, 400000000, 400000000, 400000000], [400000000, 200000000, 200000000, 0]],
    [[800000000, 400000000, 400000000, 400000000], [400000000, 200000000, 200000000, 0]],
    [[800000000, 400000000, 400000000, 400000000], [400000000, 200000000, 200000000, 0]],
    [[800000000, 400000000, 400000000, 400000000], [400000000, 200000000, 200000000, 0]],
    [[400000000, 400000000, 400000000, 400000000], [400000000, 200000000, 200000000, 0]],
    [[200000000, 400000000, 400000000, 400000000], [200000000, 200000000, 200000000, 0]],
    [[100000000, 400000000, 400000000, 400000000], [100000000, 200000000, 200000000, 0]],
    [[50000000, 400000000, 400000000, 400000000], [50000000, 200000000, 200000000, 0]],
    [[25000000, 200000000, 400000000, 400000000], [25000000, 200000000, 200000000, 0]],
    [[10000000, 100000000, 400000000, 400000000], [10000000, 100000000, 200000000, 0]],
    [[5000000, 50000000, 400000000, 400000000], [5000000, 50000000, 200000000, 0]],
    [[2500000, 25000000, 200000000, 400000000], [2500000, 25000000, 200000000, 0]],
    [[1000000, 10000000, 100000000, 0], [1000000, 10000000, 100000000, 0]],
    [[500000, 5000000, 50000000, 100000000], [500000, 5000000, 50000000, 0]],
    [[250000, 2500000, 25000000, 50000000], [250000, 2500000, 25000000, 0]],
    [[100000, 1000000, 10000000, 20000000], [100000, 1000000, 10000000, 0]],
    [[50000, 500000, 5000000, 10000000], [50000, 500000, 5000000, 0]],
    [[25000, 250000, 2500000, 5000000], [25000, 250000, 2500000, 0]],
    [[10000, 100000, 1000000, 2000000], [10000, 100000, 1000000, 0]],
    [[5000, 50000, 500000, 1000000], [5000, 50000, 500000, 0]],
    [[2500, 25000, 250000, 500000], [2500, 25000, 250000, 0]],
    [[1000, 10000, 100000, 200000], [1000, 10000, 100000, 0]],
    [[500, 5000, 50000, 100000], [500, 5000, 50000, 0]],
    [[250, 2500, 25000, 50000], [250, 2500, 25000, 0]],
    [[100, 1000, 10000, 20000], [100, 1000, 10000, 0]],
    [[50, 500, 5000, 10000], [50, 500, 5000, 0]],
    [[25, 250, 2500, 5000], [25, 250, 2500, 0]],
    [[10, 100, 1000, 2000], [10, 100, 1000, 0]],
    [[5, 50, 500, 1000], [5, 50, 500, 0]] ]

/-! ## Memory depth mapping -/

/-- Embedding of `hantek_5xxxb_get_memory_depth_from_sys_data`. -/
def hantek_5xxxb_get_memory_depth_from_sys_data (store_depth : Nat) : Nat :=
  match memory_depth_mapper.find? (fun e => e.2.1 == store_depth) with
  | some e => e.1
  | none => 0

/-- Embedding of `hantek_5xxxb_get_store_depth_from_memory_depth`. -/
def hantek_5xxxb_get_store_depth_from_memory_depth (memory_depth : Nat) : Nat :=
  match memory_depth_mapper.find? (fun e => e.1 == memory_depth) with
  | some e => e.2.1
  | none => 0

/-- Embedding of `hantek_5xxxb_get_store_depth_from_sample_rate_array_index`. -/
def hantek_5xxxb_get_store_depth_from_sample_rate_array_index
    (sample_rate_array_index : Nat) : Nat :=
  match memory_depth_mapper.find? (fun e => e.2.2 == sample_rate_array_index) with
  | some e => e.2.1
  | none => 0

/-- Embedding of `hantek_5xxxb_get_sample_rate_array_index_from_sys_data`. -/
def hantek_5xxxb_get_sample_rate_array_index_from_sys_data (store_depth : Nat) : Nat :=
  match memory_depth_mapper.find? (fun e => e.2.1 == store_depth) with
  | some e => e.2.2
  | none => 0

/-! ## Volts per division, sample values, digits, sample rate -/

/-- Embedding of `hantek_5xxxb_get_volts_per_div` on the shadow snapshot
`in_sys_data`, in exact arithmetic. -/
def hantek_5xxxb_get_volts_per_div (in_sys_data : List Nat) (channel_idx : Nat) : ℚ :=
  let vb := vert_ch_vb in_sys_data channel_idx
  let probe := vert_ch_probe in_sys_data channel_idx
  let vdiv : ℚ := ((ch_vdiv_at probe vb).1 : ℚ) / ((ch_vdiv_at probe vb).2 : ℚ)
  if vert_ch_fine in_sys_data channel_idx ≠ 0 then
    if vb = VB_5MV ∨ vb = VB_50MV ∨ vb = VB_500MV ∨ vb = VB_5V then
      /- 0x01 to 0x4A (75 steps) when between "factor 2.5x" levels -/
      vdiv - (vert_ch_cnt_fine in_sys_data channel_idx : ℚ) * ((vdiv - vdiv / (25 / 10)) / 75)
    else
      /- 0x00 to 0x31 (49 steps) when between "factor 2x" level -/
      vdiv - (vert_ch_cnt_fine in_sys_data channel_idx : ℚ) * ((vdiv / 2) / 50)
  else vdiv

/-- Embedding of `hantek_5xxxb_get_value_from_vert_pos` on the shadow snapshot
`in_sys_data`, in exact arithmetic; `raw_value` is an `int16_t`. -/
def hantek_5xxxb_get_value_from_vert_pos (in_sys_data : List Nat) (pos : Int) (vdiv : ℚ)
    (channel_idx : Nat) : ℚ :=
  /- pos - offset -/
  let raw_value := int16_wrap (pos - vert_ch_pos in_sys_data channel_idx)
  (raw_value : ℚ) * (vdiv / 25)

/-- Embedding of `hantek_5xxxb_get_vert_pos_from_value` on the shadow snapshot
`in_sys_data`, in exact arithmetic. The quotient is converted to `int8_t`: its
fractional part is discarded, and a value outside the range of `int8_t`, for
which C does not define the conversion, is reduced modulo 2 ^ 8. The result
is an `int16_t`. -/
def hantek_5xxxb_get_vert_pos_from_value (in_sys_data : List Nat) (value vdiv : ℚ)
    (channel_idx : Nat) : Int :=
  let pos := int8_wrap (rat_trunc (value / (vdiv / 25)))
  int16_wrap (pos + vert_ch_pos in_sys_data channel_idx)

/-- The byte `buf[i]` read as `int8_t`. -/
def int8_of_byte (b : Nat) : Int := int8_wrap (b : Int)

/-- The sample values that `send_df_chunk` stores in `analog.data`: the
first `num_samples` bytes of `buf`, read as `int8_t` and converted with the
volts per division of the channel. -/
def send_df_chunk_data (in_sys_data : List Nat) (buf : List Nat) (num_samples : Int)
    (channel_idx : Nat) : List ℚ :=
  let vdiv := hantek_5xxxb_get_volts_per_div in_sys_data channel_idx
  (slice buf 0 num_samples.toNat).map (fun b =>
    hantek_5xxxb_get_value_from_vert_pos in_sys_data (int8_of_byte b) vdiv channel_idx)

/-- The digits that `send_df_chunk` stores in `analog.encoding->digits` and
`analog.spec->spec_digits`: `-(int)vdivlog + (vdivlog < 0.0)` for
`vdivlog = log10f(vdiv * HANTEK_5XXXB_NUM_VDIV / 255)`, in exact arithmetic;
the logarithm is negative exactly when its argument is below 1. -/
def send_df_chunk_digits (in_sys_data : List Nat) (channel_idx : Nat) : Int :=
  let vdiv := hantek_5xxxb_get_volts_per_div in_sys_data channel_idx
  let x := vdiv * HANTEK_5XXXB_NUM_VDIV / 255
  let vdivlog_int : Int := log10_trunc x
  (-vdivlog_int) + (if x < 1 then 1 else 0)

/-- The entry `sample_count[tb][ch2][menu][idx]`. -/
def sample_count_at (tb ch2 menu idx : Nat) : Nat :=
  (((sample_count.getD tb []).getD ch2 []).getD menu []).getD idx 0

/-- The entry `sample_rate[tb][ch2][idx]`. -/
def sample_rate_at (tb ch2 idx : Nat) : Nat :=
  ((sample_rate.getD tb []).getD ch2 []).getD idx 0

/-- The floating point expression that `hantek_5xxxb_get_samplerate`
converts to `uint64_t`: `samples / ((tb[0] / (float)tb[1]) * num_hdiv)`, with
the quotient of the timebase a `float`, `num_hdiv` the `double` 16 (menu
visible) or 19.2, and the product and the outer quotient `double`. -/
def samplerate_expr (samples : Nat) (tb : Nat × Nat) (control_disp_menu : Nat) : fp :=
  let num_hdiv : fp :=
    if control_disp_menu ≠ 0 then double_of_ratio 16 1 else double_of_ratio 192 10
  double_div (double_of_ratio samples 1)
    (double_mul (float_div (float_of_nat tb.1) (float_of_nat tb.2)) num_hdiv)

/-- Embedding of `hantek_5xxxb_get_samplerate`, in floating point as the
code computes it; the result is a `uint64_t`. -/
def hantek_5xxxb_get_samplerate (sys_data : List Nat) : Nat :=
  let sample_rate_array_idx :=
    hantek_5xxxb_get_sample_rate_array_index_from_sys_data (acqurie_store_depth sys_data)
  let samples := sample_count_at (horiz_win_tb sys_data)
    (vert_ch_disp sys_data 0 &&& vert_ch_disp sys_data 1) (control_disp_menu sys_data)
    sample_rate_array_idx
  fp_trunc (samplerate_expr samples (win_timebase.getD (horiz_win_tb sys_data) (0, 0))
    (control_disp_menu sys_data)) % 2 ^ 64

/-- Embedding of `hantek_5xxxb_set_timebase`: the pending snapshot
`out_sys_data` after the call; `sample_rate_array_idx - 1` is a `size_t`. -/
def hantek_5xxxb_set_timebase (in_sys_data out_sys_data : List Nat) (timebase_idx : Int) :
    List Nat :=
  let sample_rate_array_idx :=
    hantek_5xxxb_get_sample_rate_array_index_from_sys_data (acqurie_store_depth in_sys_data)
  /- Check if the current memory depth is valide for the new timebase. -/
  let samplerate := sample_rate_at (horiz_win_tb in_sys_data)
    (vert_ch_disp in_sys_data 0 &&& vert_ch_disp in_sys_data 1) sample_rate_array_idx
  let out1 :=
    if samplerate = 0 then
      out_sys_data.set 195 (hantek_5xxxb_get_store_depth_from_sample_rate_array_index
        ((sample_rate_array_idx + 2 ^ 64 - 1) % 2 ^ 64))
    else out_sys_data
  out1.set 168 (timebase_idx % 256).toNat

/-! ## Configuration: `config_get` and `config_set` of `api.c` -/

/-- The `g_variant_get_boolean` of a value; a value of another type reads as
false. -/
def g_variant_get_boolean : MetaVal → Bool
  | MetaVal.boolean b => b
  | _ => false

/-- The `g_variant_get_uint64` of a value; a value of another type reads as
0. -/
def g_variant_get_uint64 : MetaVal → Nat
  | MetaVal.uint64 n => n
  | _ => 0

/-- The `g_variant_get_double` of a value; a value of another type reads as
0. -/
def g_variant_get_double : MetaVal → ℚ
  | MetaVal.double x => x
  | _ => 0

/-- Modelled from the spec: `std_u64_tuple_idx`, the index of the first entry
of the table that equals the pair of the value, -1 when there is none. -/
def std_u64_tuple_idx (data : MetaVal) (a : List (Nat × Nat)) : Int :=
  match data with
  | MetaVal.tuple p q => if a.indexOf (p, q) < a.length then (a.indexOf (p, q) : Int) else -1
  | _ => -1

/-- Modelled from the spec: `std_u64_idx`, the index of the first entry of the
table that equals the number of the value, -1 when there is none. -/
def std_u64_idx (data : MetaVal) (a : List Nat) : Int :=
  match data with
  | MetaVal.uint64 n => if a.indexOf n < a.length then (a.indexOf n : Int) else -1
  | _ => -1

/-- Modelled from the spec: `std_str_idx`, the index of the first entry of the
table that equals the string of the value, -1 when there is none. -/
def std_str_idx (data : MetaVal) (a : List String) : Int :=
  match data with
  | MetaVal.string s => if a.indexOf s < a.length then (a.indexOf s : Int) else -1
  | _ => -1

/-- Modelled from the spec: the declarations of the acquire block that the
driver names and `protocol.h` does not contain: the codes of the two
acquisition modes and the table of the average counts. -/
structure acquire_decls where
  ACQ_MODE_NORMAL : Nat
  ACQ_MODE_AVG : Nat
  average_count : List Nat
  deriving DecidableEq, Repr

/-- The three limit keys, which `config_get` and `config_set` hand to the
limit tracker. -/
def is_limit_key (key : ConfKey) : Bool :=
  key = ConfKey.SR_CONF_LIMIT_SAMPLES || key = ConfKey.SR_CONF_LIMIT_FRAMES
    || key = ConfKey.SR_CONF_LIMIT_MSEC

/-- Modelled from the spec: `sr_sw_limits_config_get`, the configured limit
for a limit key. -/
def sr_sw_limits_config_get (limits : sr_sw_limits) (key : ConfKey) : Int × Option MetaVal :=
  match key with
  | ConfKey.SR_CONF_LIMIT_SAMPLES => (SR_OK, some (MetaVal.uint64 limits.limit_samples))
  | ConfKey.SR_CONF_LIMIT_FRAMES => (SR_OK, some (MetaVal.uint64 limits.limit_frames))
  | ConfKey.SR_CONF_LIMIT_MSEC => (SR_OK, some (MetaVal.uint64 limits.limit_msec))
  | _ => (SR_ERR_NA, none)

/-- Modelled from the spec: `sr_sw_limits_config_set`, which stores the limit
for a limit key. -/
def sr_sw_limits_config_set (limits : sr_sw_limits) (key : ConfKey) (data : MetaVal) :
    Int × sr_sw_limits :=
  match key with
  | ConfKey.SR_CONF_LIMIT_SAMPLES =>
    (SR_OK, { limits with limit_samples := g_variant_get_uint64 data })
  | ConfKey.SR_CONF_LIMIT_FRAMES =>
    (SR_OK, { limits with limit_frames := g_variant_get_uint64 data })
  | ConfKey.SR_CONF_LIMIT_MSEC =>
    (SR_OK, { limits with limit_msec := g_variant_get_uint64 data })
  | _ => (SR_ERR_NA, limits)

/-- The call `hantek_5xxxb_get_sys_data(sdi, devc->in_sys_data)` of `api.c`:
the destination is the shadow snapshot and the return code is not looked
at. -/
def get_sys_data_into_shadow (sdi : sr_dev_inst) : sr_dev_inst :=
  let r := hantek_5xxxb_get_sys_data sdi sdi.priv.in_sys_data
  { r.2.1 with priv := { r.2.1.priv with in_sys_data := r.2.2 } }

/-- The branch `!cg` of `config_get`: return code and `*data`, from the
shadow snapshot. -/
def config_get_device (in_sys_data : List Nat) (key : ConfKey) : Int × Option MetaVal :=
  match key with
  | ConfKey.SR_CONF_NUM_HDIV =>
    (SR_OK, some (MetaVal.int32 (if control_disp_menu in_sys_data ≠ 0
      then HANTEK_5XXXB_NUM_HDIV_MENU_ON else HANTEK_5XXXB_NUM_HDIV_MENU_OFF_INT)))
  | ConfKey.SR_CONF_NUM_VDIV => (SR_OK, some (MetaVal.int32 HANTEK_5XXXB_NUM_VDIV_INT))
  | ConfKey.SR_CONF_TIMEBASE =>
    (SR_OK, some (MetaVal.tuple (win_timebase.getD (horiz_win_tb in_sys_data) (0, 0)).1
      (win_timebase.getD (horiz_win_tb in_sys_data) (0, 0)).2))
  | ConfKey.SR_CONF_SAMPLERATE =>
    (SR_OK, some (MetaVal.uint64 (hantek_5xxxb_get_samplerate in_sys_data)))
  | ConfKey.SR_CONF_TRIGGER_SOURCE =>
    (SR_OK, some (MetaVal.string (trigger_source.getD (trig_src in_sys_data) "")))
  | ConfKey.SR_CONF_TRIGGER_SLOPE =>
    (SR_OK, some (MetaVal.string (trigger_slope.getD (trig_edge_slope in_sys_data) "")))
  | ConfKey.SR_CONF_TRIGGER_LEVEL =>
    let ch_idx := trig_src in_sys_data
    if ch_idx > 1 then (SR_ERR_NA, none)
    else
      let vdiv := hantek_5xxxb_get_volts_per_div in_sys_data ch_idx
      (SR_OK, some (MetaVal.double
        (hantek_5xxxb_get_value_from_vert_pos in_sys_data (trig_vpos in_sys_data) vdiv ch_idx)))
  | ConfKey.SR_CONF_HORIZ_TRIGGERPOS =>
    /- Trigger pos is in ps (1e12) -/
    (SR_OK, some (MetaVal.double ((horiz_trigtime in_sys_data : ℚ) / 10 ^ 12)))
  | ConfKey.SR_CONF_BUFFERSIZE =>
    (SR_OK, some (MetaVal.uint64
      (hantek_5xxxb_get_memory_depth_from_sys_data (acqurie_store_depth in_sys_data))))
  | ConfKey.SR_CONF_AVERAGING => (SR_OK, some (MetaVal.averaging (acqurie_mode in_sys_data)))
  | ConfKey.SR_CONF_AVG_SAMPLES =>
    (SR_OK, some (MetaVal.avg_samples (acqurie_avg_cnt in_sys_data)))
  | _ => (SR_ERR_NA, none)

/-- The switch of `config_get` for the channel group of channel `ch_idx`:
return code and `*data`, from the shadow snapshot. -/
def config_get_channel (in_sys_data : List Nat) (key : ConfKey) (ch_idx : Nat) :
    Int × Option MetaVal :=
  match key with
  | ConfKey.SR_CONF_ENABLED =>
    (SR_OK, some (MetaVal.boolean (vert_ch_disp in_sys_data ch_idx != 0)))
  | ConfKey.SR_CONF_FILTER =>
    (SR_OK, some (MetaVal.boolean (vert_ch_f20mhz in_sys_data ch_idx != 0)))
  | ConfKey.SR_CONF_VDIV =>
    let vb := vert_ch_vb in_sys_data ch_idx
    let probe_idx := vert_ch_probe in_sys_data ch_idx
    (SR_OK, some (MetaVal.tuple (ch_vdiv_at probe_idx vb).1 (ch_vdiv_at probe_idx vb).2))
  | ConfKey.SR_CONF_COUPLING =>
    (SR_OK, some (MetaVal.string (ch_coupling.getD (vert_ch_coup in_sys_data ch_idx) "")))
  | ConfKey.SR_CONF_PROBE_FACTOR =>
    (SR_OK, some (MetaVal.uint64 (probe_factor.getD (vert_ch_probe in_sys_data ch_idx) 0)))
  | _ => (SR_ERR_NA, none)

/-- The part of `config_get` behind the fetch: the answer for `key` from the
shadow snapshot. The channel group `cg` is `none` for `NULL`, `some 0` and
`some 1` for the groups of the two channels and any other value for a group
that is not one of the device. -/
def config_get_answer (in_sys_data : List Nat) (key : ConfKey) (cg : Option Nat) :
    Int × Option MetaVal :=
  match cg with
  | none => config_get_device in_sys_data key
  | some 0 => config_get_channel in_sys_data key 0
  | some 1 => config_get_channel in_sys_data key 1
  | some _ => (SR_ERR_ARG, none)

/-- Embedding of `config_get`: return code, device instance and `*data`
(`none` when nothing is stored). -/
def config_get (key : ConfKey) (sdi : sr_dev_inst) (cg : Option Nat) :
    Int × sr_dev_inst × Option MetaVal :=
  let devc := sdi.priv
  let usb := sdi.conn
  /- Handle config keys that don't need the SysDATA -/
  if is_limit_key key then
    let r := sr_sw_limits_config_get devc.limits key
    (r.1, sdi, r.2)
  else if key = ConfKey.SR_CONF_CONN then
    (SR_OK, sdi, some (MetaVal.string (toString usb.bus ++ "." ++ toString usb.address)))
  else
    /- Don't get the SysDATA when acquisition is running. -/
    let sdi := if devc.dev_state ≠ states.CAPTURE then get_sys_data_into_shadow sdi else sdi
    let r := config_get_answer sdi.priv.in_sys_data key cg
    (r.1, sdi, r.2)

/-- The snapshot with the `n` bytes at offset `off` set to the little-endian
image of `v`. -/
def set_le_field (sd : List Nat) (off : Nat) : Nat → Nat → List Nat
  | 0, _ => sd
  | n + 1, v => set_le_field (sd.set off (v % 256)) (off + 1) n (v / 256)

/-- The snapshot with the `n` bytes at offset `off` set to the little-endian
two's complement image of `v`. -/
def set_le_field_signed (sd : List Nat) (off n : Nat) (v : Int) : List Nat :=
  set_le_field sd off n (v % 2 ^ (8 * n)).toNat

/-- The branch `!cg` of `config_set`: the return code with which the function
leaves before the commit, or the pending snapshot to be committed. -/
def config_set_device (decls : acquire_decls) (in_sys_data out_sys_data : List Nat)
    (key : ConfKey) (data : MetaVal) : Except Int (List Nat) :=
  match key with
  | ConfKey.SR_CONF_TIMEBASE =>
    let idx := std_u64_tuple_idx data win_timebase
    if idx < 0 then Except.error SR_ERR_ARG
    else Except.ok (hantek_5xxxb_set_timebase in_sys_data out_sys_data idx)
  | ConfKey.SR_CONF_TRIGGER_SOURCE =>
    let idx := std_str_idx data trigger_source
    if idx < 0 then Except.error SR_ERR_ARG
    else Except.ok (out_sys_data.set 22 (idx % 256).toNat)
  | ConfKey.SR_CONF_TRIGGER_SLOPE =>
    let idx := std_str_idx data trigger_slope
    if idx < 0 then Except.error SR_ERR_ARG
    else Except.ok (out_sys_data.set 59 (idx % 256).toNat)
  | ConfKey.SR_CONF_TRIGGER_LEVEL =>
    let ch_idx := trig_src in_sys_data
    if ch_idx > 1 then Except.error SR_ERR_ARG
    else
      let vdiv := hantek_5xxxb_get_volts_per_div in_sys_data ch_idx
      Except.ok (set_le_field_signed out_sys_data 25 2
        (hantek_5xxxb_get_vert_pos_from_value in_sys_data (g_variant_get_double data) vdiv
          ch_idx))
  | ConfKey.SR_CONF_HORIZ_TRIGGERPOS =>
    /- horiz_trigtime is in ps (1e12) -/
    Except.ok (set_le_field_signed out_sys_data 170 8
      (int64_wrap (rat_trunc (g_variant_get_double data * 10 ^ 12))))
  | ConfKey.SR_CONF_BUFFERSIZE =>
    Except.ok (out_sys_data.set 195
      (hantek_5xxxb_get_store_depth_from_memory_depth (g_variant_get_uint64 data)))
  | ConfKey.SR_CONF_AVERAGING =>
    Except.ok (out_sys_data.set 192
      ((if g_variant_get_boolean data then decls.ACQ_MODE_AVG else decls.ACQ_MODE_NORMAL)
        % 256))
  | ConfKey.SR_CONF_AVG_SAMPLES =>
    let idx := std_u64_idx data decls.average_count
    if idx < 0 then Except.error SR_ERR_ARG
    else Except.ok (out_sys_data.set 193 (idx % 256).toNat)
  | _ => Except.error SR_ERR_ARG

/-- The switch of `config_set` for the channel group of channel `ch_idx`. -/
def config_set_channel (in_sys_data out_sys_data : List Nat) (key : ConfKey) (data : MetaVal)
    (ch_idx : Nat) : Except Int (List Nat) :=
  match key with
  | ConfKey.SR_CONF_ENABLED =>
    Except.ok (out_sys_data.set (10 * ch_idx + 0) (gboolean_byte (g_variant_get_boolean data)))
  | ConfKey.SR_CONF_FILTER =>
    Except.ok (out_sys_data.set (10 * ch_idx + 3) (gboolean_byte (g_variant_get_boolean data)))
  | ConfKey.SR_CONF_VDIV =>
    let probe_idx := vert_ch_probe in_sys_data ch_idx
    let idx := std_u64_tuple_idx data (ch_vdiv.getD probe_idx [])
    if idx < 0 then Except.error SR_ERR_ARG
    else Except.ok (out_sys_data.set (10 * ch_idx + 1) (idx % 256).toNat)
  | ConfKey.SR_CONF_COUPLING =>
    let idx := std_str_idx data ch_coupling
    if idx < 0 then Except.error SR_ERR_ARG
    else Except.ok (out_sys_data.set (10 * ch_idx + 2) (idx % 256).toNat)
  | ConfKey.SR_CONF_PROBE_FACTOR =>
    let idx := std_u64_idx data probe_factor
    if idx < 0 then Except.error SR_ERR_ARG
    else Except.ok (out_sys_data.set (10 * ch_idx + 5) (idx % 256).toNat)
  | _ => Except.error SR_ERR_NA

/-- The part of `config_set` between the clone and the commit: the mutation of
the pending snapshot for `key` and `data`. -/
def config_set_mutate (decls : acquire_decls) (in_sys_data out_sys_data : List Nat)
    (key : ConfKey) (data : MetaVal) (cg : Option Nat) : Except Int (List Nat) :=
  match cg with
  | none => config_set_device decls in_sys_data out_sys_data key data
  | some 0 => config_set_channel in_sys_data out_sys_data key data 0
  | some 1 => config_set_channel in_sys_data out_sys_data key data 1
  | some _ => Except.error SR_ERR_ARG

/-- The `memcpy(devc->out_sys_data, devc->in_sys_data, sizeof(struct
hantek_5xxxb_sys_data))` of `config_set`. -/
def clone_shadow (sdi : sr_dev_inst) : sr_dev_inst :=
  { sdi with priv := { sdi.priv with
      out_sys_data := slice sdi.priv.in_sys_data 0 SYS_DATA_SIZE } }

/-- Embedding of `config_set`. -/
def config_set (decls : acquire_decls) (key : ConfKey) (data : MetaVal) (sdi : sr_dev_inst)
    (cg : Option Nat) : Int × sr_dev_inst :=
  let devc := sdi.priv
  /- Handle config keys that don't need the SysDATA -/
  if is_limit_key key then
    let r := sr_sw_limits_config_set devc.limits key data
    (r.1, { sdi with priv := { devc with limits := r.2 } })
  else
    /- Don't get the SysDATA when acquisition is running. -/
    let sdi := if devc.dev_state ≠ states.CAPTURE then get_sys_data_into_shadow sdi else sdi
    let sdi := clone_shadow sdi
    match config_set_mutate decls sdi.priv.in_sys_data sdi.priv.out_sys_data key data cg with
    | Except.error ret => (ret, sdi)
    | Except.ok out_sys_data =>
      hantek_5xxxb_set_sys_data { sdi with priv := { sdi.priv with out_sys_data := out_sys_data } }

/-! ## Snapshots and device instances for the examples of the conversions and of the configuration -/

/-- The zeroed snapshot with the vertical offset of channel 1 set to -32768. -/
def snapshot_pos_min : List Nat := ((List.replicate SYS_DATA_SIZE 0).set 8 0x00).set 9 0x80

/-- The zeroed snapshot with the vertical offset of channel 1 set to -100. -/
def snapshot_pos_m100 : List Nat := ((List.replicate SYS_DATA_SIZE 0).set 8 0x9C).set 9 0xFF

/-- The zeroed snapshot with the range code of channel 1 set to `VB_1V`: probe
code 0, fine-step flag clear, vertical offset 0. -/
def snapshot_1v : List Nat := (List.replicate SYS_DATA_SIZE 0).set 1 VB_1V

/-- The zeroed snapshot: both channels have range code `VB_2MV`, probe code 0
and the fine-step flag clear. -/
def snapshot_2mv : List Nat := List.replicate SYS_DATA_SIZE 0

/-- The zeroed snapshot with channel 1 displayed and the window timebase code
0x1F (40 s): channel 2 off, menu off, store depth code 0x00 (4k). -/
def snapshot_40s : List Nat := ((List.replicate SYS_DATA_SIZE 0).set 0 1).set 168 0x1F

/-- The response `53 03 00 91 00 E7` of the device to a write request: status
byte 0. -/
def set_sys_data_response : List Nat := [0x53, 3, 0, 0x91, 0x00, 0xE7]

/-- Example values for the declarations of the acquire block that `protocol.h`
does not contain. -/
def acquire_decls_example : acquire_decls :=
  { ACQ_MODE_NORMAL := 0, ACQ_MODE_AVG := 1, average_count := [4, 16, 64, 128] }

/-- A device instance in state `IDLE` whose link accepts four OUT transfers
and answers a fetch with the snapshot `snapshot_vb_trig` and a write with
status 0. -/
def idle_sdi : sr_dev_inst :=
  fresh_sdi [true, true, true, true]
    [some (lock_response true), some (sys_data_response snapshot_vb_trig),
     some (lock_response false), some set_sys_data_response]

/-- The integer part of the exact quotient `samples / ((tb.1 / tb.2) * H)`,
with H = 16 when the menu is visible and 19.2 when it is not, written in whole
numbers (`exact_rate_eq_floor`). -/
def exact_rate (samples : Nat) (tb : Nat × Nat) (control_disp_menu : Nat) : Nat :=
  if control_disp_menu ≠ 0 then samples * tb.2 * 1 / (tb.1 * 16)
  else samples * tb.2 * 10 / (tb.1 * 192)

/-- The zeroed snapshot with channel 1 displayed, channel 2 off, the window
timebase code 0x12 (2 ms), the menu visible and the store depth code 0x00
(4k). -/
def snapshot_2ms_menu : List Nat :=
  (((List.replicate SYS_DATA_SIZE 0).set 0 1).set 168 0x12).set 214 1

/-! ## The inverse conversion in the words of the specification -/

/-- The inverse conversion in the words of the specification: the value in
steps of `vdiv / 25`, rounded to the nearest step, plus the offset, clamped to
the range of a signed 8-bit number. -/
def spec_encode_value (value vdiv : ℚ) (offset : Int) : Int :=
  max (-128) (min 127 (round (value / (vdiv / 25)) + offset))

/-! ## Buffer sizes of `api.c` -/

/-- Table `buffersizes` of `api.c`: the sizes that `config_list` offers for
the buffer size key. -/
def buffersizes : List Nat := [4 * 1000, 40 * 1000, 512 * 1000, 1 * 1000 * 1000]

/-! ## The shadow that `config_set` clones and the field a key targets -/

/-- The shadow snapshot as it stands when `config_set` clones it: after the
fetch in the states other than `CAPTURE`, untouched in state `CAPTURE`. -/
def shadow_after_fetch (sdi : sr_dev_inst) : List Nat :=
  if sdi.priv.dev_state ≠ states.CAPTURE then (get_sys_data_into_shadow sdi).priv.in_sys_data
  else sdi.priv.in_sys_data

/-- The byte offsets, in the packed `struct hantek_5xxxb_sys_data`, of the
field that a configuration key targets: `trig_src` (22), `trig_edge_slope`
(59), the `int16_t trig_vpos` (25 and 26), the `int64_t horiz_trigtime` (170
to 177), `acqurie_store_depth` (195), `acqurie_mode` (192), `acqurie_avg_cnt`
(193) and, for the channel group of channel `ch`, the bytes `disp`, `vb`,
`coup`, `f20mhz` and `probe` of `vert_ch[ch]`. -/
def target_field (key : ConfKey) (cg : Option Nat) : List Nat :=
  match cg, key with
  | none, ConfKey.SR_CONF_TRIGGER_SOURCE => [22]
  | none, ConfKey.SR_CONF_TRIGGER_SLOPE => [59]
  | none, ConfKey.SR_CONF_TRIGGER_LEVEL => [25, 26]
  | none, ConfKey.SR_CONF_HORIZ_TRIGGERPOS => [170, 171, 172, 173, 174, 175, 176, 177]
  | none, ConfKey.SR_CONF_BUFFERSIZE => [195]
  | none, ConfKey.SR_CONF_AVERAGING => [192]
  | none, ConfKey.SR_CONF_AVG_SAMPLES => [193]
  | some ch, ConfKey.SR_CONF_ENABLED => [10 * ch + 0]
  | some ch, ConfKey.SR_CONF_VDIV => [10 * ch + 1]
  | some ch, ConfKey.SR_CONF_COUPLING => [10 * ch + 2]
  | some ch, ConfKey.SR_CONF_FILTER => [10 * ch + 3]
  | some ch, ConfKey.SR_CONF_PROBE_FACTOR => [10 * ch + 5]
  | _, _ => []

/-! ## Device instances, snapshots and chunks for the examples of the error paths -/

/-- A device instance in state `IDLE` whose link accepts four OUT transfers,
answers the read request of a fetch with a frame that fails validation (5
bytes, declared length 9) and answers a write with status 0. -/
def bad_fetch_sdi : sr_dev_inst :=
  fresh_sdi [true, true, true, true]
    [some (lock_response true), some [0x53, 9, 0, 0x81, 0xDD],
     some (lock_response false), some set_sys_data_response]

/-- The zeroed snapshot with channel 1 displayed, channel 2 off, the window
timebase code 0x10 (400 us) and the store depth code 0x07 (1M). -/
def snapshot_400us_1m : List Nat :=
  (((List.replicate SYS_DATA_SIZE 0).set 0 1).set 168 0x10).set 195 0x07

/-- A data chunk (tag 0x01) of 6 bytes: length field 3, command echo 0x82,
checksum 0xD9, no counter byte and no sample. -/
def short_chunk : List Nat := [0x53, 3, 0, 0x82, 0x01, 0xD9]

/-- The zeroed snapshot with the trigger source code 0x02 (`Ext`). -/
def snapshot_trig_ext : List Nat := (List.replicate SYS_DATA_SIZE 0).set 22 2

/-- The snapshot `snapshot_trig_ext` with the trigger level offset 1. -/
def snapshot_trig_ext_vpos : List Nat := snapshot_trig_ext.set 25 1

/-- A device instance in state `CAPTURE` with the shadow `snapshot_trig_ext`
(both channels off), in front of a link that answers one fetch with the
snapshot `snapshot_trig_ext_vpos`. -/
def trig_ext_sdi : sr_dev_inst :=
  { conn := { out_results := [true, true, true],
              in_results := [some (lock_response true),
                some (sys_data_response snapshot_trig_ext_vpos), some (lock_response false)],
              out_log := [], stack := [] },
    priv := { limits := { limit_samples := 0, limit_frames := 0, samples_read := 0,
                          frames_read := 0 },
              dev_state := states.CAPTURE,
              in_sys_data := snapshot_trig_ext,
              out_sys_data := List.replicate SYS_DATA_SIZE 0 },
    session := [],
    source_added := true }

/-! ## Lemmas on buffers and the checksum -/

theorem getD_eq_zero_of_le (l : List Nat) (i : Nat) (h : l.length ≤ i) : l.getD i 0 = 0 := by
  simp [List.getD_eq_getElem?_getD, List.getElem?_eq_none h]

theorem getD_lt_of_allBytes (rx : List Nat) (hb : allBytes rx) (i : Nat) :
    rx.getD i 0 < 256 := by
  by_cases h : i < rx.length
  · rw [List.getD_eq_getElem _ _ h]
    exact hb _ (List.getElem_mem h)
  · rw [getD_eq_zero_of_le rx i (Nat.le_of_not_lt h)]
    decide

theorem sum_take_succ_getD (msg : List Nat) (n : Nat) :
    (msg.take (n + 1)).sum = (msg.take n).sum + msg.getD n 0 := by
  by_cases h : n < msg.length
  · rw [List.sum_take_succ msg n h]
    simp [List.getD_eq_getElem?_getD, List.getElem?_eq_getElem h]
  · have h1 : msg.length ≤ n := Nat.le_of_not_lt h
    rw [List.take_of_length_le h1, List.take_of_length_le (Nat.le_succ_of_le h1),
      getD_eq_zero_of_le msg n h1]
    simp

/-- The 16-bit running sum of the checksum loop is the sum of the bytes read,
modulo 65536. -/
theorem checksum_loop_eq (msg : List Nat) (n : Nat) :
    (List.range n).foldl (fun sum i => (sum + msg.getD i 0) % 65536) 0
      = (msg.take n).sum % 65536 := by
  induction n with
  | zero => simp
  | succ k ih =>
    rw [List.range_succ, List.foldl_append, ih, sum_take_succ_getD]
    simp [Nat.add_mod]

theorem low_byte_eq_mod (x : Nat) : (0x00FF &&& x) % 256 = x % 256 := by
  have h : (0x00FF : Nat) = 2 ^ 8 - 1 := by norm_num
  rw [h, Nat.and_comm, Nat.and_pow_two_sub_one_eq_mod]
  norm_num

/-- The checksum of the first `n` bytes of a buffer, for a size that fits the
`uint16_t` parameter. -/
theorem calc_checksum_take (msg : List Nat) (n : Nat) (h : n < 65536) :
    calc_checksum msg n = (msg.take n).sum % 256 := by
  unfold calc_checksum
  simp only [Nat.mod_eq_of_lt h, checksum_loop_eq, low_byte_eq_mod]
  omega

theorem package_size_eq (in_buf : List Nat) (h : in_buf.getD 1 0 < 256) :
    package_size in_buf = in_buf.getD 1 0 + 256 * in_buf.getD 2 0 := by
  unfold package_size
  have h2 : in_buf.getD 1 0 < 2 ^ 8 := by simpa using h
  rw [Nat.shiftLeft_eq, Nat.mul_comm, ← Nat.mul_add_lt_is_or h2]
  omega

theorem lor_0x80 (c : Nat) (h : c < 0x80) : c ||| 0x80 = c + 0x80 := by
  interval_cases c <;> rfl

theorem recvInto_getD (in_buf rx : List Nat) (i : Nat) (h : i < rx.length) :
    (recvInto in_buf rx).getD i 0 = rx.getD i 0 := by
  unfold recvInto
  rw [List.getD_append _ _ _ _ h]

theorem recvInto_take (in_buf rx : List Nat) (n : Nat) (h : n ≤ rx.length) :
    (recvInto in_buf rx).take n = rx.take n := by
  unfold recvInto
  rw [List.take_append_of_le_length h]

/-- The validation of `receive_bulk` on a buffer that received `rx`, in terms
of the received bytes. -/
theorem receive_bulk_check_recv (in_buf rx : List Nat) (c : Nat)
    (h4 : 4 ≤ rx.length) (hmax : rx.length ≤ 65536) (hb : allBytes rx) (hc : c < 0x80) :
    receive_bulk_check (recvInto in_buf rx) rx.length c
      = if rx.length = rx.getD 1 0 + 256 * rx.getD 2 0 + 3
            ∧ rx.getD (rx.length - 1) 0 = (rx.take (rx.length - 1)).sum % 256
            ∧ rx.getD 3 0 = c ||| 0x80 then SR_OK else SR_ERR := by
  unfold receive_bulk_check
  have e1 : (recvInto in_buf rx).getD 1 0 = rx.getD 1 0 := recvInto_getD _ _ _ (by omega)
  have e2 : (recvInto in_buf rx).getD 2 0 = rx.getD 2 0 := recvInto_getD _ _ _ (by omega)
  have e3 : (recvInto in_buf rx).getD 3 0 = rx.getD 3 0 := recvInto_getD _ _ _ (by omega)
  have el : (recvInto in_buf rx).getD (rx.length - 1) 0 = rx.getD (rx.length - 1) 0 :=
    recvInto_getD _ _ _ (by omega)
  have ep : package_size (recvInto in_buf rx) = rx.getD 1 0 + 256 * rx.getD 2 0 := by
    rw [package_size_eq _ (by rw [e1]; exact getD_lt_of_allBytes rx hb 1), e1, e2]
  have ec : calc_checksum (recvInto in_buf rx) (rx.length - 1)
      = (rx.take (rx.length - 1)).sum % 256 := by
    rw [calc_checksum_take _ _ (by omega), recvInto_take _ _ _ (by omega)]
  rw [ep, ec, e3, el]
  have eo := lor_0x80 c hc
  by_cases a : rx.length = rx.getD 1 0 + 256 * rx.getD 2 0 + 3
  · by_cases b : rx.getD (rx.length - 1) 0 = (rx.take (rx.length - 1)).sum % 256
    · by_cases d : rx.getD 3 0 = c + 0x80
      · rw [if_neg (not_not.mpr a), if_neg (not_not.mpr b), if_neg (not_not.mpr d),
          if_pos ⟨a, b, eo ▸ d⟩]
      · rw [if_neg (not_not.mpr a), if_neg (not_not.mpr b), if_pos d,
          if_neg (fun h => d (eo ▸ h.2.2))]
    · rw [if_neg (not_not.mpr a), if_pos b, if_neg (fun h => b h.2.1)]
  · rw [if_pos a, if_neg (fun h => a h.1)]

/-- The result of `receive_bulk` when the link delivers `rx` and the buffer
has room for it. -/
theorem receive_bulk_delivered (sdi : sr_dev_inst) (in_buf rx : List Nat)
    (rest : List (Option (List Nat))) (max_size c : Nat)
    (hlink : sdi.conn.in_results = some rx :: rest) (hmax : rx.length ≤ max_size) :
    (receive_bulk sdi in_buf max_size c).ret
        = receive_bulk_check (recvInto in_buf rx) rx.length c
      ∧ (receive_bulk sdi in_buf max_size c).in_buf = recvInto in_buf rx
      ∧ (receive_bulk sdi in_buf max_size c).in_size = rx.length
      ∧ (receive_bulk sdi in_buf max_size c).sdi
          = { sdi with conn := { sdi.conn with in_results := rest } } := by
  unfold receive_bulk
  simp only [hlink, if_pos hmax, List.tail_cons, List.head?_cons]
  exact ⟨trivial, trivial, trivial, trivial⟩

theorem slice_eq_take_drop (buf : List Nat) (off len : Nat) (h : off + len ≤ buf.length) :
    slice buf off len = (buf.drop off).take len := by
  unfold slice
  apply List.ext_getElem
  · simp; omega
  · intro i h1 h2
    simp at h1
    simp [List.getD_eq_getElem?_getD,
      List.getElem?_eq_getElem (show off + i < buf.length by omega)]

theorem slice_all (buf : List Nat) : slice buf 0 buf.length = buf := by
  rw [slice_eq_take_drop buf 0 buf.length (by omega)]
  simp

theorem slice_length (buf : List Nat) (off len : Nat) : (slice buf off len).length = len := by
  simp [slice]

/-- Decoding inverts encoding for every command and every argument list that
leaves the frame size within the 16-bit sizes of the code. -/
theorem spec_decode_encode (command : Nat) (args : List Nat)
    (hn : args.length + 4 ≤ 65535) :
    spec_decode_frame (spec_encode_frame command args) = some (command, args) := by
  have hlen : (spec_encode_frame command args).length = args.length + 5 := by
    simp [spec_encode_frame]
  have hps : package_size (spec_encode_frame command args) = args.length + 2 := by
    rw [package_size_eq]
    · simp [spec_encode_frame]
      omega
    · simp [spec_encode_frame]
      omega
  have hbody : ([HANTEK_5XXXB_USB_NORM_MSG, (args.length + 2) % 256,
      (args.length + 2) / 256 % 256, command] ++ args).length = args.length + 4 := by
    simp
  have hlast : (spec_encode_frame command args).getD (args.length + 4) 0
      = ([HANTEK_5XXXB_USB_NORM_MSG, (args.length + 2) % 256, (args.length + 2) / 256 % 256,
          command] ++ args).sum % 256 := by
    unfold spec_encode_frame
    simp only []
    rw [List.getD_append_right _ _ _ _ (by rw [hbody]), hbody]
    simp
  have hsum : calc_checksum (spec_encode_frame command args) (args.length + 4)
      = ([HANTEK_5XXXB_USB_NORM_MSG, (args.length + 2) % 256, (args.length + 2) / 256 % 256,
          command] ++ args).sum % 256 := by
    rw [calc_checksum_take _ _ (by omega)]
    unfold spec_encode_frame
    simp only []
    rw [List.take_append_of_le_length (by rw [hbody]), List.take_of_length_le (by rw [hbody])]
  have hargs : slice (spec_encode_frame command args) 4 args.length = args := by
    rw [slice_eq_take_drop _ _ _ (by rw [hlen]; omega)]
    simp [spec_encode_frame]
  have hcmd : (spec_encode_frame command args).getD 3 0 = command := by
    simp [spec_encode_frame]
  unfold spec_decode_frame
  rw [hlen, hps, if_neg (by omega), show args.length + 5 - 1 = args.length + 4 by omega,
    hlast, hsum, if_neg (by simp), hcmd, show args.length + 5 - 5 = args.length by omega, hargs]

/-! ## Frame codec -/

/-- C1: when a transfer delivered a buffer `rx` of at least 4 bytes (and no
more than the receive buffer holds, at most 65536 bytes) and the expected
request command `c` is below 0x80, `receive_bulk` returns `SR_OK` if and only
if (i) the received size is the little-endian length field of bytes 1-2 plus
3, (ii) the last received byte is the sum of all preceding received bytes
modulo 256 and (iii) byte 3 is `c | 0x80`; in every other case it returns
`SR_ERR`. -/
theorem receive_bulk_validation (sdi : sr_dev_inst) (in_buf rx : List Nat)
    (rest : List (Option (List Nat))) (max_size c : Nat)
    (hlink : sdi.conn.in_results = some rx :: rest)
    (hmax : rx.length ≤ max_size) (hcap : max_size ≤ 65536)
    (h4 : 4 ≤ rx.length) (hb : allBytes rx) (hc : c < 0x80) :
    ((receive_bulk sdi in_buf max_size c).ret = SR_OK ↔
      (rx.length = rx.getD 1 0 + 256 * rx.getD 2 0 + 3
        ∧ rx.getD (rx.length - 1) 0 = (rx.take (rx.length - 1)).sum % 256
        ∧ rx.getD 3 0 = c ||| 0x80))
    ∧ (¬ (rx.length = rx.getD 1 0 + 256 * rx.getD 2 0 + 3
        ∧ rx.getD (rx.length - 1) 0 = (rx.take (rx.length - 1)).sum % 256
        ∧ rx.getD 3 0 = c ||| 0x80) →
      (receive_bulk sdi in_buf max_size c).ret = SR_ERR) := by
  rw [(receive_bulk_delivered sdi in_buf rx rest max_size c hlink hmax).1,
    receive_bulk_check_recv in_buf rx c h4 (le_trans hmax hcap) hb hc]
  constructor
  · constructor
    · intro h
      by_contra hn
      rw [if_neg hn] at h
      exact absurd h (by decide)
    · intro h
      rw [if_pos h]
  · intro hn
    rw [if_neg hn]

/-- Witness of C1: the response `53 04 00 92 01 01 EB` to a lock request. -/
theorem receive_bulk_validation_witness :
    (receive_bulk ⟨⟨[], [some [0x53, 4, 0, 0x92, 1, 1, 0xEB]], [], [], 0, 0⟩,
        ⟨⟨0, 0, 0, 0, 0⟩, states.IDLE, [], []⟩, [], false⟩ [] 128 0x12).ret = SR_OK :=
  (receive_bulk_validation _ [] [0x53, 4, 0, 0x92, 1, 1, 0xEB] [] 128 0x12 rfl
    (by decide) (by decide) (by decide) (by decide) (by decide)).1.2
    ⟨by decide, by decide, by decide⟩

/-- C2: for every byte sequence of length at most 65535, `calc_checksum` is
the sum of the bytes modulo 256, although the running sum is kept modulo
65536. -/
theorem calc_checksum_eq_sum_mod (s : List Nat) (h : s.length ≤ 65535) :
    calc_checksum s s.length = s.sum % 256 := by
  rw [calc_checksum_take s s.length (by omega), List.take_length]

/-- Witness of C2: a sequence whose sum 0x2FD exceeds a byte. -/
theorem calc_checksum_eq_sum_mod_witness :
    calc_checksum [0xFF, 0xFF, 0xFF] 3 = 0xFD :=
  calc_checksum_eq_sum_mod [0xFF, 0xFF, 0xFF] (by decide)

/-- C3: every request frame the driver builds (panel lock and unlock, read
register snapshot, sample data request for channel 0 or 1, write register
snapshot for any pending snapshot of 240 bytes) has the layout of the
specification (marker 0x53, little-endian 16-bit length n + 2, command, the n
argument bytes, the low byte of the sum of all preceding bytes), and decoding
it by the size and checksum rules gives back the command and the arguments;
the write frame has length byte 240 + 2, a zero high length byte and 240 + 2 + 3
bytes in all. -/
theorem request_frames_roundtrip (lock : Bool) (channel_idx : Nat) (out_sys_data : List Nat)
    (hch : channel_idx < 2) (hlen : out_sys_data.length = SYS_DATA_SIZE) :
    (lock_panel_frame lock
        = spec_encode_frame HANTEK_5XXXB_CMD_LOCK [HANTEK_5XXXB_CMD_SUB_LOCK, gboolean_byte lock]
      ∧ spec_decode_frame (lock_panel_frame lock)
        = some (HANTEK_5XXXB_CMD_LOCK, [HANTEK_5XXXB_CMD_SUB_LOCK, gboolean_byte lock]))
    ∧ (get_sys_data_frame = spec_encode_frame HANTEK_5XXXB_CMD_RD_SYSDATA []
      ∧ spec_decode_frame get_sys_data_frame = some (HANTEK_5XXXB_CMD_RD_SYSDATA, []))
    ∧ (get_sample_data_frame channel_idx
        = spec_encode_frame HANTEK_5XXXB_CMD_RD_SAMPLEDATA
            [HANTEK_5XXXB_CMD_SUB_RD_SAMPLEDATA, channel_idx]
      ∧ spec_decode_frame (get_sample_data_frame channel_idx)
        = some (HANTEK_5XXXB_CMD_RD_SAMPLEDATA,
            [HANTEK_5XXXB_CMD_SUB_RD_SAMPLEDATA, channel_idx]))
    ∧ (set_sys_data_frame out_sys_data
        = spec_encode_frame HANTEK_5XXXB_CMD_WR_SYSDATA out_sys_data
      ∧ spec_decode_frame (set_sys_data_frame out_sys_data)
        = some (HANTEK_5XXXB_CMD_WR_SYSDATA, out_sys_data)
      ∧ (set_sys_data_frame out_sys_data).getD 1 0 = SYS_DATA_SIZE + 2
      ∧ (set_sys_data_frame out_sys_data).getD 2 0 = 0
      ∧ (set_sys_data_frame out_sys_data).length = SYS_DATA_SIZE + 2 + 3) := by
  have e1 : lock_panel_frame lock
      = spec_encode_frame HANTEK_5XXXB_CMD_LOCK
          [HANTEK_5XXXB_CMD_SUB_LOCK, gboolean_byte lock] := by
    cases lock <;> decide
  have e2 : get_sys_data_frame = spec_encode_frame HANTEK_5XXXB_CMD_RD_SYSDATA [] := by decide
  have e3 : get_sample_data_frame channel_idx
      = spec_encode_frame HANTEK_5XXXB_CMD_RD_SAMPLEDATA
          [HANTEK_5XXXB_CMD_SUB_RD_SAMPLEDATA, channel_idx] := by
    interval_cases channel_idx <;> decide
  have e4 : set_sys_data_frame out_sys_data
      = spec_encode_frame HANTEK_5XXXB_CMD_WR_SYSDATA out_sys_data := by
    unfold set_sys_data_frame spec_encode_frame
    simp only []
    have hs : slice out_sys_data 0 SYS_DATA_SIZE = out_sys_data := by
      rw [← hlen]; exact slice_all out_sys_data
    rw [hs, calc_checksum_take _ _ (by decide), List.take_of_length_le (by simp [hlen]), hlen]
    rfl
  refine ⟨⟨e1, ?_⟩, ⟨e2, ?_⟩, ⟨e3, ?_⟩, ⟨e4, ?_, ?_, ?_, ?_⟩⟩
  · rw [e1]; exact spec_decode_encode _ _ (by simp)
  · rw [e2]; exact spec_decode_encode _ _ (by simp)
  · rw [e3]; exact spec_decode_encode _ _ (by simp)
  · rw [e4]; exact spec_decode_encode _ _ (by rw [hlen]; decide)
  · rfl
  · rfl
  · simp [set_sys_data_frame, slice]

/-- Witness of C3: the unlock frame, the request for channel 1 and the write
frame of the all-zero snapshot. -/
theorem request_frames_roundtrip_witness :
    spec_decode_frame (set_sys_data_frame (List.replicate 240 0))
      = some (HANTEK_5XXXB_CMD_WR_SYSDATA, List.replicate 240 0) :=
  (request_frames_roundtrip false 1 (List.replicate 240 0) (by decide)
    (List.length_replicate 240 0)).2.2.2.2.1

/-! ## Panel lock and register snapshot transfer -/

theorem receive_bulk_check_ret (in_buf : List Nat) (in_size c : Nat) :
    receive_bulk_check in_buf in_size c = SR_OK
      ∨ receive_bulk_check in_buf in_size c = SR_ERR := by
  unfold receive_bulk_check
  split_ifs <;> simp

theorem receive_bulk_sdi (sdi : sr_dev_inst) (in_buf : List Nat) (max_size c : Nat) :
    (receive_bulk sdi in_buf max_size c).sdi
      = { sdi with conn := { sdi.conn with in_results := sdi.conn.in_results.tail } } := by
  rcases hi : sdi.conn.in_results.head? with _ | _ | rx
  · simp [receive_bulk, hi]
  · simp [receive_bulk, hi]
  · by_cases hm : rx.length ≤ max_size
    · simp [receive_bulk, hi, hm]
    · simp [receive_bulk, hi, hm]

theorem receive_bulk_ret (sdi : sr_dev_inst) (in_buf : List Nat) (max_size c : Nat) :
    (receive_bulk sdi in_buf max_size c).ret = SR_OK
      ∨ (receive_bulk sdi in_buf max_size c).ret = SR_ERR := by
  rcases hi : sdi.conn.in_results.head? with _ | _ | rx
  · simp [receive_bulk, hi]
  · simp [receive_bulk, hi]
  · by_cases hm : rx.length ≤ max_size
    · simp only [receive_bulk, hi, hm, if_true]
      exact receive_bulk_check_ret _ _ _
    · simp [receive_bulk, hi, hm]

/-- The cases in which `receive_bulk` returns `SR_OK`: the link delivers a
buffer that fits and passes validation. -/
theorem receive_bulk_ok_iff (sdi : sr_dev_inst) (in_buf : List Nat) (max_size c : Nat) :
    (receive_bulk sdi in_buf max_size c).ret = SR_OK ↔
      ∃ rx, sdi.conn.in_results.head? = some (some rx) ∧ rx.length ≤ max_size
        ∧ receive_bulk_check (recvInto in_buf rx) rx.length c = SR_OK := by
  rcases hi : sdi.conn.in_results.head? with _ | _ | rx
  · simp [receive_bulk, hi]
  · simp [receive_bulk, hi]
  · by_cases hm : rx.length ≤ max_size
    · simp [receive_bulk, hi, hm]
    · simp [receive_bulk, hi, hm]

theorem lock_panel_frame_take (lock : Bool) :
    (lock_panel_frame lock).take 7 = lock_panel_frame lock := by
  cases lock <;> rfl

theorem get_sys_data_frame_take : get_sys_data_frame.take 5 = get_sys_data_frame := rfl

theorem set_sys_data_frame_take (out_sys_data : List Nat) :
    (set_sys_data_frame out_sys_data).take (SYS_DATA_SIZE + 5)
      = set_sys_data_frame out_sys_data := by
  apply List.take_of_length_le
  simp [set_sys_data_frame, slice]

/-- The cases in which `hantek_5xxxb_lock_panel` returns `SR_OK`. -/
theorem lock_panel_ok_iff (sdi : sr_dev_inst) (lock : Bool) :
    (hantek_5xxxb_lock_panel sdi lock).1 = SR_OK ↔
      sdi.conn.out_results.head? = some true
      ∧ ∃ rx, sdi.conn.in_results.head? = some (some rx) ∧ rx.length ≤ 128
        ∧ receive_bulk_check (recvInto sdi.conn.stack rx) rx.length HANTEK_5XXXB_CMD_LOCK = SR_OK
        ∧ (recvInto sdi.conn.stack rx).getD 4 0 = HANTEK_5XXXB_CMD_SUB_LOCK
        ∧ (recvInto sdi.conn.stack rx).getD 5 0 = gboolean_byte lock := by
  rcases ho : sdi.conn.out_results.head? with _ | b
  · simp [hantek_5xxxb_lock_panel, send_bulk, ho]
  · cases b
    · simp [hantek_5xxxb_lock_panel, send_bulk, ho]
    · rcases hi : sdi.conn.in_results.head? with _ | _ | rx
      · simp [hantek_5xxxb_lock_panel, send_bulk, receive_bulk, ho, hi]
      · simp [hantek_5xxxb_lock_panel, send_bulk, receive_bulk, ho, hi]
      · by_cases hm : rx.length ≤ 128
        · rcases receive_bulk_check_ret (recvInto sdi.conn.stack rx) rx.length
            HANTEK_5XXXB_CMD_LOCK with hc | hc
          · simp [hantek_5xxxb_lock_panel, send_bulk, receive_bulk, ho, hi, hm, hc]
            split_ifs <;> simp_all
          · simp [hantek_5xxxb_lock_panel, send_bulk, receive_bulk, ho, hi, hm, hc]
        · simp [hantek_5xxxb_lock_panel, send_bulk, receive_bulk, ho, hi, hm]

theorem lock_panel_ret (sdi : sr_dev_inst) (lock : Bool) :
    (hantek_5xxxb_lock_panel sdi lock).1 = SR_OK
      ∨ (hantek_5xxxb_lock_panel sdi lock).1 = SR_ERR := by
  rcases ho : sdi.conn.out_results.head? with _ | b
  · simp [hantek_5xxxb_lock_panel, send_bulk, ho]
  · cases b
    · simp [hantek_5xxxb_lock_panel, send_bulk, ho]
    · rcases hi : sdi.conn.in_results.head? with _ | _ | rx
      · simp [hantek_5xxxb_lock_panel, send_bulk, receive_bulk, ho, hi]
      · simp [hantek_5xxxb_lock_panel, send_bulk, receive_bulk, ho, hi]
      · by_cases hm : rx.length ≤ 128
        · rcases receive_bulk_check_ret (recvInto sdi.conn.stack rx) rx.length
            HANTEK_5XXXB_CMD_LOCK with hc | hc
          · simp [hantek_5xxxb_lock_panel, send_bulk, receive_bulk, ho, hi, hm, hc]
            split_ifs <;> simp_all
          · simp [hantek_5xxxb_lock_panel, send_bulk, receive_bulk, ho, hi, hm, hc]
        · simp [hantek_5xxxb_lock_panel, send_bulk, receive_bulk, ho, hi, hm]

/-- The device instance after `hantek_5xxxb_lock_panel`: the frame was handed
to one OUT transfer, and one IN transfer was made when the send succeeded. -/
theorem lock_panel_sdi (sdi : sr_dev_inst) (lock : Bool) :
    (hantek_5xxxb_lock_panel sdi lock).2 = { sdi with conn := { sdi.conn with
      out_results := sdi.conn.out_results.tail,
      in_results := if sdi.conn.out_results.head? = some true then sdi.conn.in_results.tail
        else sdi.conn.in_results,
      out_log := sdi.conn.out_log ++ [lock_panel_frame lock] } } := by
  rcases ho : sdi.conn.out_results.head? with _ | b
  · simp [hantek_5xxxb_lock_panel, send_bulk, ho, lock_panel_frame_take]
  · cases b
    · simp [hantek_5xxxb_lock_panel, send_bulk, ho, lock_panel_frame_take]
    · rcases hi : sdi.conn.in_results.head? with _ | _ | rx
      · simp [hantek_5xxxb_lock_panel, send_bulk, receive_bulk, ho, hi, lock_panel_frame_take]
      · simp [hantek_5xxxb_lock_panel, send_bulk, receive_bulk, ho, hi, lock_panel_frame_take]
      · by_cases hm : rx.length ≤ 128
        · simp [hantek_5xxxb_lock_panel, send_bulk, receive_bulk, ho, hi, hm,
            lock_panel_frame_take]
          split_ifs <;> simp_all
        · simp [hantek_5xxxb_lock_panel, send_bulk, receive_bulk, ho, hi, hm,
            lock_panel_frame_take]

/-- The frames that `hantek_5xxxb_get_sys_data` hands to OUT transfers once
the initial lock has succeeded. -/
theorem get_sys_data_out_log (sdi : sr_dev_inst) (sys_data : List Nat)
    (hlock : (hantek_5xxxb_lock_panel sdi true).1 = SR_OK) :
    (hantek_5xxxb_get_sys_data sdi sys_data).2.1.conn.out_log
      = sdi.conn.out_log
        ++ [lock_panel_frame true, get_sys_data_frame, lock_panel_frame false] := by
  unfold hantek_5xxxb_get_sys_data
  simp only [hlock, ne_eq, not_true_eq_false, if_false]
  split_ifs <;>
    simp [lock_panel_sdi, receive_bulk_sdi, send_bulk, get_sys_data_frame_take]

/-- The steps that must all succeed for `hantek_5xxxb_get_sys_data` to return
`SR_OK`: lock, send of the read request, receipt of the response, unlock. -/
theorem get_sys_data_ok_iff (sdi : sr_dev_inst) (sys_data : List Nat) :
    (hantek_5xxxb_get_sys_data sdi sys_data).1 = SR_OK ↔
      (hantek_5xxxb_lock_panel sdi true).1 = SR_OK
      ∧ (send_bulk (hantek_5xxxb_lock_panel sdi true).2 get_sys_data_frame 5).1 = SR_OK
      ∧ (receive_bulk (send_bulk (hantek_5xxxb_lock_panel sdi true).2 get_sys_data_frame 5).2
          sdi.conn.stack 512 HANTEK_5XXXB_CMD_RD_SYSDATA).ret = SR_OK
      ∧ (hantek_5xxxb_lock_panel
          (receive_bulk (send_bulk (hantek_5xxxb_lock_panel sdi true).2 get_sys_data_frame 5).2
            sdi.conn.stack 512 HANTEK_5XXXB_CMD_RD_SYSDATA).sdi false).1 = SR_OK := by
  unfold hantek_5xxxb_get_sys_data
  dsimp only
  split_ifs <;> simp_all

theorem get_sys_data_ret (sdi : sr_dev_inst) (sys_data : List Nat) :
    (hantek_5xxxb_get_sys_data sdi sys_data).1 = SR_OK
      ∨ (hantek_5xxxb_get_sys_data sdi sys_data).1 = SR_ERR := by
  unfold hantek_5xxxb_get_sys_data
  dsimp only
  have a := lock_panel_ret sdi true
  have b := receive_bulk_ret
    (send_bulk (hantek_5xxxb_lock_panel sdi true).2 get_sys_data_frame 5).2
    sdi.conn.stack 512 HANTEK_5XXXB_CMD_RD_SYSDATA
  have c := lock_panel_ret
    (receive_bulk (send_bulk (hantek_5xxxb_lock_panel sdi true).2 get_sys_data_frame 5).2
      sdi.conn.stack 512 HANTEK_5XXXB_CMD_RD_SYSDATA).sdi false
  have d : (send_bulk (hantek_5xxxb_lock_panel sdi true).2 get_sys_data_frame 5).1 = SR_OK ∨
      (send_bulk (hantek_5xxxb_lock_panel sdi true).2 get_sys_data_frame 5).1 = SR_ERR := by
    simp only [send_bulk]; split_ifs <;> simp
  split_ifs <;> simp_all

/-- The read-register step of `hantek_5xxxb_get_sys_data` after a successful
lock, in terms of the link: it succeeds exactly when the second OUT transfer
succeeds and the second IN transfer delivers a response that fits the 512 byte
buffer and passes validation for command 0x01. -/
theorem get_sys_data_read_step (sdi : sr_dev_inst)
    (hlock : (hantek_5xxxb_lock_panel sdi true).1 = SR_OK) :
    ((send_bulk (hantek_5xxxb_lock_panel sdi true).2 get_sys_data_frame 5).1 = SR_OK
      ∧ (receive_bulk (send_bulk (hantek_5xxxb_lock_panel sdi true).2 get_sys_data_frame 5).2
          sdi.conn.stack 512 HANTEK_5XXXB_CMD_RD_SYSDATA).ret = SR_OK) ↔
      (sdi.conn.out_results.tail.head? = some true
        ∧ ∃ rx, sdi.conn.in_results.tail.head? = some (some rx) ∧ rx.length ≤ 512
          ∧ receive_bulk_check (recvInto sdi.conn.stack rx) rx.length
              HANTEK_5XXXB_CMD_RD_SYSDATA = SR_OK) := by
  have ho := ((lock_panel_ok_iff sdi true).mp hlock).1
  rw [receive_bulk_ok_iff]
  simp [send_bulk, lock_panel_sdi, ho]

/-- The cases in which `hantek_5xxxb_set_sys_data` returns `SR_OK`. -/
theorem set_sys_data_ok_iff (sdi : sr_dev_inst) :
    (hantek_5xxxb_set_sys_data sdi).1 = SR_OK ↔
      sdi.conn.out_results.head? = some true
      ∧ ∃ rx, sdi.conn.in_results.head? = some (some rx) ∧ rx.length ≤ 32
        ∧ receive_bulk_check (recvInto sdi.conn.stack rx) rx.length
            HANTEK_5XXXB_CMD_WR_SYSDATA = SR_OK
        ∧ (recvInto sdi.conn.stack rx).getD 4 0 = 0 := by
  rcases ho : sdi.conn.out_results.head? with _ | b
  · simp [hantek_5xxxb_set_sys_data, send_bulk, ho]
  · cases b
    · simp [hantek_5xxxb_set_sys_data, send_bulk, ho]
    · rcases hi : sdi.conn.in_results.head? with _ | _ | rx
      · simp [hantek_5xxxb_set_sys_data, send_bulk, receive_bulk, ho, hi]
      · simp [hantek_5xxxb_set_sys_data, send_bulk, receive_bulk, ho, hi]
      · by_cases hm : rx.length ≤ 32
        · rcases receive_bulk_check_ret (recvInto sdi.conn.stack rx) rx.length
            HANTEK_5XXXB_CMD_WR_SYSDATA with hc | hc
          · simp [hantek_5xxxb_set_sys_data, send_bulk, receive_bulk, ho, hi, hm, hc]
            split_ifs <;> simp_all
          · simp [hantek_5xxxb_set_sys_data, send_bulk, receive_bulk, ho, hi, hm, hc]
        · simp [hantek_5xxxb_set_sys_data, send_bulk, receive_bulk, ho, hi, hm]

theorem set_sys_data_ret (sdi : sr_dev_inst) :
    (hantek_5xxxb_set_sys_data sdi).1 = SR_OK
      ∨ (hantek_5xxxb_set_sys_data sdi).1 = SR_ERR := by
  rcases ho : sdi.conn.out_results.head? with _ | b
  · simp [hantek_5xxxb_set_sys_data, send_bulk, ho]
  · cases b
    · simp [hantek_5xxxb_set_sys_data, send_bulk, ho]
    · rcases hi : sdi.conn.in_results.head? with _ | _ | rx
      · simp [hantek_5xxxb_set_sys_data, send_bulk, receive_bulk, ho, hi]
      · simp [hantek_5xxxb_set_sys_data, send_bulk, receive_bulk, ho, hi]
      · by_cases hm : rx.length ≤ 32
        · rcases receive_bulk_check_ret (recvInto sdi.conn.stack rx) rx.length
            HANTEK_5XXXB_CMD_WR_SYSDATA with hc | hc
          · simp [hantek_5xxxb_set_sys_data, send_bulk, receive_bulk, ho, hi, hm, hc]
            split_ifs <;> simp_all
          · simp [hantek_5xxxb_set_sys_data, send_bulk, receive_bulk, ho, hi, hm, hc]
        · simp [hantek_5xxxb_set_sys_data, send_bulk, receive_bulk, ho, hi, hm]

/-- The frames that `hantek_5xxxb_set_sys_data` hands to OUT transfers. -/
theorem set_sys_data_out_log (sdi : sr_dev_inst) :
    (hantek_5xxxb_set_sys_data sdi).2.conn.out_log
      = sdi.conn.out_log ++ [set_sys_data_frame sdi.priv.out_sys_data] := by
  rcases ho : sdi.conn.out_results.head? with _ | b
  · simp [hantek_5xxxb_set_sys_data, send_bulk, ho, set_sys_data_frame_take]
  · cases b
    · simp [hantek_5xxxb_set_sys_data, send_bulk, ho, set_sys_data_frame_take]
    · rcases hi : sdi.conn.in_results.head? with _ | _ | rx
      · simp [hantek_5xxxb_set_sys_data, send_bulk, receive_bulk, ho, hi,
          set_sys_data_frame_take]
      · simp [hantek_5xxxb_set_sys_data, send_bulk, receive_bulk, ho, hi,
          set_sys_data_frame_take]
      · by_cases hm : rx.length ≤ 32
        · simp [hantek_5xxxb_set_sys_data, send_bulk, receive_bulk, ho, hi, hm,
            set_sys_data_frame_take]
          split_ifs <;> simp_all
        · simp [hantek_5xxxb_set_sys_data, send_bulk, receive_bulk, ho, hi, hm,
            set_sys_data_frame_take]

/-- C4: whenever the initial panel lock succeeds, `hantek_5xxxb_get_sys_data`
hands exactly three frames to the link: the lock frame, the read request and,
after the read-register step, the unlock frame, whether that step succeeded or
failed. When the read step failed (the send failed, or no response arrived, or
the response failed validation) the function returns `SR_ERR`; in particular
it does so for a response whose size differs from its length field plus 3,
whose checksum is wrong or whose command echo is wrong. -/
theorem get_sys_data_unlocks (sdi : sr_dev_inst) (sys_data : List Nat)
    (hlock : (hantek_5xxxb_lock_panel sdi true).1 = SR_OK) :
    (hantek_5xxxb_get_sys_data sdi sys_data).2.1.conn.out_log
        = sdi.conn.out_log
          ++ [lock_panel_frame true, get_sys_data_frame, lock_panel_frame false]
    ∧ (¬ (sdi.conn.out_results.tail.head? = some true
          ∧ ∃ rx, sdi.conn.in_results.tail.head? = some (some rx) ∧ rx.length ≤ 512
            ∧ receive_bulk_check (recvInto sdi.conn.stack rx) rx.length
                HANTEK_5XXXB_CMD_RD_SYSDATA = SR_OK) →
        (hantek_5xxxb_get_sys_data sdi sys_data).1 = SR_ERR)
    ∧ (∀ rx, sdi.conn.in_results.tail.head? = some (some rx) →
        (rx.length ≠ package_size (recvInto sdi.conn.stack rx) + 3
          ∨ (recvInto sdi.conn.stack rx).getD (rx.length - 1) 0
              ≠ calc_checksum (recvInto sdi.conn.stack rx) (rx.length - 1)
          ∨ (recvInto sdi.conn.stack rx).getD 3 0 ≠ HANTEK_5XXXB_CMD_RD_SYSDATA + 0x80) →
        (hantek_5xxxb_get_sys_data sdi sys_data).1 = SR_ERR) := by
  have hfail : ¬ (sdi.conn.out_results.tail.head? = some true
          ∧ ∃ rx, sdi.conn.in_results.tail.head? = some (some rx) ∧ rx.length ≤ 512
            ∧ receive_bulk_check (recvInto sdi.conn.stack rx) rx.length
                HANTEK_5XXXB_CMD_RD_SYSDATA = SR_OK) →
        (hantek_5xxxb_get_sys_data sdi sys_data).1 = SR_ERR := by
    intro hn
    rcases get_sys_data_ret sdi sys_data with h | h
    · obtain ⟨_, h2, h3, _⟩ := (get_sys_data_ok_iff sdi sys_data).mp h
      exact absurd ((get_sys_data_read_step sdi hlock).mp ⟨h2, h3⟩) hn
    · exact h
  refine ⟨get_sys_data_out_log sdi sys_data hlock, hfail, ?_⟩
  intro rx hrx hbad
  apply hfail
  rintro ⟨_, rx1, h1, _, h3⟩
  have e : rx1 = rx := by
    have := h1.symm.trans hrx
    simpa using this
  subst e
  unfold receive_bulk_check at h3
  rcases hbad with hb | hb | hb
  · rw [if_pos hb] at h3; exact absurd h3 (by decide)
  · by_cases ha : rx1.length ≠ package_size (recvInto sdi.conn.stack rx1) + 3
    · rw [if_pos ha] at h3; exact absurd h3 (by decide)
    · rw [if_neg ha, if_pos hb] at h3; exact absurd h3 (by decide)
  · by_cases ha : rx1.length ≠ package_size (recvInto sdi.conn.stack rx1) + 3
    · rw [if_pos ha] at h3; exact absurd h3 (by decide)
    · by_cases hc : (recvInto sdi.conn.stack rx1).getD (rx1.length - 1) 0
          ≠ calc_checksum (recvInto sdi.conn.stack rx1) (rx1.length - 1)
      · rw [if_neg ha, if_pos hc] at h3; exact absurd h3 (by decide)
      · rw [if_neg ha, if_neg hc, if_pos hb] at h3; exact absurd h3 (by decide)

/-- Witness of C4: the lock succeeds, the response to the read request has 5
bytes but declares a length of 9 + 3, and the unlock succeeds: the fetch fails
and the unlock frame is the last frame sent. -/
theorem get_sys_data_unlocks_witness :
    (hantek_5xxxb_get_sys_data
        (fresh_sdi [true, true, true]
          [some (lock_response true), some [0x53, 9, 0, 0x81, 0xDD],
           some (lock_response false)]) []).1 = SR_ERR
    ∧ (hantek_5xxxb_get_sys_data
        (fresh_sdi [true, true, true]
          [some (lock_response true), some [0x53, 9, 0, 0x81, 0xDD],
           some (lock_response false)]) []).2.1.conn.out_log
        = [lock_panel_frame true, get_sys_data_frame, lock_panel_frame false] :=
  ⟨(get_sys_data_unlocks
      (fresh_sdi [true, true, true]
        [some (lock_response true), some [0x53, 9, 0, 0x81, 0xDD],
         some (lock_response false)]) [] (by decide)).2.2
      [0x53, 9, 0, 0x81, 0xDD] rfl (Or.inl (by decide)),
    (get_sys_data_unlocks
      (fresh_sdi [true, true, true]
        [some (lock_response true), some [0x53, 9, 0, 0x81, 0xDD],
         some (lock_response false)]) [] (by decide)).1⟩

/-- C5: for each boolean `lock`, `hantek_5xxxb_lock_panel` hands the frame
`53 04 00 12 01 b cs` to the link, where `b` is the boolean and `cs` the
checksum `6A + b`, and returns `SR_OK` if and only if the send succeeds and the
response fits the buffer, passes validation for command 0x12, has byte 4 equal
to the sub command 0x01 and byte 5 equal to `b`; otherwise it returns
`SR_ERR`. -/
theorem lock_panel_contract (sdi : sr_dev_inst) (lock : Bool) :
    (hantek_5xxxb_lock_panel sdi lock).2.conn.out_log
        = sdi.conn.out_log
          ++ [[0x53, 0x04, 0x00, 0x12, 0x01, gboolean_byte lock, 0x6A + gboolean_byte lock]]
    ∧ ((hantek_5xxxb_lock_panel sdi lock).1 = SR_OK ↔
        sdi.conn.out_results.head? = some true
        ∧ ∃ rx, sdi.conn.in_results.head? = some (some rx) ∧ rx.length ≤ 128
          ∧ receive_bulk_check (recvInto sdi.conn.stack rx) rx.length 0x12 = SR_OK
          ∧ (recvInto sdi.conn.stack rx).getD 4 0 = 0x01
          ∧ (recvInto sdi.conn.stack rx).getD 5 0 = gboolean_byte lock)
    ∧ ((hantek_5xxxb_lock_panel sdi lock).1 ≠ SR_OK →
        (hantek_5xxxb_lock_panel sdi lock).1 = SR_ERR) := by
  refine ⟨?_, lock_panel_ok_iff sdi lock, ?_⟩
  · rw [lock_panel_sdi]
    cases lock <;> rfl
  · intro h
    exact (lock_panel_ret sdi lock).resolve_left h

/-- C6: `hantek_5xxxb_set_sys_data` hands exactly one frame to the link, the
write-register frame with command 0x11 and the 240 bytes of the pending
snapshot, which is no lock or unlock frame; it returns `SR_OK` if and only if
the send succeeds and the response fits the buffer, passes validation for
command 0x11 and has a zero status byte (byte 4); otherwise, so for every
non-zero status byte, it returns `SR_ERR`. -/
theorem set_sys_data_contract (sdi : sr_dev_inst) :
    (hantek_5xxxb_set_sys_data sdi).2.conn.out_log
        = sdi.conn.out_log ++ [set_sys_data_frame sdi.priv.out_sys_data]
    ∧ (set_sys_data_frame sdi.priv.out_sys_data).getD 3 0 = 0x11
    ∧ slice (set_sys_data_frame sdi.priv.out_sys_data) 4 SYS_DATA_SIZE
        = slice sdi.priv.out_sys_data 0 SYS_DATA_SIZE
    ∧ (∀ lock, set_sys_data_frame sdi.priv.out_sys_data ≠ lock_panel_frame lock)
    ∧ ((hantek_5xxxb_set_sys_data sdi).1 = SR_OK ↔
        sdi.conn.out_results.head? = some true
        ∧ ∃ rx, sdi.conn.in_results.head? = some (some rx) ∧ rx.length ≤ 32
          ∧ receive_bulk_check (recvInto sdi.conn.stack rx) rx.length 0x11 = SR_OK
          ∧ (recvInto sdi.conn.stack rx).getD 4 0 = 0)
    ∧ ((hantek_5xxxb_set_sys_data sdi).1 ≠ SR_OK →
        (hantek_5xxxb_set_sys_data sdi).1 = SR_ERR) := by
  refine ⟨set_sys_data_out_log sdi, rfl, ?_, ?_, set_sys_data_ok_iff sdi, ?_⟩
  · rw [slice_eq_take_drop _ 4 SYS_DATA_SIZE (by simp [set_sys_data_frame, slice]; omega)]
    have h : (slice sdi.priv.out_sys_data 0 SYS_DATA_SIZE).length = SYS_DATA_SIZE :=
      slice_length _ _ _
    simp [set_sys_data_frame, h]
  · intro lock h
    have := congrArg List.length h
    cases lock <;> simp [set_sys_data_frame, lock_panel_frame, slice] at this
  · intro h
    exact (set_sys_data_ret sdi).resolve_left h

/-! ## Session log of the sample retrieval and of the periodic callback -/

theorem frames_only_refl (a : sr_dev_inst) : frames_only a a :=
  ⟨rfl, rfl, rfl, rfl, rfl, [], by simp, by simp⟩

theorem frames_only_trans {a b c : sr_dev_inst} (h1 : frames_only a b) (h2 : frames_only b c) :
    frames_only a c := by
  obtain ⟨e1, he1, hf1⟩ := h1.session_ext
  obtain ⟨e2, he2, hf2⟩ := h2.session_ext
  refine ⟨h2.dev_state_eq.trans h1.dev_state_eq, h2.in_sys_data_eq.trans h1.in_sys_data_eq,
    h2.out_sys_data_eq.trans h1.out_sys_data_eq, h2.source_added_eq.trans h1.source_added_eq,
    h2.stack_eq.trans h1.stack_eq, e1 ++ e2, ?_, ?_⟩
  · rw [he2, he1, List.append_assoc]
  · intro e he
    rcases List.mem_append.mp he with h | h
    · exact hf1 e h
    · exact hf2 e h

theorem frames_only_send_bulk (sdi : sr_dev_inst) (out_buf : List Nat) (out_size : Nat) :
    frames_only sdi (send_bulk sdi out_buf out_size).2 :=
  ⟨rfl, rfl, rfl, rfl, rfl, [], by simp [send_bulk], by simp⟩

theorem frames_only_receive_bulk (sdi : sr_dev_inst) (in_buf : List Nat) (max_size c : Nat) :
    frames_only sdi (receive_bulk sdi in_buf max_size c).sdi := by
  rw [receive_bulk_sdi]
  exact ⟨rfl, rfl, rfl, rfl, rfl, [], by simp, by simp⟩

theorem frames_only_session_send (sdi : sr_dev_inst) (p : Packet) (hp : is_frame_packet p = true) :
    frames_only sdi (sr_session_send sdi p) :=
  ⟨rfl, rfl, rfl, rfl, rfl, [p], rfl, by simpa using hp⟩

theorem frames_only_lock_panel (sdi : sr_dev_inst) (lock : Bool) :
    frames_only sdi (hantek_5xxxb_lock_panel sdi lock).2 := by
  rw [lock_panel_sdi]
  exact ⟨rfl, rfl, rfl, rfl, rfl, [], by simp, by simp⟩

theorem frames_only_get_sys_data (sdi : sr_dev_inst) (sys_data : List Nat) :
    frames_only sdi (hantek_5xxxb_get_sys_data sdi sys_data).2.1 := by
  unfold hantek_5xxxb_get_sys_data
  dsimp only
  have a := frames_only_lock_panel sdi true
  have b := frames_only_send_bulk (hantek_5xxxb_lock_panel sdi true).2 get_sys_data_frame 5
  have c := frames_only_receive_bulk (send_bulk (hantek_5xxxb_lock_panel sdi true).2 get_sys_data_frame 5).2
    sdi.conn.stack 512 HANTEK_5XXXB_CMD_RD_SYSDATA
  split_ifs
  · exact a
  · exact frames_only_trans (frames_only_trans a b) (frames_only_lock_panel _ _)
  · exact frames_only_trans (frames_only_trans (frames_only_trans a b) c) (frames_only_lock_panel _ _)
  · exact frames_only_trans (frames_only_trans (frames_only_trans a b) c) (frames_only_lock_panel _ _)
  · exact frames_only_trans (frames_only_trans (frames_only_trans a b) c) (frames_only_lock_panel _ _)

theorem frames_only_loop (channel_idx : Nat) (fuel : Nat) :
    ∀ (sdi : sr_dev_inst) (in_buf : List Nat) (samples_read : Nat),
      frames_only sdi (get_sample_data_loop channel_idx fuel sdi in_buf samples_read).2.1 := by
  induction fuel with
  | zero => intro sdi _ _; exact frames_only_refl sdi
  | succ n ih =>
    intro sdi in_buf samples_read
    unfold get_sample_data_loop
    dsimp only
    have r := frames_only_receive_bulk sdi in_buf 10007 HANTEK_5XXXB_CMD_RD_SAMPLEDATA
    split_ifs
    · exact r
    · exact r
    · exact frames_only_trans r (ih _ _ _)
    · exact r
    · refine frames_only_trans (frames_only_trans r ?_) (ih _ _ _)
      exact frames_only_session_send _ _ rfl

theorem frames_only_get_sample_data (sdi : sr_dev_inst) (channel_idx : Nat) :
    frames_only sdi (hantek_5xxxb_get_sample_data sdi channel_idx).2 := by
  unfold hantek_5xxxb_get_sample_data
  dsimp only
  have a := frames_only_send_bulk sdi (get_sample_data_frame channel_idx) 7
  have b := frames_only_receive_bulk (send_bulk sdi (get_sample_data_frame channel_idx) 7).2
    sdi.conn.stack 128 HANTEK_5XXXB_CMD_RD_SAMPLEDATA
  have c := frames_only_session_send
    (receive_bulk (send_bulk sdi (get_sample_data_frame channel_idx) 7).2
      sdi.conn.stack 128 HANTEK_5XXXB_CMD_RD_SAMPLEDATA).sdi Packet.SR_DF_FRAME_BEGIN rfl
  have l := frames_only_loop channel_idx
    ((sr_session_send (receive_bulk (send_bulk sdi (get_sample_data_frame channel_idx) 7).2
      sdi.conn.stack 128 HANTEK_5XXXB_CMD_RD_SAMPLEDATA).sdi
      Packet.SR_DF_FRAME_BEGIN).conn.in_results.length + 1)
    (sr_session_send (receive_bulk (send_bulk sdi (get_sample_data_frame channel_idx) 7).2
      sdi.conn.stack 128 HANTEK_5XXXB_CMD_RD_SAMPLEDATA).sdi Packet.SR_DF_FRAME_BEGIN)
    (receive_bulk (send_bulk sdi (get_sample_data_frame channel_idx) 7).2
      sdi.conn.stack 128 HANTEK_5XXXB_CMD_RD_SAMPLEDATA).in_buf 0
  have abcl := frames_only_trans (frames_only_trans (frames_only_trans a b) c) l
  split_ifs
  · exact frames_only_refl sdi
  · exact a
  · exact frames_only_trans a b
  · exact frames_only_trans a b
  · exact frames_only_trans a b
  · exact abcl
  · refine frames_only_trans (frames_only_trans abcl
      (frames_only_session_send _ Packet.SR_DF_FRAME_END rfl)) ?_
    exact ⟨rfl, rfl, rfl, rfl, rfl, [], by simp, by simp⟩


theorem send_metas_eq (ms : List (ConfKey × MetaVal)) :
    ∀ sdi : sr_dev_inst, send_metas sdi ms
      = { sdi with session := sdi.session ++ ms.map (fun m => Packet.SR_DF_META m.1 m.2) } := by
  induction ms with
  | nil => intro sdi; simp [send_metas]
  | cons m rest ih =>
    intro sdi
    have h := ih (sr_session_send_meta sdi m.1 m.2)
    unfold send_metas at h ⊢
    rw [List.foldl_cons, h]
    simp [sr_session_send_meta, sr_session_send]

theorem metas_of_append (a b : List Packet) : metas_of (a ++ b) = metas_of a ++ metas_of b := by
  simp [metas_of, List.filterMap_append]

theorem metas_of_map (ms : List (ConfKey × MetaVal)) :
    metas_of (ms.map (fun m => Packet.SR_DF_META m.1 m.2)) = ms := by
  induction ms with
  | nil => rfl
  | cons m rest ih =>
    rw [List.map_cons, ← List.singleton_append, metas_of_append, ih]
    rfl

theorem metas_of_frames (fs : List Packet) (h : ∀ e ∈ fs, is_frame_packet e = true) :
    metas_of fs = [] := by
  induction fs with
  | nil => rfl
  | cons e rest ih =>
    rw [← List.singleton_append, metas_of_append, ih (fun x hx => h x (List.mem_cons_of_mem _ hx))]
    have he := h e (List.mem_cons_self _ _)
    cases e <;> simp [is_frame_packet] at he <;> rfl

theorem get_sys_data_sdi (sdi : sr_dev_inst) (sys_data : List Nat) :
    (hantek_5xxxb_get_sys_data sdi sys_data).2.1
      = { sdi with conn := (hantek_5xxxb_get_sys_data sdi sys_data).2.1.conn }
    ∧ (hantek_5xxxb_get_sys_data sdi sys_data).2.1.conn.stack = sdi.conn.stack := by
  unfold hantek_5xxxb_get_sys_data
  dsimp only
  split_ifs <;> simp [lock_panel_sdi, receive_bulk_sdi, send_bulk]

theorem session_of_frames_only {a b : sr_dev_inst} (h : frames_only a b) (pre : List Packet)
    (ms : List Packet) (ha : a.session = pre ++ ms) :
    ∃ fs, b.session = pre ++ ms ++ fs ∧ ∀ e ∈ fs, is_frame_packet e = true := by
  obtain ⟨evs, he, hf⟩ := h.session_ext
  exact ⟨evs, by rw [he, ha], hf⟩

theorem receive_data_session (sdi : sr_dev_inst) (time_up : Bool)
    (hstate : sdi.priv.dev_state ≠ states.STOPPING) :
    ∃ fs, (hantek_5xxxb_receive_data sdi time_up).2.session
        = sdi.session ++ (tick_meta sdi).map (fun m => Packet.SR_DF_META m.1 m.2) ++ fs
      ∧ ∀ e ∈ fs, is_frame_packet e = true := by
  obtain ⟨hG, _⟩ := get_sys_data_sdi sdi (List.replicate SYS_DATA_SIZE 0)
  have hsess : (hantek_5xxxb_get_sys_data sdi (List.replicate SYS_DATA_SIZE 0)).2.1.session
      = sdi.session := by rw [hG]
  have hpriv : (hantek_5xxxb_get_sys_data sdi (List.replicate SYS_DATA_SIZE 0)).2.1.priv
      = sdi.priv := by rw [hG]
  by_cases hok : (hantek_5xxxb_get_sys_data sdi (List.replicate SYS_DATA_SIZE 0)).1 = SR_OK
  · by_cases hd : memcmp_ne (hantek_5xxxb_get_sys_data sdi (List.replicate SYS_DATA_SIZE 0)).2.2
        sdi.priv.in_sys_data SYS_DATA_SIZE = true
    · have hm : tick_meta sdi = changed_meta
          (hantek_5xxxb_get_sys_data sdi (List.replicate SYS_DATA_SIZE 0)).2.2
          sdi.priv.in_sys_data := by
        unfold tick_meta; rw [if_pos ⟨hok, hd⟩]
      rw [hm]
      unfold hantek_5xxxb_receive_data
      rw [if_neg hstate]
      dsimp only
      rw [if_neg (not_not.mpr hok), hpriv, if_pos hd, send_metas_eq, hsess]
      generalize hs2 : ({ ({ (hantek_5xxxb_get_sys_data sdi (List.replicate SYS_DATA_SIZE 0)).2.1
        with session := sdi.session ++ (changed_meta
          (hantek_5xxxb_get_sys_data sdi (List.replicate SYS_DATA_SIZE 0)).2.2
          sdi.priv.in_sys_data).map (fun m => Packet.SR_DF_META m.1 m.2) } : sr_dev_inst)
        with priv := _ } : sr_dev_inst) = sdi2
      have h2 : sdi2.session = sdi.session ++ (changed_meta
          (hantek_5xxxb_get_sys_data sdi (List.replicate SYS_DATA_SIZE 0)).2.2
          sdi.priv.in_sys_data).map (fun m => Packet.SR_DF_META m.1 m.2) := by
        rw [← hs2]
      have F0 := frames_only_get_sample_data sdi2 0
      have F1 := frames_only_trans F0
        (frames_only_get_sample_data (hantek_5xxxb_get_sample_data sdi2 0).2 1)
      split_ifs
      · exact session_of_frames_only F0 _ _ h2
      · exact session_of_frames_only F1 _ _ h2
      · exact session_of_frames_only F1 _ _ h2
      · exact session_of_frames_only F1 _ _ h2
    · have hm : tick_meta sdi = [] := by
        unfold tick_meta; rw [if_neg (fun h => hd h.2)]
      rw [hm]
      unfold hantek_5xxxb_receive_data
      rw [if_neg hstate]
      dsimp only
      rw [if_neg (not_not.mpr hok), hpriv, if_neg hd]
      have h2 : (hantek_5xxxb_get_sys_data sdi (List.replicate SYS_DATA_SIZE 0)).2.1.session
          = sdi.session ++ List.map (fun m : ConfKey × MetaVal => Packet.SR_DF_META m.1 m.2) [] := by
        rw [hsess, List.map_nil, List.append_nil]
      have F0 := frames_only_get_sample_data
        (hantek_5xxxb_get_sys_data sdi (List.replicate SYS_DATA_SIZE 0)).2.1 0
      have F1 := frames_only_trans F0
        (frames_only_get_sample_data (hantek_5xxxb_get_sample_data
          (hantek_5xxxb_get_sys_data sdi (List.replicate SYS_DATA_SIZE 0)).2.1 0).2 1)
      split_ifs
      · exact session_of_frames_only F0 _ _ h2
      · exact session_of_frames_only F1 _ _ h2
      · exact session_of_frames_only F1 _ _ h2
      · exact session_of_frames_only F1 _ _ h2
  · have hm : tick_meta sdi = [] := by
      unfold tick_meta; rw [if_neg (fun h => hok h.1)]
    rw [hm]
    unfold hantek_5xxxb_receive_data
    rw [if_neg hstate]
    dsimp only
    rw [if_pos hok]
    exact ⟨[], by simp [hsess], by simp⟩

/-! ## Change detection -/

theorem vert_ch_meta_eq (sys_data in_sys_data : List Nat) (ch_idx : Nat) :
    vert_ch_meta sys_data in_sys_data ch_idx
      = first_differing (vert_ch_group sys_data in_sys_data ch_idx) := by
  unfold vert_ch_meta vert_ch_group
  simp only [first_differing, bne_iff_ne, ite_true, ite_false]

theorem trigger_meta_eq (sys_data in_sys_data : List Nat) :
    trigger_meta sys_data in_sys_data = first_differing (trigger_group sys_data in_sys_data) := by
  unfold trigger_meta trigger_group
  simp only [first_differing, bne_iff_ne, ite_true, ite_false]

theorem horizontal_meta_eq (sys_data in_sys_data : List Nat) :
    horizontal_meta sys_data in_sys_data
      = first_differing (horizontal_group sys_data in_sys_data) := by
  unfold horizontal_meta horizontal_group
  simp only [first_differing, bne_iff_ne, Bool.or_eq_true, decide_eq_true_eq]

theorem changed_meta_vb_trig (sys_data in_sys_data : List Nat) (ch_idx : Nat) (hch : ch_idx < 2)
    (hdisp : vert_ch_disp sys_data ch_idx = vert_ch_disp in_sys_data ch_idx)
    (hvb : vert_ch_vb sys_data ch_idx ≠ vert_ch_vb in_sys_data ch_idx)
    (htrig : trig_src sys_data ≠ trig_src in_sys_data) :
    (ConfKey.SR_CONF_VDIV, MetaVal.tuple
        (ch_vdiv_at (vert_ch_probe sys_data ch_idx) (vert_ch_vb sys_data ch_idx)).1
        (ch_vdiv_at (vert_ch_probe sys_data ch_idx) (vert_ch_vb sys_data ch_idx)).2)
      ∈ changed_meta sys_data in_sys_data
    ∧ (ConfKey.SR_CONF_TRIGGER_SOURCE,
        MetaVal.string (trigger_source.getD (trig_src sys_data) ""))
      ∈ changed_meta sys_data in_sys_data
    ∧ 2 ≤ (changed_meta sys_data in_sys_data).length := by
  have hv : vert_ch_meta sys_data in_sys_data ch_idx = [(ConfKey.SR_CONF_VDIV, MetaVal.tuple
        (ch_vdiv_at (vert_ch_probe sys_data ch_idx) (vert_ch_vb sys_data ch_idx)).1
        (ch_vdiv_at (vert_ch_probe sys_data ch_idx) (vert_ch_vb sys_data ch_idx)).2)] := by
    unfold vert_ch_meta
    rw [if_neg (not_not.mpr hdisp), if_pos hvb]
  have ht : trigger_meta sys_data in_sys_data = [(ConfKey.SR_CONF_TRIGGER_SOURCE,
        MetaVal.string (trigger_source.getD (trig_src sys_data) ""))] := by
    unfold trigger_meta
    rw [if_pos htrig]
  unfold changed_meta
  rw [ht]
  interval_cases ch_idx
  · rw [hv]; simp; omega
  · rw [hv]; simp; omega

/-! ## Acquisition state machine and change detection: the claims -/

/-- C7: `dev_acquisition_start` (from `IDLE` as from any state) sets the state
to `CAPTURE` and sends exactly one header packet; `dev_acquisition_stop` sets
the state to `STOPPING` and sends nothing; a run of the callback in state
`STOPPING` sends exactly one end packet, leaves the link untouched and leaves
the state `IDLE`, so this is what the first run after `dev_acquisition_stop`
does; a run of the callback in any other state sends no end packet. -/
theorem acquisition_state_machine (sdi : sr_dev_inst) (time_up : Bool) :
    ((dev_acquisition_start sdi).2.priv.dev_state = states.CAPTURE
      ∧ (dev_acquisition_start sdi).2.session = sdi.session ++ [Packet.SR_DF_HEADER])
    ∧ ((dev_acquisition_stop sdi).2.priv.dev_state = states.STOPPING
      ∧ (dev_acquisition_stop sdi).2.session = sdi.session)
    ∧ (sdi.priv.dev_state = states.STOPPING →
        (hantek_5xxxb_receive_data sdi time_up).2.session = sdi.session ++ [Packet.SR_DF_END]
        ∧ (hantek_5xxxb_receive_data sdi time_up).2.conn = sdi.conn
        ∧ (hantek_5xxxb_receive_data sdi time_up).2.priv.dev_state = states.IDLE)
    ∧ ((hantek_5xxxb_receive_data (dev_acquisition_stop sdi).2 time_up).2.session
          = sdi.session ++ [Packet.SR_DF_END]
        ∧ (hantek_5xxxb_receive_data (dev_acquisition_stop sdi).2 time_up).2.conn = sdi.conn
        ∧ (hantek_5xxxb_receive_data (dev_acquisition_stop sdi).2 time_up).2.priv.dev_state
          = states.IDLE)
    ∧ (sdi.priv.dev_state ≠ states.STOPPING →
        ∃ evs, (hantek_5xxxb_receive_data sdi time_up).2.session = sdi.session ++ evs
          ∧ Packet.SR_DF_END ∉ evs) := by
  refine ⟨⟨rfl, rfl⟩, ⟨rfl, rfl⟩, ?_, ⟨rfl, rfl, rfl⟩, ?_⟩
  · intro h
    unfold hantek_5xxxb_receive_data
    rw [if_pos h]
    exact ⟨rfl, rfl, rfl⟩
  · intro h
    obtain ⟨fs, hs, hf⟩ := receive_data_session sdi time_up h
    refine ⟨(tick_meta sdi).map (fun m => Packet.SR_DF_META m.1 m.2) ++ fs, ?_, ?_⟩
    · rw [hs, List.append_assoc]
    · intro hmem
      rcases List.mem_append.mp hmem with hm | hm
      · obtain ⟨m, _, hm2⟩ := List.mem_map.mp hm
        exact absurd hm2 (by simp)
      · exact absurd (hf _ hm) (by simp [is_frame_packet])

/-- Witness of C7: the device is started, stopped, and the callback runs
once. -/
theorem acquisition_state_machine_witness :
    (hantek_5xxxb_receive_data (dev_acquisition_stop (capture_sdi [] [])).2 false).2.session
        = [Packet.SR_DF_HEADER, Packet.SR_DF_END]
    ∧ (hantek_5xxxb_receive_data (dev_acquisition_stop (capture_sdi [] [])).2
        false).2.priv.dev_state = states.IDLE :=
  ⟨((acquisition_state_machine (dev_acquisition_stop (capture_sdi [] [])).2 false).2.2.1 rfl).1,
   ((acquisition_state_machine (dev_acquisition_stop (capture_sdi [] [])).2
      false).2.2.1 rfl).2.2⟩

/-- C8, the claim as stated fails: the fetched snapshot differs from the
zeroed shadow in the range code of channel 1 and in the trigger source, and
the callback sends two metadata packets in that one run. -/
theorem receive_data_two_metas :
    metas_of (hantek_5xxxb_receive_data
      (capture_sdi [true, true, true]
        [some (lock_response true), some (sys_data_response snapshot_vb_trig),
         some (lock_response false)]) false).2.session
      = [(ConfKey.SR_CONF_VDIV, MetaVal.tuple 20 1000),
         (ConfKey.SR_CONF_TRIGGER_SOURCE, MetaVal.string "CH2")] := by
  set_option maxRecDepth 100000 in decide

/-- C8, amended: when the callback runs in state `CAPTURE` and fetches a
snapshot that differs from the shadow, the metadata packets it sends are those
of four field groups that are evaluated one after the other, vertical channel
1, vertical channel 2, trigger, horizontal and acquisition, each group
reporting its first differing field in its fixed order and nothing when none of
its fields differs. In particular, when the range code of a channel differs
(its enabled flag does not) and the trigger source differs, that run sends a
`SR_CONF_VDIV` packet and a `SR_CONF_TRIGGER_SOURCE` packet, so at least two
metadata packets. -/
theorem receive_data_changed_meta (sdi sdi1 : sr_dev_inst) (time_up : Bool)
    (sys_data : List Nat)
    (hstate : sdi.priv.dev_state = states.CAPTURE)
    (hfetch : hantek_5xxxb_get_sys_data sdi (List.replicate SYS_DATA_SIZE 0)
      = (SR_OK, sdi1, sys_data))
    (hdiff : memcmp_ne sys_data sdi.priv.in_sys_data SYS_DATA_SIZE = true) :
    metas_of (hantek_5xxxb_receive_data sdi time_up).2.session
      = metas_of sdi.session ++ changed_meta sys_data sdi.priv.in_sys_data
    ∧ changed_meta sys_data sdi.priv.in_sys_data
      = first_differing (vert_ch_group sys_data sdi.priv.in_sys_data 0)
        ++ first_differing (vert_ch_group sys_data sdi.priv.in_sys_data 1)
        ++ first_differing (trigger_group sys_data sdi.priv.in_sys_data)
        ++ first_differing (horizontal_group sys_data sdi.priv.in_sys_data)
    ∧ (∀ ch_idx, ch_idx < 2 →
        vert_ch_disp sys_data ch_idx = vert_ch_disp sdi.priv.in_sys_data ch_idx →
        vert_ch_vb sys_data ch_idx ≠ vert_ch_vb sdi.priv.in_sys_data ch_idx →
        trig_src sys_data ≠ trig_src sdi.priv.in_sys_data →
        (ConfKey.SR_CONF_VDIV, MetaVal.tuple
            (ch_vdiv_at (vert_ch_probe sys_data ch_idx) (vert_ch_vb sys_data ch_idx)).1
            (ch_vdiv_at (vert_ch_probe sys_data ch_idx) (vert_ch_vb sys_data ch_idx)).2)
          ∈ changed_meta sys_data sdi.priv.in_sys_data
        ∧ (ConfKey.SR_CONF_TRIGGER_SOURCE,
            MetaVal.string (trigger_source.getD (trig_src sys_data) ""))
          ∈ changed_meta sys_data sdi.priv.in_sys_data
        ∧ 2 ≤ (changed_meta sys_data sdi.priv.in_sys_data).length) := by
  refine ⟨?_, ?_, ?_⟩
  · obtain ⟨fs, hs, hf⟩ := receive_data_session sdi time_up (by rw [hstate]; decide)
    have hm : tick_meta sdi = changed_meta sys_data sdi.priv.in_sys_data := by
      unfold tick_meta
      rw [hfetch, if_pos ⟨rfl, hdiff⟩]
    rw [hs, metas_of_append, metas_of_append, metas_of_map, metas_of_frames fs hf, hm,
      List.append_nil]
  · unfold changed_meta
    rw [vert_ch_meta_eq, vert_ch_meta_eq, trigger_meta_eq, horizontal_meta_eq]
  · intro ch_idx hch hdisp hvb htrig
    exact changed_meta_vb_trig sys_data sdi.priv.in_sys_data ch_idx hch hdisp hvb htrig

/-- Witness of C8, amended: the run of `receive_data_two_metas`. -/
theorem receive_data_changed_meta_witness :
    2 ≤ (changed_meta snapshot_vb_trig (List.replicate SYS_DATA_SIZE 0)).length :=
  ((receive_data_changed_meta
      (capture_sdi [true, true, true]
        [some (lock_response true), some (sys_data_response snapshot_vb_trig),
         some (lock_response false)])
      (hantek_5xxxb_get_sys_data
        (capture_sdi [true, true, true]
          [some (lock_response true), some (sys_data_response snapshot_vb_trig),
           some (lock_response false)]) (List.replicate SYS_DATA_SIZE 0)).2.1
      false snapshot_vb_trig rfl
      (by set_option maxRecDepth 100000 in decide)
      (by set_option maxRecDepth 100000 in decide)).2.2
    0 (by decide) (by set_option maxRecDepth 100000 in decide)
      (by set_option maxRecDepth 100000 in decide)
      (by set_option maxRecDepth 100000 in decide)).2.2

/-- C9, evaluated: the device changes the trigger source and the trigger
slope, and two consecutive runs of the callback fetch that same snapshot. The
first run reports the trigger source only and makes the snapshot the shadow;
the second run sends no metadata packet, so that the slope change is never
reported. -/
theorem receive_data_second_change_lost :
    metas_of (hantek_5xxxb_receive_data
      (capture_sdi [true, true, true, true, true, true]
        [some (lock_response true), some (sys_data_response snapshot_src_slope),
         some (lock_response false),
         some (lock_response true), some (sys_data_response snapshot_src_slope),
         some (lock_response false)]) false).2.session
      = [(ConfKey.SR_CONF_TRIGGER_SOURCE, MetaVal.string "CH2")]
    ∧ metas_of (hantek_5xxxb_receive_data (hantek_5xxxb_receive_data
      (capture_sdi [true, true, true, true, true, true]
        [some (lock_response true), some (sys_data_response snapshot_src_slope),
         some (lock_response false),
         some (lock_response true), some (sys_data_response snapshot_src_slope),
         some (lock_response false)]) false).2 false).2.session
      = [(ConfKey.SR_CONF_TRIGGER_SOURCE, MetaVal.string "CH2")]
    ∧ (hantek_5xxxb_receive_data (hantek_5xxxb_receive_data
      (capture_sdi [true, true, true, true, true, true]
        [some (lock_response true), some (sys_data_response snapshot_src_slope),
         some (lock_response false),
         some (lock_response true), some (sys_data_response snapshot_src_slope),
         some (lock_response false)]) false).2 false).1 = true
    ∧ trig_edge_slope snapshot_src_slope
        ≠ trig_edge_slope (List.replicate SYS_DATA_SIZE 0) := by
  set_option maxRecDepth 100000 in decide

/-! ## Sample retrieval -/

theorem receive_bulk_check_recvInto (in_buf rx : List Nat) (c : Nat)
    (h4 : 4 ≤ rx.length) (hmax : rx.length ≤ 65536) :
    receive_bulk_check (recvInto in_buf rx) rx.length c = receive_bulk_check rx rx.length c := by
  unfold receive_bulk_check package_size
  rw [recvInto_getD _ _ 1 (by omega), recvInto_getD _ _ 2 (by omega),
    recvInto_getD _ _ 3 (by omega), recvInto_getD _ _ (rx.length - 1) (by omega),
    calc_checksum_take _ _ (show rx.length - 1 < 65536 by omega),
    calc_checksum_take rx _ (show rx.length - 1 < 65536 by omega),
    recvInto_take _ _ _ (by omega)]

theorem samples_read_step (samples_read in_size : Nat) (h : 7 ≤ in_size) :
    (((samples_read : Int) + ((in_size : Int) - 7)) % 2 ^ 32).toNat
      = (samples_read + (in_size - 7)) % 2 ^ 32 := by
  omega

theorem chunk_data_eq (in_buf rx : List Nat) (h : 7 ≤ rx.length) :
    slice ((recvInto in_buf rx).drop 6) 0 ((rx.length : Int) - 7).toNat
      = (rx.drop 6).take (rx.length - 7) := by
  have e : ((rx.length : Int) - 7).toNat = rx.length - 7 := by omega
  rw [e, slice_eq_take_drop _ _ _ (by simp [recvInto]; omega)]
  simp only [List.drop_zero]
  unfold recvInto
  rw [List.drop_append_of_le_length (by omega), List.take_append_of_le_length (by rw [List.length_drop]; omega)]


/-- The loop of `hantek_5xxxb_get_sample_data` on a link that delivers valid
data and error chunks and then a final chunk: it leaves by `break`, has sent
one analog packet per data chunk and has counted their samples modulo 2 ^ 32. -/
theorem get_sample_data_loop_chunks (channel_idx : Nat) :
    ∀ (chunks : List (List Nat)) (fuel : Nat) (sdi : sr_dev_inst) (in_buf : List Nat)
      (samples_read : Nat) (final : List Nat) (rest : List (Option (List Nat))),
      chunks.length + 1 ≤ fuel →
      samples_read < 2 ^ 32 →
      sdi.conn.in_results = chunks.map some ++ some final :: rest →
      (∀ c ∈ chunks, valid_chunk 10007 c
        ∧ ((c.getD 4 0 = 0x01 ∧ 7 ≤ c.length) ∨ c.getD 4 0 = 0x03)) →
      valid_chunk 10007 final → final.getD 4 0 = 0x02 →
      get_sample_data_loop channel_idx fuel sdi in_buf samples_read
        = (SR_OK,
            { sdi with
              conn := { sdi.conn with in_results := rest },
              session := sdi.session ++ (data_chunks chunks).map (analog_packet channel_idx) },
            (samples_read + samples_of chunks) % 2 ^ 32) := by
  intro chunks
  induction chunks with
  | nil =>
    intro fuel sdi in_buf samples_read final rest hfuel hsr hin _ hfin htag
    obtain ⟨f, rfl⟩ : ∃ f, fuel = f + 1 := ⟨fuel - 1, by simp at hfuel; omega⟩
    obtain ⟨h5, hmax, hchk⟩ := hfin
    have hin1 : sdi.conn.in_results = some final :: rest := by simpa using hin
    obtain ⟨r1, r2, _, r4⟩ := receive_bulk_delivered sdi in_buf final rest 10007
      HANTEK_5XXXB_CMD_RD_SAMPLEDATA hin1 hmax
    rw [receive_bulk_check_recvInto _ _ _ (by omega) (by omega), hchk] at r1
    unfold get_sample_data_loop
    dsimp only
    rw [r1, r2, r4, recvInto_getD _ _ 4 (by omega), htag]
    have hsr' : samples_read % 4294967296 = samples_read := Nat.mod_eq_of_lt hsr
    simp [data_chunks, samples_of, hsr']
  | cons c cs ih =>
    intro fuel sdi in_buf samples_read final rest hfuel hsr hin hall hfin htag
    obtain ⟨f, rfl⟩ : ∃ f, fuel = f + 1 := ⟨fuel - 1, by simp at hfuel; omega⟩
    obtain ⟨⟨h5, hmax, hchk⟩, hkind⟩ := hall c (List.mem_cons_self _ _)
    have hin1 : sdi.conn.in_results = some c :: (cs.map some ++ some final :: rest) := by
      simpa using hin
    obtain ⟨r1, r2, r3, r4⟩ := receive_bulk_delivered sdi in_buf c _ 10007
      HANTEK_5XXXB_CMD_RD_SAMPLEDATA hin1 hmax
    rw [receive_bulk_check_recvInto _ _ _ (by omega) (by omega), hchk] at r1
    have hall' : ∀ c' ∈ cs, valid_chunk 10007 c'
        ∧ ((c'.getD 4 0 = 0x01 ∧ 7 ≤ c'.length) ∨ c'.getD 4 0 = 0x03) :=
      fun c' hc' => hall c' (List.mem_cons_of_mem _ hc')
    unfold get_sample_data_loop
    dsimp only
    rw [r1, r2, r3, r4, recvInto_getD _ _ 4 (by omega)]
    rcases hkind with ⟨ht, h7⟩ | ht
    · rw [ht]
      simp only [ne_eq, not_true_eq_false, if_false, show ¬ ((1 : Nat) = 2) by decide,
        show ¬ ((1 : Nat) = 3) by decide]
      rw [samples_read_step _ _ h7]
      rw [ih f _ _ _ final rest (by simp at hfuel ⊢; omega) (Nat.mod_lt _ (by decide))
        (by simp [send_df_chunk, sr_session_send]) hall' hfin htag]
      simp only [send_df_chunk, sr_session_send, chunk_data_eq _ _ h7]
      have hd : data_chunks (c :: cs) = c :: data_chunks cs := by
        unfold data_chunks
        simp only [List.filter_cons, ht, beq_self_eq_true, if_true]
      have hs : samples_of (c :: cs) = (c.length - 7) + samples_of cs := by
        simp [samples_of, hd]
      have harith : ((samples_read + (c.length - 7)) % 2 ^ 32 + samples_of cs) % 2 ^ 32
          = (samples_read + ((c.length - 7) + samples_of cs)) % 2 ^ 32 := by
        omega
      rw [hd, hs, harith]
      simp [analog_packet]
    · rw [ht]
      simp only [ne_eq, not_true_eq_false, if_false, show ¬ ((3 : Nat) = 2) by decide, if_true]
      rw [ih f _ _ _ final rest (by simp at hfuel ⊢; omega) hsr (by simp) hall' hfin htag]
      have hd : data_chunks (c :: cs) = data_chunks cs := by
        unfold data_chunks
        simp only [List.filter_cons, ht, show ((3 : Nat) == 1) = false from rfl]
        rfl
      have hs : samples_of (c :: cs) = samples_of cs := by
        simp [samples_of, hd]
      rw [hd, hs]

theorem receive_bulk_empty (sdi : sr_dev_inst) (in_buf : List Nat) (max_size c : Nat)
    (h : sdi.conn.in_results = []) : (receive_bulk sdi in_buf max_size c).ret = SR_ERR := by
  simp [receive_bulk, h]

/-- The result of the loop does not depend on the fuel once the fuel exceeds
the number of IN outcomes that the link still has. -/
theorem get_sample_data_loop_fuel (channel_idx : Nat) :
    ∀ (n : Nat) (sdi : sr_dev_inst) (in_buf : List Nat) (samples_read f1 f2 : Nat),
      sdi.conn.in_results.length = n → n < f1 → n < f2 →
      get_sample_data_loop channel_idx f1 sdi in_buf samples_read
        = get_sample_data_loop channel_idx f2 sdi in_buf samples_read := by
  intro n
  induction n with
  | zero =>
    intro sdi in_buf samples_read f1 f2 hn h1 h2
    obtain ⟨a, rfl⟩ : ∃ a, f1 = a + 1 := ⟨f1 - 1, by omega⟩
    obtain ⟨b, rfl⟩ : ∃ b, f2 = b + 1 := ⟨f2 - 1, by omega⟩
    have he := receive_bulk_empty sdi in_buf 10007 HANTEK_5XXXB_CMD_RD_SAMPLEDATA
      (List.length_eq_zero.mp hn)
    unfold get_sample_data_loop
    dsimp only
    rw [he]
    simp
  | succ m ih =>
    intro sdi in_buf samples_read f1 f2 hn h1 h2
    obtain ⟨a, rfl⟩ : ∃ a, f1 = a + 1 := ⟨f1 - 1, by omega⟩
    obtain ⟨b, rfl⟩ : ∃ b, f2 = b + 1 := ⟨f2 - 1, by omega⟩
    have hlen : (receive_bulk sdi in_buf 10007
        HANTEK_5XXXB_CMD_RD_SAMPLEDATA).sdi.conn.in_results.length = m := by
      rw [receive_bulk_sdi]
      simp [hn]
    unfold get_sample_data_loop
    dsimp only
    split_ifs
    · rfl
    · rfl
    · exact ih _ _ _ _ _ hlen (by omega) (by omega)
    · rfl
    · exact ih _ _ _ _ _ (by simpa [send_df_chunk, sr_session_send] using hlen)
        (by omega) (by omega)

theorem get_sample_data_frame_take (channel_idx : Nat) :
    (get_sample_data_frame channel_idx).take 7 = get_sample_data_frame channel_idx := by
  apply List.take_of_length_le
  simp [get_sample_data_frame]

/-- The result of `hantek_5xxxb_get_sample_data` for an enabled channel on a
link that accepts the request, answers with a status response with sub-status
0x00 and then delivers valid data and error chunks and a final chunk. -/
theorem get_sample_data_chunks (sdi : sr_dev_inst) (channel_idx : Nat)
    (status : List Nat) (chunks : List (List Nat)) (final : List Nat)
    (rest : List (Option (List Nat)))
    (hdisp : vert_ch_disp sdi.priv.in_sys_data channel_idx ≠ 0)
    (hout : sdi.conn.out_results.head? = some true)
    (hin : sdi.conn.in_results = some status :: (chunks.map some ++ some final :: rest))
    (hstatus : valid_chunk 128 status) (hready : status.getD 4 0 = 0x00)
    (hall : ∀ c ∈ chunks, valid_chunk 10007 c
      ∧ ((c.getD 4 0 = 0x01 ∧ 7 ≤ c.length) ∨ c.getD 4 0 = 0x03))
    (hfin : valid_chunk 10007 final) (htag : final.getD 4 0 = 0x02) :
    hantek_5xxxb_get_sample_data sdi channel_idx
      = (SR_OK,
          { conn := { sdi.conn with
              out_results := sdi.conn.out_results.tail,
              in_results := rest,
              out_log := sdi.conn.out_log ++ [get_sample_data_frame channel_idx] },
            priv := { sdi.priv with limits := { sdi.priv.limits with
              samples_read := sdi.priv.limits.samples_read + samples_of chunks % 2 ^ 32,
              frames_read := sdi.priv.limits.frames_read + 1 } },
            session := sdi.session ++ [Packet.SR_DF_FRAME_BEGIN]
              ++ (data_chunks chunks).map (analog_packet channel_idx)
              ++ [Packet.SR_DF_FRAME_END],
            source_added := sdi.source_added }) := by
  obtain ⟨h5, hmax, hchk⟩ := hstatus
  have hsend : (send_bulk sdi (get_sample_data_frame channel_idx) 7).1 = SR_OK := by
    simp [send_bulk, hout]
  obtain ⟨r1, r2, r3, r4⟩ := receive_bulk_delivered
    (send_bulk sdi (get_sample_data_frame channel_idx) 7).2 sdi.conn.stack status
    (chunks.map some ++ some final :: rest) 128 HANTEK_5XXXB_CMD_RD_SAMPLEDATA
    (by simp [send_bulk, hin]) hmax
  rw [receive_bulk_check_recvInto _ _ _ (by omega) (by omega), hchk] at r1
  unfold hantek_5xxxb_get_sample_data
  dsimp only
  rw [if_neg hdisp, hsend, r1, r2, r4, recvInto_getD _ _ 4 (by omega), hready]
  simp only [ne_eq, not_true_eq_false, if_false, show ¬ ((0 : Nat) = 3) by decide]
  rw [get_sample_data_loop_chunks channel_idx chunks _ _ _ 0 final rest
    (by simp [sr_session_send]) (by decide) (by simp [sr_session_send]) hall hfin htag]
  simp [sr_session_send, send_bulk, sr_sw_limits_update_frames_read,
    sr_sw_limits_update_samples_read, get_sample_data_frame_take]

theorem samples_of_replicate (n : Nat) (c : List Nat) (h : c.getD 4 0 = 0x01) :
    samples_of (List.replicate n c) = n * (c.length - 7) := by
  induction n with
  | zero => simp [samples_of, data_chunks]
  | succ k ih =>
    have hd : data_chunks (c :: List.replicate k c) = c :: data_chunks (List.replicate k c) := by
      unfold data_chunks
      simp only [List.filter_cons, h, beq_self_eq_true, if_true]
    have hs : samples_of (c :: List.replicate k c)
        = (c.length - 7) + samples_of (List.replicate k c) := by
      simp [samples_of, hd]
    rw [List.replicate_succ, hs, ih]
    ring


/-- C10, the claim as stated fails: the link delivers a status response, then
2 ^ 32 valid data chunks of one sample each, then a final chunk. The sum of the
chunk sample counts is 2 ^ 32, the function returns `SR_OK`, and the samples
read counter, which was 0, is still 0, because the `uint32_t` accumulator
`samples_read` has wrapped. -/
theorem get_sample_data_counter_wraps :
    (hantek_5xxxb_get_sample_data
        (enabled_sdi (some sample_status_response
          :: (wrap_chunks.map some ++ [some final_chunk]))) 0).1 = SR_OK
    ∧ (hantek_5xxxb_get_sample_data
        (enabled_sdi (some sample_status_response
          :: (wrap_chunks.map some ++ [some final_chunk]))) 0).2.priv.limits.samples_read = 0
    ∧ samples_of wrap_chunks = 2 ^ 32 := by
  have hs : samples_of wrap_chunks = 2 ^ 32 := by
    unfold wrap_chunks
    rw [samples_of_replicate _ _ (by decide)]
    decide
  have h := get_sample_data_chunks
    (enabled_sdi (some sample_status_response :: (wrap_chunks.map some ++ [some final_chunk])))
    0 sample_status_response wrap_chunks final_chunk [] (by decide) rfl rfl (by decide)
    (by decide)
    (by
      intro c hc
      have e : c = one_sample_chunk := List.eq_of_mem_replicate hc
      subst e
      decide)
    (by decide) (by decide)
  rw [h, hs]
  exact ⟨rfl, by decide, rfl⟩

/-- C10, amended: for an enabled channel, when the request is sent, the
status response is valid with sub-status 0x00, and the link then delivers any
sequence of valid chunks made of data chunks (tag 0x01, received size at least
7) and error chunks (tag 0x03), ended by a valid final chunk (tag 0x02),
`hantek_5xxxb_get_sample_data` returns `SR_OK` and sends exactly one frame
begin packet, one analog packet per data chunk in arrival order, with received
size minus 7 samples, and one frame end packet. It adds 1 to the frames read
counter and adds to the samples read counter the sum of the sample counts
modulo 2 ^ 32, which is the sum itself when the sum is below 2 ^ 32. No
condition is put on the length declared in the status response. -/
theorem get_sample_data_frame_events (sdi : sr_dev_inst) (channel_idx : Nat)
    (status : List Nat) (chunks : List (List Nat)) (final : List Nat)
    (rest : List (Option (List Nat)))
    (hdisp : vert_ch_disp sdi.priv.in_sys_data channel_idx ≠ 0)
    (hout : sdi.conn.out_results.head? = some true)
    (hin : sdi.conn.in_results = some status :: (chunks.map some ++ some final :: rest))
    (hstatus : valid_chunk 128 status) (hready : status.getD 4 0 = 0x00)
    (hall : ∀ c ∈ chunks, valid_chunk 10007 c
      ∧ ((c.getD 4 0 = 0x01 ∧ 7 ≤ c.length) ∨ c.getD 4 0 = 0x03))
    (hfin : valid_chunk 10007 final) (htag : final.getD 4 0 = 0x02) :
    (hantek_5xxxb_get_sample_data sdi channel_idx).1 = SR_OK
    ∧ (hantek_5xxxb_get_sample_data sdi channel_idx).2.session
        = sdi.session ++ [Packet.SR_DF_FRAME_BEGIN]
          ++ (data_chunks chunks).map (analog_packet channel_idx)
          ++ [Packet.SR_DF_FRAME_END]
    ∧ (hantek_5xxxb_get_sample_data sdi channel_idx).2.priv.limits.samples_read
        = sdi.priv.limits.samples_read + samples_of chunks % 2 ^ 32
    ∧ (hantek_5xxxb_get_sample_data sdi channel_idx).2.priv.limits.frames_read
        = sdi.priv.limits.frames_read + 1
    ∧ (samples_of chunks < 2 ^ 32 →
        (hantek_5xxxb_get_sample_data sdi channel_idx).2.priv.limits.samples_read
          = sdi.priv.limits.samples_read + samples_of chunks) := by
  rw [get_sample_data_chunks sdi channel_idx status chunks final rest hdisp hout hin hstatus
    hready hall hfin htag]
  refine ⟨rfl, rfl, rfl, rfl, ?_⟩
  intro hlt
  show sdi.priv.limits.samples_read + samples_of chunks % 2 ^ 32
    = sdi.priv.limits.samples_read + samples_of chunks
  rw [Nat.mod_eq_of_lt hlt]

/-- Witness of C10, amended: a status response that declares 1 sample, then a
data chunk, an error chunk, a data chunk and the final chunk: two analog
packets of one sample each between frame begin and frame end. -/
theorem get_sample_data_frame_events_witness :
    (hantek_5xxxb_get_sample_data
        (enabled_sdi [some sample_status_response, some one_sample_chunk, some error_chunk,
          some one_sample_chunk, some final_chunk]) 0).2.session
      = [Packet.SR_DF_FRAME_BEGIN, Packet.SR_DF_ANALOG 0 1 [7], Packet.SR_DF_ANALOG 0 1 [7],
         Packet.SR_DF_FRAME_END] :=
  (get_sample_data_frame_events
    (enabled_sdi [some sample_status_response, some one_sample_chunk, some error_chunk,
      some one_sample_chunk, some final_chunk]) 0 sample_status_response
    [one_sample_chunk, error_chunk, one_sample_chunk] final_chunk []
    (by decide) rfl rfl (by decide) (by decide) (by decide) (by decide) (by decide)).2.1

/-! ## Sample values and vertical positions -/

theorem int16_wrap_of_range (x : Int) (hlo : -32768 ≤ x) (hhi : x ≤ 32767) :
    int16_wrap x = x := by
  unfold int16_wrap
  omega

theorem int8_wrap_of_range (x : Int) (hlo : -128 ≤ x) (hhi : x ≤ 127) :
    int8_wrap x = x := by
  unfold int8_wrap
  omega

theorem int8_of_byte_range (b : Nat) : -128 ≤ int8_of_byte b ∧ int8_of_byte b ≤ 127 := by
  unfold int8_of_byte int8_wrap
  omega

theorem rat_trunc_intCast (n : Int) : rat_trunc (n : ℚ) = n := by
  unfold rat_trunc
  split_ifs <;> simp

theorem vert_ch_pos_snapshot_pos_min : vert_ch_pos snapshot_pos_min 0 = -32768 := by
  set_option maxRecDepth 100000 in decide

theorem vert_ch_pos_snapshot_pos_m100 : vert_ch_pos snapshot_pos_m100 0 = -100 := by
  set_option maxRecDepth 100000 in decide

theorem vert_ch_pos_snapshot_1v : vert_ch_pos snapshot_1v 0 = 0 := by
  set_option maxRecDepth 100000 in decide

theorem vert_ch_pos_zero : vert_ch_pos (List.replicate SYS_DATA_SIZE 0) 0 = 0 := by
  set_option maxRecDepth 100000 in decide

theorem volts_per_div_snapshot_1v : hantek_5xxxb_get_volts_per_div snapshot_1v 0 = 1 := by
  have h1 : vert_ch_vb snapshot_1v 0 = 8 := by set_option maxRecDepth 100000 in decide
  have h2 : vert_ch_probe snapshot_1v 0 = 0 := by set_option maxRecDepth 100000 in decide
  have h3 : vert_ch_fine snapshot_1v 0 = 0 := by set_option maxRecDepth 100000 in decide
  have h4 : ch_vdiv_at 0 8 = (1, 1) := by decide
  unfold hantek_5xxxb_get_volts_per_div
  simp only [h1, h2, h3, h4]
  norm_num

theorem steps_of_value (n : Int) (vdiv : ℚ) (hv : 0 < vdiv) :
    ((n : ℚ) * (vdiv / 25)) / (vdiv / 25) = n := by
  have h : vdiv / 25 ≠ 0 := by positivity
  field_simp

theorem rat_trunc_nine_tenths : rat_trunc (9 / 10) = 0 := by
  unfold rat_trunc
  rw [if_pos (by norm_num)]
  rw [Int.floor_eq_iff]
  norm_num

/-- C11, counterexample: with the vertical offset -32768 in the shadow
snapshot, volts/div 1 and the raw sample 127, the difference 127 + 32768 does
not fit the `int16_t` variable `raw_value`: the function returns -32641 / 25
and not (raw - o) x (v / 25) = 32895 / 25. -/
theorem get_value_from_vert_pos_wraps :
    hantek_5xxxb_get_value_from_vert_pos snapshot_pos_min (int8_of_byte 127) 1 0 = -32641 / 25
    ∧ ((int8_of_byte 127 - vert_ch_pos snapshot_pos_min 0 : Int) : ℚ) * (1 / 25) = 32895 / 25
    ∧ hantek_5xxxb_get_value_from_vert_pos snapshot_pos_min (int8_of_byte 127) 1 0
        ≠ ((int8_of_byte 127 - vert_ch_pos snapshot_pos_min 0 : Int) : ℚ) * (1 / 25) := by
  have hb : int8_of_byte 127 = 127 := by decide
  have hw : int16_wrap (127 - -32768) = -32641 := by decide
  have e1 : hantek_5xxxb_get_value_from_vert_pos snapshot_pos_min (int8_of_byte 127) 1 0
      = -32641 / 25 := by
    unfold hantek_5xxxb_get_value_from_vert_pos
    simp only [hb, vert_ch_pos_snapshot_pos_min, hw]
    norm_num
  have e2 : ((int8_of_byte 127 - vert_ch_pos snapshot_pos_min 0 : Int) : ℚ) * (1 / 25)
      = 32895 / 25 := by
    rw [hb, vert_ch_pos_snapshot_pos_min]
    norm_num
  refine ⟨e1, e2, ?_⟩
  rw [e1, e2]
  norm_num

/-- C11, amended: for every raw sample byte read as a signed 8-bit value
`raw`, every volts/div `v` and every vertical offset `o` of the shadow
snapshot such that `raw - o` fits a signed 16-bit number,
`hantek_5xxxb_get_value_from_vert_pos` returns (raw - o) x (v / 25) in exact
arithmetic; the raw value lies in [-128, 127]; and for the raw bytes
[10, -5, 127] with v = 1 and o = 0 the values `send_df_chunk` computes are
[0.4, -0.2, 5.08]. -/
theorem get_value_from_vert_pos_exact (in_sys_data : List Nat) (b : Nat) (vdiv : ℚ)
    (channel_idx : Nat)
    (hlo : -32768 ≤ int8_of_byte b - vert_ch_pos in_sys_data channel_idx)
    (hhi : int8_of_byte b - vert_ch_pos in_sys_data channel_idx ≤ 32767) :
    hantek_5xxxb_get_value_from_vert_pos in_sys_data (int8_of_byte b) vdiv channel_idx
      = ((int8_of_byte b - vert_ch_pos in_sys_data channel_idx : Int) : ℚ) * (vdiv / 25)
    ∧ -128 ≤ int8_of_byte b ∧ int8_of_byte b ≤ 127
    ∧ hantek_5xxxb_get_volts_per_div snapshot_1v 0 = 1
    ∧ vert_ch_pos snapshot_1v 0 = 0
    ∧ [10, 251, 127].map int8_of_byte = [10, -5, 127]
    ∧ send_df_chunk_data snapshot_1v [10, 251, 127] 3 0 = [0.4, -0.2, 5.08] := by
  refine ⟨?_, (int8_of_byte_range b).1, (int8_of_byte_range b).2, volts_per_div_snapshot_1v,
    vert_ch_pos_snapshot_1v, by decide, ?_⟩
  · unfold hantek_5xxxb_get_value_from_vert_pos
    simp only [int16_wrap_of_range _ hlo hhi]
  · have hs : slice [10, 251, 127] 0 (3 : Int).toNat = [10, 251, 127] := by decide
    have e1 : int16_wrap (int8_of_byte 10) = 10 := by decide
    have e2 : int16_wrap (int8_of_byte 251) = -5 := by decide
    have e3 : int16_wrap (int8_of_byte 127) = 127 := by decide
    unfold send_df_chunk_data
    simp only [hs, volts_per_div_snapshot_1v, List.map, hantek_5xxxb_get_value_from_vert_pos,
      vert_ch_pos_snapshot_1v, sub_zero]
    norm_num [e1, e2, e3]

/-- Witness of C11: the raw byte 0xFB (-5) with the snapshot `snapshot_1v`
(offset 0) and volts/div 1. -/
theorem get_value_from_vert_pos_exact_witness :
    hantek_5xxxb_get_value_from_vert_pos snapshot_1v (int8_of_byte 251) 1 0
      = ((int8_of_byte 251 - vert_ch_pos snapshot_1v 0 : Int) : ℚ) * (1 / 25) :=
  (get_value_from_vert_pos_exact snapshot_1v 251 1 0
    (by rw [vert_ch_pos_snapshot_1v]; decide) (by rw [vert_ch_pos_snapshot_1v]; decide)).1

/-- C12, counterexample: with the vertical offset -100, volts/div 1 and
pos = 100 the sample value is 200 steps, which the cast to `int8_t` turns
into -56: the round trip returns -156 and not 100. -/
theorem vert_pos_inverse_fails :
    hantek_5xxxb_get_vert_pos_from_value snapshot_pos_m100
      (hantek_5xxxb_get_value_from_vert_pos snapshot_pos_m100 100 1 0) 1 0 = -156 := by
  have h1 : int16_wrap (100 - -100) = 200 := by decide
  have h2 : int16_wrap (int8_wrap 200 + -100) = -156 := by decide
  unfold hantek_5xxxb_get_vert_pos_from_value hantek_5xxxb_get_value_from_vert_pos
  simp only [vert_ch_pos_snapshot_pos_m100, h1]
  rw [steps_of_value 200 1 (by norm_num), rat_trunc_intCast, h2]

/-- C12, amended: for every pos in [-127, 127], every positive volts/div v and
every vertical offset o of the shadow snapshot with pos - o in [-128, 127],
`hantek_5xxxb_get_vert_pos_from_value` of
`hantek_5xxxb_get_value_from_vert_pos` of pos is pos, in exact arithmetic. -/
theorem vert_pos_round_trip (in_sys_data : List Nat) (pos : Int) (vdiv : ℚ) (channel_idx : Nat)
    (hpos : -127 ≤ pos ∧ pos ≤ 127) (hv : 0 < vdiv)
    (hlo : -128 ≤ pos - vert_ch_pos in_sys_data channel_idx)
    (hhi : pos - vert_ch_pos in_sys_data channel_idx ≤ 127) :
    hantek_5xxxb_get_vert_pos_from_value in_sys_data
      (hantek_5xxxb_get_value_from_vert_pos in_sys_data pos vdiv channel_idx) vdiv channel_idx
      = pos := by
  have h1 : int16_wrap (pos - vert_ch_pos in_sys_data channel_idx)
      = pos - vert_ch_pos in_sys_data channel_idx :=
    int16_wrap_of_range _ (by omega) (by omega)
  have h2 : int16_wrap (pos - vert_ch_pos in_sys_data channel_idx
      + vert_ch_pos in_sys_data channel_idx) = pos := by
    rw [int16_wrap_of_range _ (by omega) (by omega)]
    omega
  unfold hantek_5xxxb_get_vert_pos_from_value hantek_5xxxb_get_value_from_vert_pos
  simp only []
  rw [h1, steps_of_value _ vdiv hv, rat_trunc_intCast, int8_wrap_of_range _ hlo hhi, h2]

/-- Witness of C12: pos = -27 with the vertical offset -100 and volts/div
1/2. -/
theorem vert_pos_round_trip_witness :
    hantek_5xxxb_get_vert_pos_from_value snapshot_pos_m100
      (hantek_5xxxb_get_value_from_vert_pos snapshot_pos_m100 (-27) (1 / 2) 0) (1 / 2) 0
      = -27 :=
  vert_pos_round_trip snapshot_pos_m100 (-27) (1 / 2) 0 (by decide) (by norm_num)
    (by rw [vert_ch_pos_snapshot_pos_m100]; decide)
    (by rw [vert_ch_pos_snapshot_pos_m100]; decide)

theorem ch_vdiv_at_pos (p r : Nat) (hp : p ≤ 3) (hr : r ≤ 10) :
    0 < (ch_vdiv_at p r).1 ∧ 0 < (ch_vdiv_at p r).2 := by
  interval_cases p <;> interval_cases r <;> decide

/-- C14: for every probe code p in 0..3, range code r in 0..10 and fine-step
count c of a channel of the shadow snapshot, `hantek_5xxxb_get_volts_per_div`
returns V = numerator / denominator of `ch_vdiv[p][r]` when the fine-step flag
is clear; when the flag is set it returns V - c x ((V - V / 2.5) / 75) for the
range codes `VB_5MV`, `VB_50MV`, `VB_500MV` and `VB_5V` and
V - c x ((V / 2) / 50) for every other range code; V is positive, and for
p = 0, r = `VB_2MV` and a clear flag the result is 0.002. -/
theorem get_volts_per_div_formula (in_sys_data : List Nat) (channel_idx p r c : Nat)
    (hp : vert_ch_probe in_sys_data channel_idx = p) (hr : vert_ch_vb in_sys_data channel_idx = r)
    (hc : vert_ch_cnt_fine in_sys_data channel_idx = c) (hpb : p ≤ 3) (hrb : r ≤ 10) :
    (vert_ch_fine in_sys_data channel_idx = 0 →
      hantek_5xxxb_get_volts_per_div in_sys_data channel_idx
        = ((ch_vdiv_at p r).1 : ℚ) / ((ch_vdiv_at p r).2 : ℚ))
    ∧ (vert_ch_fine in_sys_data channel_idx ≠ 0 →
        (r = VB_5MV ∨ r = VB_50MV ∨ r = VB_500MV ∨ r = VB_5V) →
        hantek_5xxxb_get_volts_per_div in_sys_data channel_idx
          = ((ch_vdiv_at p r).1 : ℚ) / ((ch_vdiv_at p r).2 : ℚ)
            - (c : ℚ) * ((((ch_vdiv_at p r).1 : ℚ) / ((ch_vdiv_at p r).2 : ℚ)
              - ((ch_vdiv_at p r).1 : ℚ) / ((ch_vdiv_at p r).2 : ℚ) / 2.5) / 75))
    ∧ (vert_ch_fine in_sys_data channel_idx ≠ 0 →
        ¬ (r = VB_5MV ∨ r = VB_50MV ∨ r = VB_500MV ∨ r = VB_5V) →
        hantek_5xxxb_get_volts_per_div in_sys_data channel_idx
          = ((ch_vdiv_at p r).1 : ℚ) / ((ch_vdiv_at p r).2 : ℚ)
            - (c : ℚ) * ((((ch_vdiv_at p r).1 : ℚ) / ((ch_vdiv_at p r).2 : ℚ)) / 2 / 50))
    ∧ (0 : ℚ) < ((ch_vdiv_at p r).1 : ℚ) / ((ch_vdiv_at p r).2 : ℚ)
    ∧ (p = 0 → r = VB_2MV → vert_ch_fine in_sys_data channel_idx = 0 →
        hantek_5xxxb_get_volts_per_div in_sys_data channel_idx = 0.002) := by
  have h25 : (2.5 : ℚ) = 25 / 10 := by norm_num
  have hf0 : vert_ch_fine in_sys_data channel_idx = 0 →
      hantek_5xxxb_get_volts_per_div in_sys_data channel_idx
        = ((ch_vdiv_at p r).1 : ℚ) / ((ch_vdiv_at p r).2 : ℚ) := by
    intro hf
    unfold hantek_5xxxb_get_volts_per_div
    simp only [hp, hr, hf, ne_eq, not_true_eq_false, if_false]
  refine ⟨hf0, ?_, ?_, ?_, ?_⟩
  · intro hf hvb
    unfold hantek_5xxxb_get_volts_per_div
    simp only [hp, hr, hc, h25]
    rw [if_pos hf, if_pos hvb]
  · intro hf hvb
    unfold hantek_5xxxb_get_volts_per_div
    simp only [hp, hr, hc]
    rw [if_pos hf, if_neg hvb]
  · obtain ⟨h1, h2⟩ := ch_vdiv_at_pos p r hpb hrb
    have h1' : (0 : ℚ) < ((ch_vdiv_at p r).1 : ℚ) := by exact_mod_cast h1
    have h2' : (0 : ℚ) < ((ch_vdiv_at p r).2 : ℚ) := by exact_mod_cast h2
    positivity
  · intro hp0 hr0 hf
    rw [hf0 hf, hp0, hr0]
    have : ch_vdiv_at 0 VB_2MV = (2, 1000) := by decide
    rw [this]
    norm_num

/-- Witness of C14: channel 1 of the snapshot `snapshot_1v`, with p = 0,
r = `VB_1V`, c = 0 and the fine-step flag clear: V = 1 / 1. -/
theorem get_volts_per_div_formula_witness :
    hantek_5xxxb_get_volts_per_div snapshot_1v 0
      = ((ch_vdiv_at 0 VB_1V).1 : ℚ) / ((ch_vdiv_at 0 VB_1V).2 : ℚ) :=
  (get_volts_per_div_formula snapshot_1v 0 0 VB_1V 0
    (by set_option maxRecDepth 100000 in decide)
    (by set_option maxRecDepth 100000 in decide)
    (by set_option maxRecDepth 100000 in decide) (by decide) (by decide)).1
    (by set_option maxRecDepth 100000 in decide)

/-- C15: table round trips code, unit, code. For every probe code p in 0..3
and range code r in 0..10, the search of row `ch_vdiv[p]` for the pair stored
at r yields r; for every timebase code t in 0x00..0x1F, the search of
`win_timebase` for the pair stored at t yields t; for every probe code p the
search of `probe_factor` for `probe_factor[p]` yields p. So, for a channel
whose shadow has probe code p and range code r, `config_set` of the volts/div
or of the probe factor that `config_get` reports writes r or p back into the
pending snapshot. -/
theorem table_round_trips (p r t : Nat) (hp : p ≤ 3) (hr : r ≤ 10) (ht : t ≤ 0x1F) :
    std_u64_tuple_idx (MetaVal.tuple (ch_vdiv_at p r).1 (ch_vdiv_at p r).2)
        (ch_vdiv.getD p []) = r
    ∧ std_u64_tuple_idx (MetaVal.tuple (win_timebase.getD t (0, 0)).1
        (win_timebase.getD t (0, 0)).2) win_timebase = t
    ∧ std_u64_idx (MetaVal.uint64 (probe_factor.getD p 0)) probe_factor = p
    ∧ (∀ (in_sys_data out_sys_data : List Nat) (ch_idx : Nat) (v : MetaVal),
        vert_ch_probe in_sys_data ch_idx = p → vert_ch_vb in_sys_data ch_idx = r →
        (config_get_channel in_sys_data ConfKey.SR_CONF_VDIV ch_idx).2 = some v →
        config_set_channel in_sys_data out_sys_data ConfKey.SR_CONF_VDIV v ch_idx
          = Except.ok (out_sys_data.set (10 * ch_idx + 1) r))
    ∧ (∀ (in_sys_data out_sys_data : List Nat) (ch_idx : Nat) (v : MetaVal),
        vert_ch_probe in_sys_data ch_idx = p →
        (config_get_channel in_sys_data ConfKey.SR_CONF_PROBE_FACTOR ch_idx).2 = some v →
        config_set_channel in_sys_data out_sys_data ConfKey.SR_CONF_PROBE_FACTOR v ch_idx
          = Except.ok (out_sys_data.set (10 * ch_idx + 5) p)) := by
  have h1 : std_u64_tuple_idx (MetaVal.tuple (ch_vdiv_at p r).1 (ch_vdiv_at p r).2)
      (ch_vdiv.getD p []) = r := by
    interval_cases p <;> interval_cases r <;> decide
  have h3 : std_u64_idx (MetaVal.uint64 (probe_factor.getD p 0)) probe_factor = p := by
    interval_cases p <;> decide
  refine ⟨h1, ?_, h3, ?_, ?_⟩
  · interval_cases t <;> decide
  · intro in_sys_data out_sys_data ch_idx v hpr hvb hv
    simp only [config_get_channel, hpr, hvb, Option.some.injEq] at hv
    subst hv
    have hr256 : ((r : Int) % 256).toNat = r := by omega
    simp only [config_set_channel, hpr, h1]
    rw [if_neg (by omega), hr256]
  · intro in_sys_data out_sys_data ch_idx v hpr hv
    simp only [config_get_channel, hpr, Option.some.injEq] at hv
    subst hv
    have hp256 : ((p : Int) % 256).toNat = p := by omega
    simp only [config_set_channel, h3]
    rw [if_neg (by omega), hp256]

/-- Witness of C15: probe code 1, range code 10 and timebase code 0x1F. -/
theorem table_round_trips_witness :
    std_u64_tuple_idx (MetaVal.tuple (ch_vdiv_at 1 10).1 (ch_vdiv_at 1 10).2)
        (ch_vdiv.getD 1 []) = (10 : Nat)
    ∧ std_u64_tuple_idx (MetaVal.tuple (win_timebase.getD 0x1F (0, 0)).1
        (win_timebase.getD 0x1F (0, 0)).2) win_timebase = (0x1F : Nat)
    ∧ std_u64_idx (MetaVal.uint64 (probe_factor.getD 1 0)) probe_factor = (1 : Nat) :=
  ⟨(table_round_trips 1 10 0x1F (by decide) (by decide) (by decide)).1,
   (table_round_trips 1 10 0x1F (by decide) (by decide) (by decide)).2.1,
   (table_round_trips 1 10 0x1F (by decide) (by decide) (by decide)).2.2.1⟩

/-- C16: for every store-depth code c listed in `memory_depth_mapper` (0x00,
0x04, 0x06, 0x07) the memory depth of c maps back to c and the sample rate
table index of c maps back to c; code 0x06 maps to the memory depth 512 x 1024
and to the index 2, and both map back to 0x06. -/
theorem memory_depth_round_trips (c : Nat) (hc : c = 0x00 ∨ c = 0x04 ∨ c = 0x06 ∨ c = 0x07) :
    hantek_5xxxb_get_store_depth_from_memory_depth
        (hantek_5xxxb_get_memory_depth_from_sys_data c) = c
    ∧ hantek_5xxxb_get_store_depth_from_sample_rate_array_index
        (hantek_5xxxb_get_sample_rate_array_index_from_sys_data c) = c
    ∧ hantek_5xxxb_get_memory_depth_from_sys_data 0x06 = 512 * 1024
    ∧ hantek_5xxxb_get_sample_rate_array_index_from_sys_data 0x06 = 2
    ∧ hantek_5xxxb_get_store_depth_from_memory_depth (512 * 1024) = 0x06
    ∧ hantek_5xxxb_get_store_depth_from_sample_rate_array_index 2 = 0x06 := by
  rcases hc with h | h | h | h <;> subst h <;> decide

/-- Witness of C16: the store-depth code 0x04. -/
theorem memory_depth_round_trips_witness :
    hantek_5xxxb_get_store_depth_from_memory_depth
        (hantek_5xxxb_get_memory_depth_from_sys_data 0x04) = 0x04
    ∧ hantek_5xxxb_get_store_depth_from_sample_rate_array_index
        (hantek_5xxxb_get_sample_rate_array_index_from_sys_data 0x04) = 0x04 :=
  ⟨(memory_depth_round_trips 0x04 (Or.inr (Or.inl rfl))).1,
   (memory_depth_round_trips 0x04 (Or.inr (Or.inl rfl))).2.1⟩

/-! ## Sample rate and digits -/

theorem rat_trunc_of_nonneg (q : ℚ) (h : 0 ≤ q) : (rat_trunc q).toNat = ⌊q⌋₊ := by
  unfold rat_trunc
  rw [if_pos h]
  rfl

theorem win_timebase_bounds (t : Nat) (ht : t ≤ 0x1F) :
    2 ≤ (win_timebase.getD t (0, 0)).1 ∧ 1 ≤ (win_timebase.getD t (0, 0)).2
      ∧ (win_timebase.getD t (0, 0)).2 ≤ 1000000000 := by
  interval_cases t <;> decide

theorem sample_count_le (tb ch2 menu idx : Nat) : sample_count_at tb ch2 menu idx ≤ 768000 := by
  have h : ∀ a ∈ sample_count, ∀ b ∈ a, ∀ c ∈ b, ∀ d ∈ c, d ≤ 768000 := by decide
  unfold sample_count_at
  by_cases h1 : tb < sample_count.length
  · rw [List.getD_eq_getElem _ _ h1]
    have ha := h _ (List.getElem_mem h1)
    by_cases h2 : ch2 < (sample_count[tb]).length
    · rw [List.getD_eq_getElem _ _ h2]
      have hb := ha _ (List.getElem_mem h2)
      by_cases h3 : menu < (sample_count[tb][ch2]).length
      · rw [List.getD_eq_getElem _ _ h3]
        have hc := hb _ (List.getElem_mem h3)
        by_cases h4 : idx < (sample_count[tb][ch2][menu]).length
        · rw [List.getD_eq_getElem _ _ h4]
          exact hc _ (List.getElem_mem h4)
        · rw [List.getD_eq_default _ _ (Nat.le_of_not_lt h4)]; omega
      · rw [List.getD_eq_default _ _ (Nat.le_of_not_lt h3)]; simp
    · rw [List.getD_eq_default _ _ (Nat.le_of_not_lt h2)]; simp
  · rw [List.getD_eq_default _ _ (Nat.le_of_not_lt h1)]; simp

theorem floor_rate (s num den hn hd : Nat) (hnum : 0 < num) (hden : 0 < den) (hhn : 0 < hn)
    (hhd : 0 < hd) :
    ⌊(s : ℚ) / (((num : ℚ) / (den : ℚ)) * ((hn : ℚ) / (hd : ℚ)))⌋₊ = s * den * hd / (num * hn) := by
  have e : (s : ℚ) / (((num : ℚ) / (den : ℚ)) * ((hn : ℚ) / (hd : ℚ)))
      = ((s * den * hd : Nat) : ℚ) / ((num * hn : Nat) : ℚ) := by
    have h1 : (num : ℚ) ≠ 0 := by positivity
    have h2 : (den : ℚ) ≠ 0 := by positivity
    have h3 : (hn : ℚ) ≠ 0 := by positivity
    have h4 : (hd : ℚ) ≠ 0 := by positivity
    push_cast
    field_simp
    ring
  rw [e, Nat.floor_div_eq_div]

theorem sample_rate_array_index_spec (depth : Nat) :
    (∀ e ∈ memory_depth_mapper, e.2.1 = depth →
        hantek_5xxxb_get_sample_rate_array_index_from_sys_data depth = e.2.2)
    ∧ ((∀ e ∈ memory_depth_mapper, e.2.1 ≠ depth) →
        hantek_5xxxb_get_sample_rate_array_index_from_sys_data depth = 0)
    ∧ hantek_5xxxb_get_sample_rate_array_index_from_sys_data depth ≤ 3 := by
  by_cases h0 : depth = 0
  · subst h0; decide
  by_cases h4 : depth = 4
  · subst h4; decide
  by_cases h6 : depth = 6
  · subst h6; decide
  by_cases h7 : depth = 7
  · subst h7; decide
  have e : hantek_5xxxb_get_sample_rate_array_index_from_sys_data depth = 0 := by
    have b0 : (0 == depth) = false := beq_false_of_ne (Ne.symm h0)
    have b4 : (4 == depth) = false := beq_false_of_ne (Ne.symm h4)
    have b6 : (6 == depth) = false := beq_false_of_ne (Ne.symm h6)
    have b7 : (7 == depth) = false := beq_false_of_ne (Ne.symm h7)
    simp [hantek_5xxxb_get_sample_rate_array_index_from_sys_data, memory_depth_mapper,
      List.find?, b0, b4, b6, b7]
  refine ⟨?_, fun _ => e, by omega⟩
  intro x hx hd
  simp [memory_depth_mapper] at hx
  rcases hx with rfl | rfl | rfl | rfl <;> simp at hd <;> omega

theorem ilog10_12500 : ilog10 12500 12500 = 4 := by
  simp [ilog10]

theorem log10_trunc_8e5 : log10_trunc (2 / 1000 * HANTEK_5XXXB_NUM_VDIV / 255) = -4 := by
  have e : (2 / 1000 * HANTEK_5XXXB_NUM_VDIV / 255 : ℚ) = 1 / 12500 := by
    norm_num [HANTEK_5XXXB_NUM_VDIV]
  rw [e]
  unfold log10_trunc
  have h1 : ¬ (1 ≤ (1 / 12500 : ℚ)) := by norm_num
  rw [if_neg h1]
  have e2 : (1 / (1 / 12500 : ℚ)) = ((12500 : Nat) : ℚ) := by norm_num
  rw [e2, Nat.floor_natCast, ilog10_12500]
  rfl

theorem volts_per_div_2mv (sd : List Nat) (ch : Nat) (hvb : vert_ch_vb sd ch = VB_2MV)
    (hp : vert_ch_probe sd ch = 0) (hf : vert_ch_fine sd ch = 0) :
    hantek_5xxxb_get_volts_per_div sd ch = 2 / 1000 := by
  unfold hantek_5xxxb_get_volts_per_div
  simp only [hvb, hp, hf]
  norm_num [ch_vdiv_at, ch_vdiv]

theorem digits_2mv (sd : List Nat) (ch : Nat) (hvb : vert_ch_vb sd ch = VB_2MV)
    (hp : vert_ch_probe sd ch = 0) (hf : vert_ch_fine sd ch = 0) :
    send_df_chunk_digits sd ch = 5 := by
  unfold send_df_chunk_digits
  simp only [volts_per_div_2mv sd ch hvb hp hf, log10_trunc_8e5]
  have h : (2 / 1000 * HANTEK_5XXXB_NUM_VDIV / 255 : ℚ) < 1 := by
    norm_num [HANTEK_5XXXB_NUM_VDIV]
  rw [if_pos h]
  rfl

theorem snapshot_40s_fields :
    horiz_win_tb snapshot_40s = 0x1F ∧ vert_ch_disp snapshot_40s 0 = 1
    ∧ vert_ch_disp snapshot_40s 1 = 0 ∧ control_disp_menu snapshot_40s = 0
    ∧ acqurie_store_depth snapshot_40s = 0 := by
  set_option maxRecDepth 100000 in decide

/-! ## Sample rate in floating point -/

theorem fp_trunc_eq_floor (x : fp) : fp_trunc x = ⌊fp_val x⌋₊ := by
  unfold fp_trunc fp_val
  by_cases h : 0 ≤ x.e
  · rw [if_pos h]
    obtain ⟨k, hk⟩ := Int.eq_ofNat_of_zero_le h
    rw [hk]
    have e : (x.m : ℚ) * (2 : ℚ) ^ ((k : Nat) : Int) = ((x.m * 2 ^ k : Nat) : ℚ) := by
      push_cast
      rw [zpow_natCast]
    rw [e, Nat.floor_natCast]
    simp
  · rw [if_neg h]
    obtain ⟨k, hk⟩ : ∃ k : Nat, x.e = -(k : Int) := ⟨(-x.e).toNat, by omega⟩
    rw [hk]
    have e : (x.m : ℚ) * (2 : ℚ) ^ (-(k : Int)) = (x.m : ℚ) / ((2 ^ k : Nat) : ℚ) := by
      push_cast
      rw [zpow_neg, zpow_natCast, div_eq_mul_inv]
    rw [e, Nat.floor_div_eq_div]
    simp

theorem exact_rate_eq_floor (samples : Nat) (tb : Nat × Nat) (menu : Nat)
    (h1 : 0 < tb.1) (h2 : 0 < tb.2) :
    exact_rate samples tb menu
      = ⌊(samples : ℚ) / (((tb.1 : ℚ) / (tb.2 : ℚ))
          * (if menu ≠ 0 then (16 : ℚ) else 19.2))⌋₊ := by
  have h192 : (19.2 : ℚ) = ((192 : Nat) : ℚ) / ((10 : Nat) : ℚ) := by norm_num
  have h16 : (16 : ℚ) = ((16 : Nat) : ℚ) / ((1 : Nat) : ℚ) := by norm_num
  unfold exact_rate
  split_ifs
  · rw [h16, floor_rate samples tb.1 tb.2 16 1 h1 h2 (by decide) (by decide)]
  · rw [h192, floor_rate samples tb.1 tb.2 192 10 h1 h2 (by decide) (by decide)]

theorem samplerate_expr_table : ∀ t < 32, ∀ ch < 2, ∀ m < 2, ∀ d < 4,
    fp_trunc (samplerate_expr (sample_count_at t ch m d) (win_timebase.getD t (0, 0)) m) < 2 ^ 64
    ∧ exact_rate (sample_count_at t ch m d) (win_timebase.getD t (0, 0)) m
        ≤ fp_trunc (samplerate_expr (sample_count_at t ch m d) (win_timebase.getD t (0, 0)) m)
          + (exact_rate (sample_count_at t ch m d) (win_timebase.getD t (0, 0)) m / 2 ^ 24 + 1)
    ∧ fp_trunc (samplerate_expr (sample_count_at t ch m d) (win_timebase.getD t (0, 0)) m)
        ≤ exact_rate (sample_count_at t ch m d) (win_timebase.getD t (0, 0)) m
          + (exact_rate (sample_count_at t ch m d) (win_timebase.getD t (0, 0)) m / 2 ^ 24
            + 1) := by
  set_option maxRecDepth 100000 in decide

theorem samplerate_expr_menu : ∀ t < 32, ∀ ch < 2, ∀ d < 4,
    fp_trunc (samplerate_expr (sample_count_at t ch 0 d) (win_timebase.getD t (0, 0)) 0)
      = fp_trunc (samplerate_expr (sample_count_at t ch 1 d) (win_timebase.getD t (0, 0)) 1) := by
  set_option maxRecDepth 100000 in decide

theorem disp_and_le_one (a b : Nat) (ha : a ≤ 1) (hb : b ≤ 1) : (a &&& b) ≤ 1 := by
  interval_cases a <;> interval_cases b <;> decide

theorem snapshot_2ms_menu_fields :
    horiz_win_tb snapshot_2ms_menu = 0x12 ∧ vert_ch_disp snapshot_2ms_menu 0 = 1
    ∧ vert_ch_disp snapshot_2ms_menu 1 = 0 ∧ control_disp_menu snapshot_2ms_menu = 1
    ∧ acqurie_store_depth snapshot_2ms_menu = 0 := by
  set_option maxRecDepth 100000 in decide

/-- C17, counterexample: the snapshot has window timebase 0x12 (2 ms), channel
1 on, channel 2 off, the menu visible and the store depth 4k, so the sample
count is 3200 and the integer part of 3200 / (0.002 x 16) is 100000. The code
divides 2 by `(float)1000`, which gives the `float` 8589935 x 2 ^ -32, a
little above 0.002; the quotient by its product with 16 is a little below
100000, and the conversion to `uint64_t` returns 99999. -/
theorem get_samplerate_rounds_below :
    horiz_win_tb snapshot_2ms_menu = 0x12 ∧ vert_ch_disp snapshot_2ms_menu 0 = 1
    ∧ vert_ch_disp snapshot_2ms_menu 1 = 0 ∧ control_disp_menu snapshot_2ms_menu = 1
    ∧ acqurie_store_depth snapshot_2ms_menu = 0
    ∧ sample_count_at 0x12 (1 &&& 0) 1
        (hantek_5xxxb_get_sample_rate_array_index_from_sys_data 0) = 3200
    ∧ win_timebase.getD 0x12 (0, 0) = (2, 1000)
    ∧ ⌊(3200 : ℚ) / (((2 : ℚ) / (1000 : ℚ)) * 16)⌋₊ = 100000
    ∧ float_div (float_of_nat 2) (float_of_nat 1000) = ⟨8589935, -32⟩
    ∧ hantek_5xxxb_get_samplerate snapshot_2ms_menu = 99999 := by
  obtain ⟨s1, s2, s3, s4, s5⟩ := snapshot_2ms_menu_fields
  refine ⟨s1, s2, s3, s4, s5, by decide, by decide, ?_, by decide, ?_⟩
  · have e : (3200 : ℚ) / (((2 : ℚ) / (1000 : ℚ)) * 16) = ((100000 : Nat) : ℚ) := by norm_num
    rw [e, Nat.floor_natCast]
  · unfold hantek_5xxxb_get_samplerate
    simp only [s1, s2, s3, s4, s5]
    set_option maxRecDepth 100000 in decide

/-- C17, amended: for every snapshot with window timebase code t in
0x00..0x1F, channel display flags and menu flag in 0..1 and any store-depth
byte, `hantek_5xxxb_get_samplerate` returns the integer part of the quotient
`sample_count[t][ch1.disp AND ch2.disp][menu][depth index]`
/ (`win_timebase[t]` in seconds x H) as the code computes it in floating
point: the timebase in seconds is the `float` quotient of the two table
entries, H is the `double` 16 when the menu is visible and 19.2 when it is
not, and the product and the quotient are `double`. With E the integer part
of the exact quotient, the result differs from E by at most E / 2 ^ 24 + 1.
The depth index is the index the mapper lists for the store-depth byte and 0
for an unlisted byte, and the table is read inside its bounds. For t = 0x1F
(40 s), one channel, menu off and 4k depth the sample count is 3840 and the
result is 3840 / (40 x 19.2) = 5. -/
theorem get_samplerate_float_quotient (sys_data : List Nat)
    (ht : horiz_win_tb sys_data ≤ 0x1F)
    (hd0 : vert_ch_disp sys_data 0 ≤ 1) (hd1 : vert_ch_disp sys_data 1 ≤ 1)
    (hm : control_disp_menu sys_data ≤ 1) :
    hantek_5xxxb_get_samplerate sys_data
      = ⌊fp_val (double_div
          (double_of_ratio (sample_count_at (horiz_win_tb sys_data)
            (vert_ch_disp sys_data 0 &&& vert_ch_disp sys_data 1) (control_disp_menu sys_data)
            (hantek_5xxxb_get_sample_rate_array_index_from_sys_data
              (acqurie_store_depth sys_data))) 1)
          (double_mul
            (float_div (float_of_nat (win_timebase.getD (horiz_win_tb sys_data) (0, 0)).1)
              (float_of_nat (win_timebase.getD (horiz_win_tb sys_data) (0, 0)).2))
            (if control_disp_menu sys_data = 1 then double_of_ratio 16 1
              else double_of_ratio 192 10)))⌋₊
    ∧ ⌊(sample_count_at (horiz_win_tb sys_data)
            (vert_ch_disp sys_data 0 &&& vert_ch_disp sys_data 1) (control_disp_menu sys_data)
            (hantek_5xxxb_get_sample_rate_array_index_from_sys_data
              (acqurie_store_depth sys_data)) : ℚ)
          / ((((win_timebase.getD (horiz_win_tb sys_data) (0, 0)).1 : ℚ)
              / ((win_timebase.getD (horiz_win_tb sys_data) (0, 0)).2 : ℚ))
            * (if control_disp_menu sys_data = 1 then (16 : ℚ) else 19.2))⌋₊
        = exact_rate (sample_count_at (horiz_win_tb sys_data)
            (vert_ch_disp sys_data 0 &&& vert_ch_disp sys_data 1) (control_disp_menu sys_data)
            (hantek_5xxxb_get_sample_rate_array_index_from_sys_data
              (acqurie_store_depth sys_data)))
          (win_timebase.getD (horiz_win_tb sys_data) (0, 0)) (control_disp_menu sys_data)
    ∧ exact_rate (sample_count_at (horiz_win_tb sys_data)
            (vert_ch_disp sys_data 0 &&& vert_ch_disp sys_data 1) (control_disp_menu sys_data)
            (hantek_5xxxb_get_sample_rate_array_index_from_sys_data
              (acqurie_store_depth sys_data)))
          (win_timebase.getD (horiz_win_tb sys_data) (0, 0)) (control_disp_menu sys_data)
        ≤ hantek_5xxxb_get_samplerate sys_data
          + (exact_rate (sample_count_at (horiz_win_tb sys_data)
              (vert_ch_disp sys_data 0 &&& vert_ch_disp sys_data 1)
              (control_disp_menu sys_data)
              (hantek_5xxxb_get_sample_rate_array_index_from_sys_data
                (acqurie_store_depth sys_data)))
            (win_timebase.getD (horiz_win_tb sys_data) (0, 0)) (control_disp_menu sys_data)
            / 2 ^ 24 + 1)
    ∧ hantek_5xxxb_get_samplerate sys_data
        ≤ exact_rate (sample_count_at (horiz_win_tb sys_data)
            (vert_ch_disp sys_data 0 &&& vert_ch_disp sys_data 1) (control_disp_menu sys_data)
            (hantek_5xxxb_get_sample_rate_array_index_from_sys_data
              (acqurie_store_depth sys_data)))
          (win_timebase.getD (horiz_win_tb sys_data) (0, 0)) (control_disp_menu sys_data)
          + (exact_rate (sample_count_at (horiz_win_tb sys_data)
              (vert_ch_disp sys_data 0 &&& vert_ch_disp sys_data 1)
              (control_disp_menu sys_data)
              (hantek_5xxxb_get_sample_rate_array_index_from_sys_data
                (acqurie_store_depth sys_data)))
            (win_timebase.getD (horiz_win_tb sys_data) (0, 0)) (control_disp_menu sys_data)
            / 2 ^ 24 + 1)
    ∧ (∀ e ∈ memory_depth_mapper, e.2.1 = acqurie_store_depth sys_data →
        hantek_5xxxb_get_sample_rate_array_index_from_sys_data (acqurie_store_depth sys_data)
          = e.2.2)
    ∧ ((∀ e ∈ memory_depth_mapper, e.2.1 ≠ acqurie_store_depth sys_data) →
        hantek_5xxxb_get_sample_rate_array_index_from_sys_data (acqurie_store_depth sys_data)
          = 0)
    ∧ horiz_win_tb sys_data < sample_count.length
    ∧ (vert_ch_disp sys_data 0 &&& vert_ch_disp sys_data 1) ≤ 1
    ∧ hantek_5xxxb_get_sample_rate_array_index_from_sys_data (acqurie_store_depth sys_data) ≤ 3
    ∧ sample_count_at 0x1F 0 0 0 = 3840
    ∧ win_timebase.getD 0x1F (0, 0) = (40, 1)
    ∧ hantek_5xxxb_get_samplerate snapshot_40s = 5 := by
  have hmenu : (control_disp_menu sys_data ≠ 0) = (control_disp_menu sys_data = 1) := by
    apply propext
    constructor <;> intro h <;> omega
  obtain ⟨i1, i2, i3⟩ := sample_rate_array_index_spec (acqurie_store_depth sys_data)
  have hand := disp_and_le_one _ _ hd0 hd1
  obtain ⟨hn, hd1', _⟩ := win_timebase_bounds _ ht
  obtain ⟨b1, b2, b3⟩ := samplerate_expr_table (horiz_win_tb sys_data) (by omega)
    (vert_ch_disp sys_data 0 &&& vert_ch_disp sys_data 1) (by omega)
    (control_disp_menu sys_data) (by omega)
    (hantek_5xxxb_get_sample_rate_array_index_from_sys_data (acqurie_store_depth sys_data))
    (by omega)
  have hdef : hantek_5xxxb_get_samplerate sys_data
      = fp_trunc (samplerate_expr (sample_count_at (horiz_win_tb sys_data)
          (vert_ch_disp sys_data 0 &&& vert_ch_disp sys_data 1) (control_disp_menu sys_data)
          (hantek_5xxxb_get_sample_rate_array_index_from_sys_data
            (acqurie_store_depth sys_data)))
        (win_timebase.getD (horiz_win_tb sys_data) (0, 0)) (control_disp_menu sys_data)) := by
    unfold hantek_5xxxb_get_samplerate
    exact Nat.mod_eq_of_lt b1
  refine ⟨?_, ?_, ?_, ?_, i1, i2, ?_, hand, i3, by decide, by decide, ?_⟩
  · rw [hdef, fp_trunc_eq_floor]
    unfold samplerate_expr
    simp only [hmenu]
  · rw [exact_rate_eq_floor _ _ _ (by omega) (by omega)]
    simp only [hmenu]
  · rw [hdef]
    exact b2
  · rw [hdef]
    exact b3
  · have : sample_count.length = 32 := by decide
    omega
  · obtain ⟨s1, s2, s3, s4, s5⟩ := snapshot_40s_fields
    unfold hantek_5xxxb_get_samplerate
    simp only [s1, s2, s3, s4, s5]
    set_option maxRecDepth 100000 in decide

/-- Witness of C17: the snapshot `snapshot_40s`, t = 0x1F, channel 1 on,
channel 2 off, menu off, store depth 4k: the sample rate is 5. -/
theorem get_samplerate_float_quotient_witness :
    hantek_5xxxb_get_samplerate snapshot_40s = 5 :=
  (get_samplerate_float_quotient snapshot_40s
    (by set_option maxRecDepth 100000 in decide)
    (by set_option maxRecDepth 100000 in decide)
    (by set_option maxRecDepth 100000 in decide)
    (by set_option maxRecDepth 100000 in decide)).2.2.2.2.2.2.2.2.2.2.2

/-- C18, counterexample: for the zeroed snapshot, whose channel 1 has range
code `VB_2MV`, probe code 0 and the fine-step flag clear, volts/div is 0.002
and the digits value of `send_df_chunk` is 5, not 3. -/
theorem send_df_chunk_digits_is_five :
    vert_ch_vb snapshot_2mv 0 = VB_2MV ∧ vert_ch_probe snapshot_2mv 0 = 0
    ∧ vert_ch_fine snapshot_2mv 0 = 0
    ∧ hantek_5xxxb_get_volts_per_div snapshot_2mv 0 = 0.002
    ∧ send_df_chunk_digits snapshot_2mv 0 = 5
    ∧ send_df_chunk_digits snapshot_2mv 0 ≠ 3 := by
  have h1 : vert_ch_vb snapshot_2mv 0 = VB_2MV := by set_option maxRecDepth 100000 in decide
  have h2 : vert_ch_probe snapshot_2mv 0 = 0 := by set_option maxRecDepth 100000 in decide
  have h3 : vert_ch_fine snapshot_2mv 0 = 0 := by set_option maxRecDepth 100000 in decide
  refine ⟨h1, h2, h3, ?_, digits_2mv _ _ h1 h2 h3, ?_⟩
  · rw [volts_per_div_2mv _ _ h1 h2 h3]
    norm_num
  · rw [digits_2mv _ _ h1 h2 h3]
    decide

/-- C18, amended: for a channel whose shadow has range code `VB_2MV` (0x00),
probe code 0 (x1) and the fine-step flag clear, so that volts/div = 0.002, the
digits value that `send_df_chunk` attaches to the emitted samples (encoding
digits and spec digits) is 5: the logarithm of 0.002 x 10.2 / 255 = 0.00008
lies between -5 and -4, its integer part is -4, and 1 is added because the
logarithm is negative. -/
theorem send_df_chunk_digits_2mv (in_sys_data : List Nat) (channel_idx : Nat)
    (hvb : vert_ch_vb in_sys_data channel_idx = VB_2MV)
    (hp : vert_ch_probe in_sys_data channel_idx = 0)
    (hf : vert_ch_fine in_sys_data channel_idx = 0) :
    hantek_5xxxb_get_volts_per_div in_sys_data channel_idx = 0.002
    ∧ send_df_chunk_digits in_sys_data channel_idx = 5
    ∧ (0.002 * HANTEK_5XXXB_NUM_VDIV / 255 : ℚ) = 0.00008
    ∧ (10 : ℚ) ^ (-5 : Int) < 0.00008 ∧ (0.00008 : ℚ) < 10 ^ (-4 : Int)
    ∧ log10_trunc 0.00008 = -4 := by
  have e : (0.00008 : ℚ) = 2 / 1000 * HANTEK_5XXXB_NUM_VDIV / 255 := by
    norm_num [HANTEK_5XXXB_NUM_VDIV]
  refine ⟨?_, digits_2mv _ _ hvb hp hf, ?_, ?_, ?_, ?_⟩
  · rw [volts_per_div_2mv _ _ hvb hp hf]
    norm_num
  · norm_num [HANTEK_5XXXB_NUM_VDIV]
  · norm_num
  · norm_num
  · rw [e]
    exact log10_trunc_8e5

/-- Witness of C18: channel 2 of the snapshot `snapshot_1v`, which has range
code `VB_2MV`, probe code 0 and the fine-step flag clear. -/
theorem send_df_chunk_digits_2mv_witness :
    send_df_chunk_digits snapshot_1v 1 = 5 :=
  (send_df_chunk_digits_2mv snapshot_1v 1
    (by set_option maxRecDepth 100000 in decide)
    (by set_option maxRecDepth 100000 in decide)
    (by set_option maxRecDepth 100000 in decide)).2.1

/-! ## Configuration: when the register snapshot is fetched -/

theorem get_sys_data_out_log_prefix (sdi : sr_dev_inst) (sys_data : List Nat) :
    ∃ rest, (hantek_5xxxb_get_sys_data sdi sys_data).2.1.conn.out_log
      = sdi.conn.out_log ++ lock_panel_frame true :: rest := by
  by_cases hlock : (hantek_5xxxb_lock_panel sdi true).1 = SR_OK
  · exact ⟨[get_sys_data_frame, lock_panel_frame false],
      by rw [get_sys_data_out_log sdi sys_data hlock]⟩
  · refine ⟨[], ?_⟩
    unfold hantek_5xxxb_get_sys_data
    simp [hlock, lock_panel_sdi]

theorem get_sys_data_into_shadow_eq (sdi : sr_dev_inst) :
    get_sys_data_into_shadow sdi
      = { sdi with
          conn := (hantek_5xxxb_get_sys_data sdi sdi.priv.in_sys_data).2.1.conn,
          priv := { sdi.priv with
            in_sys_data := (hantek_5xxxb_get_sys_data sdi sdi.priv.in_sys_data).2.2 } } := by
  unfold get_sys_data_into_shadow
  dsimp only
  rw [(get_sys_data_sdi sdi sdi.priv.in_sys_data).1]

theorem get_sys_data_snapshot (sdi : sr_dev_inst) (sys_data : List Nat)
    (h : (hantek_5xxxb_get_sys_data sdi sys_data).1 = SR_OK) :
    (hantek_5xxxb_get_sys_data sdi sys_data).2.2
      = slice (receive_bulk
          (send_bulk (hantek_5xxxb_lock_panel sdi true).2 get_sys_data_frame 5).2
          sdi.conn.stack 512 HANTEK_5XXXB_CMD_RD_SYSDATA).in_buf 4 SYS_DATA_SIZE := by
  obtain ⟨h1, h2, h3, h4⟩ := (get_sys_data_ok_iff sdi sys_data).mp h
  unfold hantek_5xxxb_get_sys_data
  simp [h1, h2, h3, h4]

theorem get_sys_data_keeps (sdi : sr_dev_inst) (sys_data : List Nat)
    (h : (hantek_5xxxb_get_sys_data sdi sys_data).1 ≠ SR_OK) :
    (hantek_5xxxb_get_sys_data sdi sys_data).2.2 = sys_data := by
  revert h
  unfold hantek_5xxxb_get_sys_data
  dsimp only
  split_ifs <;> simp

theorem config_get_early (key : ConfKey) (sdi : sr_dev_inst) (cg : Option Nat)
    (h : is_limit_key key = true ∨ key = ConfKey.SR_CONF_CONN) :
    (config_get key sdi cg).2.1 = sdi := by
  unfold config_get
  rcases h with h | h
  · simp [h]
  · subst h
    simp [is_limit_key]

theorem config_get_capture (key : ConfKey) (sdi : sr_dev_inst) (cg : Option Nat)
    (hl : is_limit_key key = false) (hc : key ≠ ConfKey.SR_CONF_CONN)
    (hs : sdi.priv.dev_state = states.CAPTURE) :
    config_get key sdi cg
      = ((config_get_answer sdi.priv.in_sys_data key cg).1, sdi,
          (config_get_answer sdi.priv.in_sys_data key cg).2) := by
  unfold config_get
  simp [hl, hc, hs]

theorem config_get_not_capture (key : ConfKey) (sdi : sr_dev_inst) (cg : Option Nat)
    (hl : is_limit_key key = false) (hc : key ≠ ConfKey.SR_CONF_CONN)
    (hs : sdi.priv.dev_state ≠ states.CAPTURE) :
    config_get key sdi cg
      = ((config_get_answer (get_sys_data_into_shadow sdi).priv.in_sys_data key cg).1,
          get_sys_data_into_shadow sdi,
          (config_get_answer (get_sys_data_into_shadow sdi).priv.in_sys_data key cg).2) := by
  unfold config_get
  simp [hl, hc, hs]

theorem idle_sdi_lock : (hantek_5xxxb_lock_panel idle_sdi true).1 = SR_OK := by
  rw [lock_panel_ok_iff]
  exact ⟨rfl, lock_response true, rfl, by decide, by decide, by decide, by decide⟩

/-- C19: for the limit keys and the connection key `config_get` leaves the
device instance as it is, in every state: no transfer, no fetch. For every
other key, in state `CAPTURE` it leaves the device instance as it is (no
transfer) and answers from the shadow snapshot as it stands; in state `IDLE`
or `STOPPING` it first runs `hantek_5xxxb_get_sys_data` with the shadow
snapshot as the destination and answers from the resulting shadow: the first
frame handed to the link is the lock frame, the frames are lock, read and
unlock when the lock succeeds, and when the fetch succeeds the shadow is the
snapshot of the response. -/
theorem config_get_fetch_policy (key : ConfKey) (sdi : sr_dev_inst) (cg : Option Nat) :
    ((is_limit_key key = true ∨ key = ConfKey.SR_CONF_CONN) →
      (config_get key sdi cg).2.1 = sdi)
    ∧ (is_limit_key key = false → key ≠ ConfKey.SR_CONF_CONN →
        (sdi.priv.dev_state = states.CAPTURE →
          (config_get key sdi cg).2.1 = sdi
          ∧ ((config_get key sdi cg).1, (config_get key sdi cg).2.2)
              = config_get_answer sdi.priv.in_sys_data key cg)
        ∧ (sdi.priv.dev_state = states.IDLE ∨ sdi.priv.dev_state = states.STOPPING →
          (config_get key sdi cg).2.1.conn
              = (hantek_5xxxb_get_sys_data sdi sdi.priv.in_sys_data).2.1.conn
          ∧ (config_get key sdi cg).2.1.priv.in_sys_data
              = (hantek_5xxxb_get_sys_data sdi sdi.priv.in_sys_data).2.2
          ∧ ((config_get key sdi cg).1, (config_get key sdi cg).2.2)
              = config_get_answer
                  (hantek_5xxxb_get_sys_data sdi sdi.priv.in_sys_data).2.2 key cg
          ∧ (∃ rest, (config_get key sdi cg).2.1.conn.out_log
              = sdi.conn.out_log ++ lock_panel_frame true :: rest)
          ∧ ((hantek_5xxxb_lock_panel sdi true).1 = SR_OK →
              (config_get key sdi cg).2.1.conn.out_log
                = sdi.conn.out_log
                  ++ [lock_panel_frame true, get_sys_data_frame, lock_panel_frame false])
          ∧ ((hantek_5xxxb_get_sys_data sdi sdi.priv.in_sys_data).1 = SR_OK →
              (config_get key sdi cg).2.1.priv.in_sys_data
                = slice (receive_bulk
                    (send_bulk (hantek_5xxxb_lock_panel sdi true).2 get_sys_data_frame 5).2
                    sdi.conn.stack 512 HANTEK_5XXXB_CMD_RD_SYSDATA).in_buf 4 SYS_DATA_SIZE))) := by
  refine ⟨config_get_early key sdi cg, fun hl hc => ⟨fun hs => ?_, fun hs => ?_⟩⟩
  · rw [config_get_capture key sdi cg hl hc hs]
    exact ⟨rfl, rfl⟩
  · have hs1 : sdi.priv.dev_state ≠ states.CAPTURE := by
      rcases hs with h | h <;> rw [h] <;> decide
    rw [config_get_not_capture key sdi cg hl hc hs1, get_sys_data_into_shadow_eq]
    refine ⟨rfl, rfl, rfl, get_sys_data_out_log_prefix sdi _, ?_, ?_⟩
    · intro hlock
      exact get_sys_data_out_log sdi _ hlock
    · intro hok
      exact get_sys_data_snapshot sdi _ hok

/-- Witness of C19: the volts/div of channel 1. In state `CAPTURE` the device
instance is unchanged; in state `IDLE`, on a link that answers the fetch with
`snapshot_vb_trig`, the frames lock, read and unlock are sent and the answer
is the range 20 / 1000 of the fetched snapshot. -/
theorem config_get_fetch_policy_witness :
    (config_get ConfKey.SR_CONF_VDIV (enabled_sdi []) (some 0)).2.1 = enabled_sdi []
    ∧ (config_get ConfKey.SR_CONF_VDIV idle_sdi (some 0)).2.1.conn.out_log
        = idle_sdi.conn.out_log
          ++ [lock_panel_frame true, get_sys_data_frame, lock_panel_frame false]
    ∧ ((config_get ConfKey.SR_CONF_VDIV idle_sdi (some 0)).1,
        (config_get ConfKey.SR_CONF_VDIV idle_sdi (some 0)).2.2)
        = config_get_answer
            (hantek_5xxxb_get_sys_data idle_sdi idle_sdi.priv.in_sys_data).2.2
            ConfKey.SR_CONF_VDIV (some 0) :=
  ⟨(((config_get_fetch_policy ConfKey.SR_CONF_VDIV (enabled_sdi []) (some 0)).2
      (by decide) (by decide)).1 rfl).1,
   (((config_get_fetch_policy ConfKey.SR_CONF_VDIV idle_sdi (some 0)).2
      (by decide) (by decide)).2 (Or.inl rfl)).2.2.2.2.1 idle_sdi_lock,
   (((config_get_fetch_policy ConfKey.SR_CONF_VDIV idle_sdi (some 0)).2
      (by decide) (by decide)).2 (Or.inl rfl)).2.2.1⟩

theorem set_sys_data_priv (sdi : sr_dev_inst) :
    (hantek_5xxxb_set_sys_data sdi).2.priv = sdi.priv := by
  rcases ho : sdi.conn.out_results.head? with _ | b
  · simp [hantek_5xxxb_set_sys_data, send_bulk, ho]
  · cases b
    · simp [hantek_5xxxb_set_sys_data, send_bulk, ho]
    · simp only [hantek_5xxxb_set_sys_data, send_bulk, ho]
      split_ifs <;> simp [receive_bulk_sdi]

theorem config_set_capture_ok (decls : acquire_decls) (key : ConfKey) (data : MetaVal)
    (sdi : sr_dev_inst) (cg : Option Nat) (hl : is_limit_key key = false)
    (hs : sdi.priv.dev_state = states.CAPTURE) (out : List Nat)
    (hm : config_set_mutate decls sdi.priv.in_sys_data
      (slice sdi.priv.in_sys_data 0 SYS_DATA_SIZE) key data cg = Except.ok out) :
    config_set decls key data sdi cg
      = hantek_5xxxb_set_sys_data { sdi with priv := { sdi.priv with out_sys_data := out } } := by
  unfold config_set
  simp [hl, hs, clone_shadow, hm]

theorem config_set_capture_error (decls : acquire_decls) (key : ConfKey) (data : MetaVal)
    (sdi : sr_dev_inst) (cg : Option Nat) (hl : is_limit_key key = false)
    (hs : sdi.priv.dev_state = states.CAPTURE) (ret : Int)
    (hm : config_set_mutate decls sdi.priv.in_sys_data
      (slice sdi.priv.in_sys_data 0 SYS_DATA_SIZE) key data cg = Except.error ret) :
    config_set decls key data sdi cg = (ret, clone_shadow sdi) := by
  unfold config_set
  simp [hl, hs, clone_shadow, hm]

theorem config_set_not_capture_ok (decls : acquire_decls) (key : ConfKey) (data : MetaVal)
    (sdi : sr_dev_inst) (cg : Option Nat) (hl : is_limit_key key = false)
    (hs : sdi.priv.dev_state ≠ states.CAPTURE) (out : List Nat)
    (hm : config_set_mutate decls (get_sys_data_into_shadow sdi).priv.in_sys_data
      (slice (get_sys_data_into_shadow sdi).priv.in_sys_data 0 SYS_DATA_SIZE)
      key data cg = Except.ok out) :
    config_set decls key data sdi cg
      = hantek_5xxxb_set_sys_data
          { get_sys_data_into_shadow sdi with
            priv := { (get_sys_data_into_shadow sdi).priv with out_sys_data := out } } := by
  unfold config_set
  simp [hl, hs, clone_shadow, hm]

theorem config_set_not_capture_error (decls : acquire_decls) (key : ConfKey) (data : MetaVal)
    (sdi : sr_dev_inst) (cg : Option Nat) (hl : is_limit_key key = false)
    (hs : sdi.priv.dev_state ≠ states.CAPTURE) (ret : Int)
    (hm : config_set_mutate decls (get_sys_data_into_shadow sdi).priv.in_sys_data
      (slice (get_sys_data_into_shadow sdi).priv.in_sys_data 0 SYS_DATA_SIZE)
      key data cg = Except.error ret) :
    config_set decls key data sdi cg = (ret, clone_shadow (get_sys_data_into_shadow sdi)) := by
  unfold config_set
  simp [hl, hs, clone_shadow, hm]

theorem shadow_of_get_sys_data_into_shadow (sdi : sr_dev_inst) :
    (get_sys_data_into_shadow sdi).priv.in_sys_data
      = (hantek_5xxxb_get_sys_data sdi sdi.priv.in_sys_data).2.2 := rfl

theorem out_log_of_get_sys_data_into_shadow (sdi : sr_dev_inst) :
    (get_sys_data_into_shadow sdi).conn.out_log
      = (hantek_5xxxb_get_sys_data sdi sdi.priv.in_sys_data).2.1.conn.out_log := rfl

theorem enabled_sdi_mutate :
    config_set_mutate acquire_decls_example
      (enabled_sdi [some set_sys_data_response]).priv.in_sys_data
      (slice (enabled_sdi [some set_sys_data_response]).priv.in_sys_data 0 SYS_DATA_SIZE)
      ConfKey.SR_CONF_ENABLED (MetaVal.boolean true) (some 1)
      = Except.ok (((List.replicate SYS_DATA_SIZE 0).set 0 1).set 10 1) := by
  have hc : slice (enabled_sdi [some set_sys_data_response]).priv.in_sys_data 0 SYS_DATA_SIZE
      = (List.replicate SYS_DATA_SIZE 0).set 0 1 := by
    set_option maxRecDepth 100000 in decide
  rw [hc]
  rfl

theorem idle_sdi_fetch :
    (hantek_5xxxb_get_sys_data idle_sdi idle_sdi.priv.in_sys_data).2.2 = snapshot_vb_trig := by
  set_option maxRecDepth 100000 in decide

theorem idle_sdi_mutate :
    config_set_mutate acquire_decls_example
      (hantek_5xxxb_get_sys_data idle_sdi idle_sdi.priv.in_sys_data).2.2
      (slice (hantek_5xxxb_get_sys_data idle_sdi idle_sdi.priv.in_sys_data).2.2 0 SYS_DATA_SIZE)
      ConfKey.SR_CONF_ENABLED (MetaVal.boolean true) (some 1)
      = Except.ok (snapshot_vb_trig.set 10 1) := by
  have hc : slice snapshot_vb_trig 0 SYS_DATA_SIZE = snapshot_vb_trig := by
    set_option maxRecDepth 100000 in decide
  rw [idle_sdi_fetch, hc]
  rfl

/-- C20, counterexample: in state `CAPTURE`, `config_set` of the enabled flag
of channel 2 succeeds and hands exactly one frame to the link, the write of
the pending snapshot cloned from the shadow as it stands; no lock frame and no
read request is sent, so no fresh fetch is made. -/
theorem config_set_capture_skips_fetch :
    (enabled_sdi [some set_sys_data_response]).priv.dev_state = states.CAPTURE
    ∧ (config_set acquire_decls_example ConfKey.SR_CONF_ENABLED (MetaVal.boolean true)
        (enabled_sdi [some set_sys_data_response]) (some 1)).1 = SR_OK
    ∧ (config_set acquire_decls_example ConfKey.SR_CONF_ENABLED (MetaVal.boolean true)
        (enabled_sdi [some set_sys_data_response]) (some 1)).2.conn.out_log
        = [set_sys_data_frame (((List.replicate SYS_DATA_SIZE 0).set 0 1).set 10 1)]
    ∧ lock_panel_frame true ∉
        (config_set acquire_decls_example ConfKey.SR_CONF_ENABLED (MetaVal.boolean true)
          (enabled_sdi [some set_sys_data_response]) (some 1)).2.conn.out_log
    ∧ get_sys_data_frame ∉
        (config_set acquire_decls_example ConfKey.SR_CONF_ENABLED (MetaVal.boolean true)
          (enabled_sdi [some set_sys_data_response]) (some 1)).2.conn.out_log := by
  have e := config_set_capture_ok acquire_decls_example ConfKey.SR_CONF_ENABLED
    (MetaVal.boolean true) (enabled_sdi [some set_sys_data_response]) (some 1) (by decide) rfl
    (((List.replicate SYS_DATA_SIZE 0).set 0 1).set 10 1) enabled_sdi_mutate
  have hlog : (config_set acquire_decls_example ConfKey.SR_CONF_ENABLED (MetaVal.boolean true)
      (enabled_sdi [some set_sys_data_response]) (some 1)).2.conn.out_log
      = [set_sys_data_frame (((List.replicate SYS_DATA_SIZE 0).set 0 1).set 10 1)] := by
    rw [e, set_sys_data_out_log]
    rfl
  refine ⟨rfl, ?_, hlog, ?_, ?_⟩
  · rw [e, set_sys_data_ok_iff]
    exact ⟨rfl, set_sys_data_response, rfl, by decide, by decide, by decide⟩
  · rw [hlog]
    intro h
    have hl := congrArg List.length (List.mem_singleton.mp h)
    simp [lock_panel_frame, set_sys_data_frame, slice] at hl
  · rw [hlog]
    intro h
    have hl := congrArg List.length (List.mem_singleton.mp h)
    simp [get_sys_data_frame, set_sys_data_frame, slice] at hl

/-- C20, amended: for every configuration key other than the sample, frame and
time limits, `config_set` in state `IDLE` or `STOPPING` performs a fresh
register fetch (the lock frame first; lock, read, unlock when the lock
succeeds) into the shadow before it clones the shadow into the pending
snapshot and mutates it, and in state `CAPTURE` it clones the shadow as it
stands, without a fetch. In both cases, when the key and the value are
accepted the mutated pending snapshot is committed with one write frame, which
is the last frame sent, and when they are rejected the error code is returned
and nothing is committed. -/
theorem config_set_fetch_policy (decls : acquire_decls) (key : ConfKey) (data : MetaVal) (sdi : sr_dev_inst)
    (cg : Option Nat) (hl : is_limit_key key = false) :
    (sdi.priv.dev_state = states.IDLE ∨ sdi.priv.dev_state = states.STOPPING →
      ∃ rest,
        ((hantek_5xxxb_lock_panel sdi true).1 = SR_OK →
          rest = [get_sys_data_frame, lock_panel_frame false])
        ∧ (∀ out, config_set_mutate decls
              (hantek_5xxxb_get_sys_data sdi sdi.priv.in_sys_data).2.2
              (slice (hantek_5xxxb_get_sys_data sdi sdi.priv.in_sys_data).2.2 0 SYS_DATA_SIZE)
              key data cg = Except.ok out →
            (config_set decls key data sdi cg).2.conn.out_log
                = sdi.conn.out_log ++ lock_panel_frame true :: rest ++ [set_sys_data_frame out]
            ∧ (config_set decls key data sdi cg).2.priv.in_sys_data
                = (hantek_5xxxb_get_sys_data sdi sdi.priv.in_sys_data).2.2
            ∧ (config_set decls key data sdi cg).2.priv.out_sys_data = out)
        ∧ (∀ ret, config_set_mutate decls
              (hantek_5xxxb_get_sys_data sdi sdi.priv.in_sys_data).2.2
              (slice (hantek_5xxxb_get_sys_data sdi sdi.priv.in_sys_data).2.2 0 SYS_DATA_SIZE)
              key data cg = Except.error ret →
            (config_set decls key data sdi cg).1 = ret
            ∧ (config_set decls key data sdi cg).2.conn.out_log
                = sdi.conn.out_log ++ lock_panel_frame true :: rest))
    ∧ (sdi.priv.dev_state = states.CAPTURE →
        (∀ out, config_set_mutate decls sdi.priv.in_sys_data
              (slice sdi.priv.in_sys_data 0 SYS_DATA_SIZE) key data cg = Except.ok out →
            (config_set decls key data sdi cg).2.conn.out_log
                = sdi.conn.out_log ++ [set_sys_data_frame out]
            ∧ (config_set decls key data sdi cg).2.priv.in_sys_data = sdi.priv.in_sys_data
            ∧ (config_set decls key data sdi cg).2.priv.out_sys_data = out)
        ∧ (∀ ret, config_set_mutate decls sdi.priv.in_sys_data
              (slice sdi.priv.in_sys_data 0 SYS_DATA_SIZE) key data cg = Except.error ret →
            (config_set decls key data sdi cg).1 = ret
            ∧ (config_set decls key data sdi cg).2.conn.out_log = sdi.conn.out_log)) := by
  refine ⟨fun hs => ?_, fun hs => ⟨fun out ho => ?_, fun ret hr => ?_⟩⟩
  · have hs1 : sdi.priv.dev_state ≠ states.CAPTURE := by
      rcases hs with h | h <;> rw [h] <;> decide
    obtain ⟨rest, hrest⟩ := get_sys_data_out_log_prefix sdi sdi.priv.in_sys_data
    refine ⟨rest, ?_, fun out ho => ?_, fun ret hr => ?_⟩
    · intro hlock
      have h3 := get_sys_data_out_log sdi sdi.priv.in_sys_data hlock
      rw [hrest] at h3
      simpa using h3
    · rw [config_set_not_capture_ok decls key data sdi cg hl hs1 out
        (by rw [shadow_of_get_sys_data_into_shadow]; exact ho),
        set_sys_data_out_log, set_sys_data_priv]
      dsimp only
      rw [out_log_of_get_sys_data_into_shadow, shadow_of_get_sys_data_into_shadow, hrest]
      simp
    · rw [config_set_not_capture_error decls key data sdi cg hl hs1 ret
        (by rw [shadow_of_get_sys_data_into_shadow]; exact hr)]
      refine ⟨rfl, ?_⟩
      show (get_sys_data_into_shadow sdi).conn.out_log = _
      rw [out_log_of_get_sys_data_into_shadow, hrest]
  · rw [config_set_capture_ok decls key data sdi cg hl hs out ho,
      set_sys_data_out_log, set_sys_data_priv]
    simp
  · rw [config_set_capture_error decls key data sdi cg hl hs ret hr]
    exact ⟨rfl, rfl⟩

/-- Witness of C20: the enabled flag of channel 2 is set. In state `IDLE`, on
a link that answers the fetch with `snapshot_vb_trig`, the frames are lock,
read, unlock and the write of the fetched snapshot with byte 10 set; in state
`CAPTURE` the only frame is the write of the shadow with byte 10 set. -/
theorem config_set_fetch_policy_witness :
    (config_set acquire_decls_example ConfKey.SR_CONF_ENABLED (MetaVal.boolean true)
        idle_sdi (some 1)).2.conn.out_log
      = idle_sdi.conn.out_log
        ++ lock_panel_frame true :: [get_sys_data_frame, lock_panel_frame false]
        ++ [set_sys_data_frame (snapshot_vb_trig.set 10 1)]
    ∧ (config_set acquire_decls_example ConfKey.SR_CONF_ENABLED (MetaVal.boolean true)
        (enabled_sdi [some set_sys_data_response]) (some 1)).2.conn.out_log
      = (enabled_sdi [some set_sys_data_response]).conn.out_log
        ++ [set_sys_data_frame (((List.replicate SYS_DATA_SIZE 0).set 0 1).set 10 1)] := by
  obtain ⟨rest, h1, h2, _⟩ :=
    (config_set_fetch_policy acquire_decls_example ConfKey.SR_CONF_ENABLED
      (MetaVal.boolean true) idle_sdi (some 1) (by decide)).1 (Or.inl rfl)
  have hr := h1 idle_sdi_lock
  subst hr
  exact ⟨(h2 (snapshot_vb_trig.set 10 1) idle_sdi_mutate).1,
    (((config_set_fetch_policy acquire_decls_example ConfKey.SR_CONF_ENABLED
      (MetaVal.boolean true) (enabled_sdi [some set_sys_data_response]) (some 1)
      (by decide)).2 rfl).1 (((List.replicate SYS_DATA_SIZE 0).set 0 1).set 10 1)
      enabled_sdi_mutate).1⟩

/-! ## Error paths of the configuration and of the sample retrieval -/

theorem bad_fetch_sdi_fetch_fails :
    (hantek_5xxxb_get_sys_data bad_fetch_sdi bad_fetch_sdi.priv.in_sys_data).1 = SR_ERR
    ∧ (hantek_5xxxb_get_sys_data bad_fetch_sdi bad_fetch_sdi.priv.in_sys_data).2.2
        = bad_fetch_sdi.priv.in_sys_data
    ∧ (hantek_5xxxb_get_sys_data bad_fetch_sdi bad_fetch_sdi.priv.in_sys_data).2.1.conn.out_log
        = [lock_panel_frame true, get_sys_data_frame, lock_panel_frame false] := by
  set_option maxRecDepth 100000 in decide

/-- C21, evaluated: in state `IDLE` the read response of the fetch fails
validation, so `hantek_5xxxb_get_sys_data` returns `SR_ERR` and leaves the
shadow as it was. `config_get` of the volts/div of channel 1 still returns
`SR_OK` with the value 2 / 1000 of the stale shadow, and `config_set` of the
enabled flag of channel 2 still sends the write frame, built from the stale
shadow, as the fourth frame, and returns `SR_OK`. -/
theorem config_ignores_failed_fetch :
    bad_fetch_sdi.priv.dev_state = states.IDLE
    ∧ (hantek_5xxxb_get_sys_data bad_fetch_sdi bad_fetch_sdi.priv.in_sys_data).1 = SR_ERR
    ∧ (config_get ConfKey.SR_CONF_VDIV bad_fetch_sdi (some 0)).1 = SR_OK
    ∧ (config_get ConfKey.SR_CONF_VDIV bad_fetch_sdi (some 0)).2.2
        = some (MetaVal.tuple 2 1000)
    ∧ (config_set acquire_decls_example ConfKey.SR_CONF_ENABLED (MetaVal.boolean true)
        bad_fetch_sdi (some 1)).1 = SR_OK
    ∧ (config_set acquire_decls_example ConfKey.SR_CONF_ENABLED (MetaVal.boolean true)
        bad_fetch_sdi (some 1)).2.conn.out_log
        = [lock_panel_frame true, get_sys_data_frame, lock_panel_frame false,
           set_sys_data_frame ((List.replicate SYS_DATA_SIZE 0).set 10 1)] := by
  obtain ⟨h1, h2, h3⟩ := bad_fetch_sdi_fetch_fails
  have hs : bad_fetch_sdi.priv.dev_state ≠ states.CAPTURE := by decide
  have hshadow : (get_sys_data_into_shadow bad_fetch_sdi).priv.in_sys_data
      = List.replicate SYS_DATA_SIZE 0 := by
    rw [shadow_of_get_sys_data_into_shadow, h2]
    rfl
  have hslice : slice (List.replicate SYS_DATA_SIZE 0) 0 SYS_DATA_SIZE
      = List.replicate SYS_DATA_SIZE 0 := by
    set_option maxRecDepth 100000 in decide
  have hget := config_get_not_capture ConfKey.SR_CONF_VDIV bad_fetch_sdi (some 0)
    (by decide) (by decide) hs
  have hset := config_set_not_capture_ok acquire_decls_example ConfKey.SR_CONF_ENABLED
    (MetaVal.boolean true) bad_fetch_sdi (some 1) (by decide) hs
    ((List.replicate SYS_DATA_SIZE 0).set 10 1) (by rw [hshadow, hslice]; rfl)
  refine ⟨rfl, h1, ?_, ?_, ?_, ?_⟩
  · rw [hget, hshadow]
    rfl
  · rw [hget, hshadow]
    set_option maxRecDepth 100000 in decide
  · rw [hset, set_sys_data_ok_iff]
    refine ⟨?_, set_sys_data_response, ?_, by decide, by decide, by decide⟩
    · show (get_sys_data_into_shadow bad_fetch_sdi).conn.out_results.head? = some true
      set_option maxRecDepth 100000 in decide
    · show (get_sys_data_into_shadow bad_fetch_sdi).conn.in_results.head? = _
      set_option maxRecDepth 100000 in decide
  · rw [hset, set_sys_data_out_log]
    show (get_sys_data_into_shadow bad_fetch_sdi).conn.out_log ++ _ = _
    rw [out_log_of_get_sys_data_into_shadow, h3]
    rfl

theorem snapshot_400us_1m_fields :
    horiz_win_tb snapshot_400us_1m = 0x10 ∧ vert_ch_disp snapshot_400us_1m 0 = 1
    ∧ vert_ch_disp snapshot_400us_1m 1 = 0 ∧ acqurie_store_depth snapshot_400us_1m = 0x07 := by
  set_option maxRecDepth 100000 in decide

/-- C22, evaluated: the shadow has channel 1 on, channel 2 off, window timebase
0x10 (400 us) and store depth 0x07 (1M, depth index 3), a valid combination
since `sample_rate[0x10][0][3]` is 100000000. `hantek_5xxxb_set_timebase` with
the new index 0x0F tests `sample_rate` at the timebase 0x10 of the shadow, so
it keeps the store depth 0x07: the pending snapshot has window timebase 0x0F
and store depth 0x07, and `sample_rate[0x0F][0][3]` is 0. -/
theorem set_timebase_keeps_invalid_depth :
    sample_rate_at (horiz_win_tb snapshot_400us_1m)
        (vert_ch_disp snapshot_400us_1m 0 &&& vert_ch_disp snapshot_400us_1m 1)
        (hantek_5xxxb_get_sample_rate_array_index_from_sys_data
          (acqurie_store_depth snapshot_400us_1m)) = 100000000
    ∧ horiz_win_tb (hantek_5xxxb_set_timebase snapshot_400us_1m
        (slice snapshot_400us_1m 0 SYS_DATA_SIZE) 0x0F) = 0x0F
    ∧ acqurie_store_depth (hantek_5xxxb_set_timebase snapshot_400us_1m
        (slice snapshot_400us_1m 0 SYS_DATA_SIZE) 0x0F) = 0x07
    ∧ vert_ch_disp (hantek_5xxxb_set_timebase snapshot_400us_1m
        (slice snapshot_400us_1m 0 SYS_DATA_SIZE) 0x0F) 0 = 1
    ∧ vert_ch_disp (hantek_5xxxb_set_timebase snapshot_400us_1m
        (slice snapshot_400us_1m 0 SYS_DATA_SIZE) 0x0F) 1 = 0
    ∧ sample_rate_at 0x0F (1 &&& 0)
        (hantek_5xxxb_get_sample_rate_array_index_from_sys_data 0x07) = 0 := by
  set_option maxRecDepth 100000 in decide

/-- C23, evaluated: none of the four entries of `buffersizes` is a memory depth
of `memory_depth_mapper`, so `hantek_5xxxb_get_store_depth_from_memory_depth`
returns 0 for each of them; `config_set` of the buffer size writes the store
depth code 0x00 into the pending snapshot, and the memory depth reported for
that code is 4096, which is none of the sizes. -/
theorem buffersize_not_in_mapper :
    buffersizes = [4000, 40000, 512000, 1000000]
    ∧ buffersizes.map hantek_5xxxb_get_store_depth_from_memory_depth = [0, 0, 0, 0]
    ∧ buffersizes.map (fun size => hantek_5xxxb_get_memory_depth_from_sys_data
        (hantek_5xxxb_get_store_depth_from_memory_depth size)) = [4096, 4096, 4096, 4096]
    ∧ config_set_mutate acquire_decls_example snapshot_400us_1m
        (slice snapshot_400us_1m 0 SYS_DATA_SIZE) ConfKey.SR_CONF_BUFFERSIZE
        (MetaVal.uint64 (1 * 1000 * 1000)) none
        = Except.ok ((slice snapshot_400us_1m 0 SYS_DATA_SIZE).set 195 0)
    ∧ hantek_5xxxb_get_memory_depth_from_sys_data
        (acqurie_store_depth ((slice snapshot_400us_1m 0 SYS_DATA_SIZE).set 195 0)) = 4096 := by
  refine ⟨by decide, by decide, by decide, rfl, ?_⟩
  set_option maxRecDepth 100000 in decide

/-- C24, evaluated: channel 1 is enabled, the status response reports data
ready, and the link delivers nothing more. `hantek_5xxxb_get_sample_data`
sends the frame begin packet, the receipt of the first chunk fails, and the
function returns `SR_ERR` from inside the loop: the session holds the frame
begin packet and no frame end packet. -/
theorem get_sample_data_frame_left_open :
    (hantek_5xxxb_get_sample_data (enabled_sdi [some sample_status_response]) 0).1 = SR_ERR
    ∧ (hantek_5xxxb_get_sample_data (enabled_sdi [some sample_status_response]) 0).2.session
        = [Packet.SR_DF_FRAME_BEGIN]
    ∧ Packet.SR_DF_FRAME_END ∉
        (hantek_5xxxb_get_sample_data (enabled_sdi [some sample_status_response]) 0).2.session := by
  set_option maxRecDepth 100000 in decide

/-- C25, evaluated: the 6-byte chunk `53 03 00 82 01 D9` passes the validation
of `receive_bulk` (size 3 + 3, checksum 0xD9, command echo 0x82) and has the
tag 0x01. Its sample count is 6 - 7 = -1: the analog packet is sent with
`num_samples` -1, and the `uint32_t` counter `samples_read` wraps to
2 ^ 32 - 1, which is added to the samples read of the limits. -/
theorem get_sample_data_short_chunk :
    receive_bulk_check short_chunk short_chunk.length HANTEK_5XXXB_CMD_RD_SAMPLEDATA = SR_OK
    ∧ short_chunk.getD 4 0 = 0x01
    ∧ (short_chunk.length : Int) - 7 = -1
    ∧ (hantek_5xxxb_get_sample_data
        (enabled_sdi [some sample_status_response, some short_chunk, some final_chunk]) 0).1
        = SR_OK
    ∧ (hantek_5xxxb_get_sample_data
        (enabled_sdi [some sample_status_response, some short_chunk, some final_chunk]) 0).2.session
        = [Packet.SR_DF_FRAME_BEGIN, Packet.SR_DF_ANALOG 0 (-1) [], Packet.SR_DF_FRAME_END]
    ∧ (hantek_5xxxb_get_sample_data
        (enabled_sdi [some sample_status_response, some short_chunk, some final_chunk])
          0).2.priv.limits.samples_read = 2 ^ 32 - 1 := by
  set_option maxRecDepth 100000 in decide

/-- C26, evaluated: in state `CAPTURE` the shadow has the trigger source 0x02
(`Ext`) and the fetched snapshot differs from it in the trigger level offset
only. The run of the callback computes the trigger level with the channel
index `ch_idx = trig_src = 2`, which is neither 0 nor 1, and sends the
trigger level packet. -/
theorem receive_data_trigger_level_index :
    trig_ext_sdi.priv.dev_state = states.CAPTURE
    ∧ trig_src snapshot_trig_ext_vpos = 2
    ∧ trig_src snapshot_trig_ext_vpos = trig_src snapshot_trig_ext
    ∧ trig_edge_slope snapshot_trig_ext_vpos = trig_edge_slope snapshot_trig_ext
    ∧ trig_vpos snapshot_trig_ext_vpos ≠ trig_vpos snapshot_trig_ext
    ∧ trigger_meta snapshot_trig_ext_vpos snapshot_trig_ext
        = [(ConfKey.SR_CONF_TRIGGER_LEVEL, MetaVal.trigger_level 1 2)]
    ∧ (hantek_5xxxb_receive_data trig_ext_sdi false).2.session
        = [Packet.SR_DF_META ConfKey.SR_CONF_TRIGGER_LEVEL (MetaVal.trigger_level 1 2)]
    ∧ (config_get ConfKey.SR_CONF_TRIGGER_LEVEL
        { trig_ext_sdi with priv := { trig_ext_sdi.priv with
            in_sys_data := snapshot_trig_ext_vpos } } none).1 = SR_ERR_NA := by
  set_option maxRecDepth 100000 in decide

/-! ## Sample counts with and without the menu -/

theorem getD_set_of_ne (l : List Nat) (i j v : Nat) (h : j ≠ i) :
    (l.set i v).getD j 0 = l.getD j 0 := by
  simp [List.getD_eq_getElem?_getD, List.getElem?_set_ne (Ne.symm h)]

theorem getD_set_self (l : List Nat) (i v : Nat) (h : i < l.length) :
    (l.set i v).getD i 0 = v := by
  simp [List.getD_eq_getElem?_getD, List.getElem?_set_self, h]

theorem sample_count_menu_ratio (t ch d : Nat) (ht : t ≤ 0x1F) (hc : ch ≤ 1) (hd : d ≤ 3) :
    sample_count_at t ch 0 d * 5 = sample_count_at t ch 1 d * 6 := by
  have h : ∀ t < 32, ∀ ch < 2, ∀ d < 4,
      sample_count_at t ch 0 d * 5 = sample_count_at t ch 1 d * 6 := by
    set_option maxRecDepth 100000 in decide
  exact h t (by omega) ch (by omega) d (by omega)

theorem menu_rate_eq (s0 s1 num den : Nat) (h : s0 * 5 = s1 * 6) :
    s0 * den * 10 / (num * 192) = s1 * den * 1 / (num * 16) := by
  have e1 : s0 * den * 10 = s1 * den * 1 * 12 := by
    have : s0 * den * 10 = s0 * 5 * (den * 2) := by ring
    rw [this, h]
    ring
  have e2 : num * 192 = num * 16 * 12 := by ring
  rw [e1, e2, Nat.mul_div_mul_right _ _ (by decide : 0 < 12)]

/-- C27: for every timebase code t in 0x00..0x1F, channel mode ch in 0..1 and
depth index d in 0..3,
`sample_count[t][ch][menu off][d]` x 5 = `sample_count[t][ch][menu on][d]` x 6;
so, in exact arithmetic, the count without the menu over 19.2 divisions is the
count with the menu over 16 divisions for every timebase, and
`hantek_5xxxb_get_samplerate`, which computes in floating point, returns the
same sample rate for two snapshots that differ only in the menu flag (0 or
1), when both channel flags are 0 or 1 and the timebase code is in
0x00..0x1F. -/
theorem samplerate_menu_independent (sys_data : List Nat) (t ch d : Nat)
    (ht : t ≤ 0x1F) (hc : ch ≤ 1) (hd : d ≤ 3)
    (hlen : sys_data.length = SYS_DATA_SIZE) (hwt : horiz_win_tb sys_data ≤ 0x1F)
    (hd0 : vert_ch_disp sys_data 0 ≤ 1) (hd1 : vert_ch_disp sys_data 1 ≤ 1) :
    sample_count_at t ch 0 d * 5 = sample_count_at t ch 1 d * 6
    ∧ (∀ tb : ℚ, (sample_count_at t ch 0 d : ℚ) / (tb * 19.2)
        = (sample_count_at t ch 1 d : ℚ) / (tb * 16))
    ∧ hantek_5xxxb_get_samplerate (sys_data.set 214 0)
        = hantek_5xxxb_get_samplerate (sys_data.set 214 1) := by
  have hr := sample_count_menu_ratio t ch d ht hc hd
  refine ⟨hr, ?_, ?_⟩
  · intro tb
    have hq : (sample_count_at t ch 0 d : ℚ) * 5 = (sample_count_at t ch 1 d : ℚ) * 6 := by
      exact_mod_cast hr
    have h0 : (sample_count_at t ch 0 d : ℚ) = (sample_count_at t ch 1 d : ℚ) * 6 / 5 := by
      linarith
    rw [h0]
    by_cases htb : tb = 0
    · simp [htb]
    · field_simp
      ring
  · have f168 : ∀ m, horiz_win_tb (sys_data.set 214 m) = horiz_win_tb sys_data := fun m =>
      getD_set_of_ne _ _ _ _ (by decide)
    have f0 : ∀ m, vert_ch_disp (sys_data.set 214 m) 0 = vert_ch_disp sys_data 0 := fun m =>
      getD_set_of_ne _ _ _ _ (by decide)
    have f10 : ∀ m, vert_ch_disp (sys_data.set 214 m) 1 = vert_ch_disp sys_data 1 := fun m =>
      getD_set_of_ne _ _ _ _ (by decide)
    have f195 : ∀ m, acqurie_store_depth (sys_data.set 214 m) = acqurie_store_depth sys_data :=
      fun m => getD_set_of_ne _ _ _ _ (by decide)
    have fm : ∀ m, control_disp_menu (sys_data.set 214 m) = m := fun m =>
      getD_set_self _ _ _ (by rw [hlen]; decide)
    have hand := disp_and_le_one _ _ hd0 hd1
    have hidx := (sample_rate_array_index_spec (acqurie_store_depth sys_data)).2.2
    unfold hantek_5xxxb_get_samplerate
    simp only [f168, f0, f10, f195, fm]
    rw [samplerate_expr_menu (horiz_win_tb sys_data) (by omega)
      (vert_ch_disp sys_data 0 &&& vert_ch_disp sys_data 1) (by omega)
      (hantek_5xxxb_get_sample_rate_array_index_from_sys_data (acqurie_store_depth sys_data))
      (by omega)]

/-- Witness of C27: the snapshot `snapshot_40s` (timebase 40 s, channel 1 on),
and the table entries of timebase 0x1F, one channel, depth index 0: 3840
without the menu and 3200 with it. -/
theorem samplerate_menu_independent_witness :
    sample_count_at 0x1F 0 0 0 * 5 = sample_count_at 0x1F 0 1 0 * 6
    ∧ hantek_5xxxb_get_samplerate (snapshot_40s.set 214 0)
        = hantek_5xxxb_get_samplerate (snapshot_40s.set 214 1) :=
  ⟨(samplerate_menu_independent snapshot_40s 0x1F 0 0 (by decide) (by decide) (by decide)
      (by set_option maxRecDepth 100000 in decide)
      (by set_option maxRecDepth 100000 in decide)
      (by set_option maxRecDepth 100000 in decide)
      (by set_option maxRecDepth 100000 in decide)).1,
   (samplerate_menu_independent snapshot_40s 0x1F 0 0 (by decide) (by decide) (by decide)
      (by set_option maxRecDepth 100000 in decide)
      (by set_option maxRecDepth 100000 in decide)
      (by set_option maxRecDepth 100000 in decide)
      (by set_option maxRecDepth 100000 in decide)).2.2⟩

/-! ## The fetch and its destination -/

theorem receive_bulk_in_buf (sdi : sr_dev_inst) (in_buf rx : List Nat) (max_size c : Nat)
    (h : sdi.conn.in_results.head? = some (some rx)) (hm : rx.length ≤ max_size) :
    (receive_bulk sdi in_buf max_size c).in_buf = recvInto in_buf rx := by
  simp [receive_bulk, h, hm]

theorem slice_recvInto (in_buf rx : List Nat) (off len : Nat) (h : off + len ≤ rx.length) :
    slice (recvInto in_buf rx) off len = slice rx off len := by
  unfold slice
  apply List.map_congr_left
  intro i hi
  have hi' : i < len := List.mem_range.mp hi
  exact recvInto_getD in_buf rx (off + i) (by omega)

/-- C30: the volts/div table contains the probe factor: for every probe code p
in 0..3 and range code r in 0..10, `ch_vdiv[p][r]` as a rational number is
`probe_factor[p]` x `ch_vdiv[0][r]`; so `hantek_5xxxb_get_volts_per_div` of a
channel with probe code p, range code r and the fine-step flag clear is
`probe_factor[p]` x `ch_vdiv[0][r]`. -/
theorem ch_vdiv_contains_probe_factor (p r : Nat) (hp : p ≤ 3) (hr : r ≤ 10) :
    ((ch_vdiv_at p r).1 : ℚ) / ((ch_vdiv_at p r).2 : ℚ)
      = (probe_factor.getD p 0 : ℚ) * (((ch_vdiv_at 0 r).1 : ℚ) / ((ch_vdiv_at 0 r).2 : ℚ))
    ∧ (∀ (in_sys_data : List Nat) (channel_idx : Nat),
        vert_ch_probe in_sys_data channel_idx = p → vert_ch_vb in_sys_data channel_idx = r →
        vert_ch_fine in_sys_data channel_idx = 0 →
        hantek_5xxxb_get_volts_per_div in_sys_data channel_idx
          = (probe_factor.getD p 0 : ℚ)
            * (((ch_vdiv_at 0 r).1 : ℚ) / ((ch_vdiv_at 0 r).2 : ℚ))) := by
  have h : ((ch_vdiv_at p r).1 : ℚ) / ((ch_vdiv_at p r).2 : ℚ)
      = (probe_factor.getD p 0 : ℚ)
        * (((ch_vdiv_at 0 r).1 : ℚ) / ((ch_vdiv_at 0 r).2 : ℚ)) := by
    interval_cases p <;> interval_cases r <;>
      norm_num [ch_vdiv_at, ch_vdiv, probe_factor]
  refine ⟨h, ?_⟩
  intro in_sys_data channel_idx hpr hvb hf
  rw [← h]
  unfold hantek_5xxxb_get_volts_per_div
  simp only [hpr, hvb, hf, ne_eq, not_true_eq_false, if_false]

/-- Witness of C30: probe code 2 (x100) and range code 4: 5 V is 100 x 50 mV. -/
theorem ch_vdiv_contains_probe_factor_witness :
    ((ch_vdiv_at 2 4).1 : ℚ) / ((ch_vdiv_at 2 4).2 : ℚ)
      = (probe_factor.getD 2 0 : ℚ) * (((ch_vdiv_at 0 4).1 : ℚ) / ((ch_vdiv_at 0 4).2 : ℚ)) :=
  (ch_vdiv_contains_probe_factor 2 4 (by decide) (by decide)).1

/-! ## What `config_set` changes in the snapshot -/

theorem slice_getD (buf : List Nat) (off len i : Nat) (h : i < len) :
    (slice buf off len).getD i 0 = buf.getD (off + i) 0 := by
  unfold slice
  rw [List.getD_eq_getElem?_getD, List.getElem?_map, List.getElem?_range h]
  rfl

theorem set_le_field_getD (n : Nat) : ∀ (sd : List Nat) (off v i : Nat),
    (i < off ∨ off + n ≤ i) → (set_le_field sd off n v).getD i 0 = sd.getD i 0 := by
  induction n with
  | zero => intro sd off v i _; rfl
  | succ n ih =>
    intro sd off v i h
    unfold set_le_field
    rw [ih _ _ _ _ (by omega), getD_set_of_ne _ _ _ _ (by omega)]

theorem set_le_field_length (n : Nat) : ∀ (sd : List Nat) (off v : Nat),
    (set_le_field sd off n v).length = sd.length := by
  induction n with
  | zero => intro sd off v; rfl
  | succ n ih =>
    intro sd off v
    unfold set_le_field
    rw [ih, List.length_set]

theorem hantek_5xxxb_set_timebase_length (in_sys_data out_sys_data : List Nat) (idx : Int) :
    (hantek_5xxxb_set_timebase in_sys_data out_sys_data idx).length = out_sys_data.length := by
  unfold hantek_5xxxb_set_timebase
  dsimp only
  split_ifs <;> simp

theorem config_set_device_bytes (decls : acquire_decls) (in_sys_data out_sys_data res : List Nat)
    (key : ConfKey) (data : MetaVal) (hk : key ≠ ConfKey.SR_CONF_TIMEBASE)
    (h : config_set_device decls in_sys_data out_sys_data key data = Except.ok res) (i : Nat)
    (hi : i ∉ target_field key none) :
    res.getD i 0 = out_sys_data.getD i 0 := by
  cases key <;> simp only [config_set_device] at h <;> (try split_ifs at h) <;> cases h <;>
    first
    | exact absurd rfl hk
    | exact getD_set_of_ne _ _ _ _ (by
        simp only [target_field, List.mem_cons, List.mem_singleton, List.not_mem_nil, or_false,
          not_or] at hi
        omega)
    | exact set_le_field_getD _ _ _ _ _ (by
        simp only [target_field, List.mem_cons, List.mem_singleton, List.not_mem_nil, or_false,
          not_or] at hi
        omega)

theorem config_set_channel_bytes (in_sys_data out_sys_data res : List Nat)
    (key : ConfKey) (data : MetaVal) (ch_idx : Nat)
    (h : config_set_channel in_sys_data out_sys_data key data ch_idx = Except.ok res) (i : Nat)
    (hi : i ∉ target_field key (some ch_idx)) :
    res.getD i 0 = out_sys_data.getD i 0 := by
  cases key <;> simp only [config_set_channel] at h <;> (try split_ifs at h) <;> cases h <;>
    exact getD_set_of_ne _ _ _ _ (by
        simp only [target_field, List.mem_cons, List.mem_singleton, List.not_mem_nil, or_false,
          not_or] at hi
        omega)

theorem config_set_mutate_bytes (decls : acquire_decls) (in_sys_data out_sys_data res : List Nat)
    (key : ConfKey) (data : MetaVal) (cg : Option Nat) (hk : key ≠ ConfKey.SR_CONF_TIMEBASE)
    (h : config_set_mutate decls in_sys_data out_sys_data key data cg = Except.ok res) (i : Nat)
    (hi : i ∉ target_field key cg) :
    res.getD i 0 = out_sys_data.getD i 0 := by
  rcases cg with _ | _ | _ | n
  · exact config_set_device_bytes decls _ _ _ key data hk h i hi
  · exact config_set_channel_bytes _ _ _ key data 0 h i hi
  · exact config_set_channel_bytes _ _ _ key data 1 h i hi
  · simp [config_set_mutate] at h

theorem config_set_mutate_length (decls : acquire_decls) (in_sys_data out_sys_data res : List Nat)
    (key : ConfKey) (data : MetaVal) (cg : Option Nat)
    (h : config_set_mutate decls in_sys_data out_sys_data key data cg = Except.ok res) :
    res.length = out_sys_data.length := by
  rcases cg with _ | _ | _ | n
  · simp only [config_set_mutate] at h
    cases key <;> simp only [config_set_device] at h <;> (try split_ifs at h) <;> cases h <;>
      first
      | exact List.length_set _ _ _
      | exact set_le_field_length _ _ _ _
      | exact hantek_5xxxb_set_timebase_length _ _ _
  · simp only [config_set_mutate] at h
    cases key <;> simp only [config_set_channel] at h <;> (try split_ifs at h) <;> cases h <;>
      exact List.length_set _ _ _
  · simp only [config_set_mutate] at h
    cases key <;> simp only [config_set_channel] at h <;> (try split_ifs at h) <;> cases h <;>
      exact List.length_set _ _ _
  · simp [config_set_mutate] at h

theorem config_set_accepted (decls : acquire_decls) (key : ConfKey) (data : MetaVal)
    (sdi : sr_dev_inst) (cg : Option Nat) (out : List Nat) (hl : is_limit_key key = false)
    (hacc : config_set_mutate decls (shadow_after_fetch sdi)
      (slice (shadow_after_fetch sdi) 0 SYS_DATA_SIZE) key data cg = Except.ok out) :
    (config_set decls key data sdi cg).2.conn.out_log.getLast? = some (set_sys_data_frame out)
    ∧ (config_set decls key data sdi cg).2.priv.in_sys_data = shadow_after_fetch sdi
    ∧ (config_set decls key data sdi cg).2.priv.out_sys_data = out := by
  by_cases hs : sdi.priv.dev_state = states.CAPTURE
  · have e : shadow_after_fetch sdi = sdi.priv.in_sys_data := by
      simp [shadow_after_fetch, hs]
    rw [e] at hacc
    rw [config_set_capture_ok decls key data sdi cg hl hs out hacc, set_sys_data_out_log,
      set_sys_data_priv, e]
    simp
  · have e : shadow_after_fetch sdi = (get_sys_data_into_shadow sdi).priv.in_sys_data := by
      simp [shadow_after_fetch, hs]
    rw [e] at hacc
    rw [config_set_not_capture_ok decls key data sdi cg hl hs out hacc, set_sys_data_out_log,
      set_sys_data_priv, e]
    simp

/-- C28: for every configuration key other than the limits and the timebase
and every value that `config_set` accepts, the last frame handed to the link
is the write frame of the snapshot `out` that the mutation produces; the 240
bytes at offset 4 of that frame are `out`; and `out` equals the shadow
snapshot, as it stands after the optional fetch, in every byte outside the
field that the key targets (`target_field`): for the coupling of channel i
only the byte `vert_ch[i].coup` can differ. -/
theorem config_set_changes_target_only (decls : acquire_decls) (key : ConfKey)
    (data : MetaVal) (sdi : sr_dev_inst) (cg : Option Nat) (out : List Nat)
    (hl : is_limit_key key = false) (hk : key ≠ ConfKey.SR_CONF_TIMEBASE)
    (hacc : config_set_mutate decls (shadow_after_fetch sdi)
      (slice (shadow_after_fetch sdi) 0 SYS_DATA_SIZE) key data cg = Except.ok out) :
    (config_set decls key data sdi cg).2.conn.out_log.getLast? = some (set_sys_data_frame out)
    ∧ slice (set_sys_data_frame out) 4 SYS_DATA_SIZE = out
    ∧ (config_set decls key data sdi cg).2.priv.in_sys_data = shadow_after_fetch sdi
    ∧ (∀ i, i < SYS_DATA_SIZE → i ∉ target_field key cg →
        out.getD i 0 = (shadow_after_fetch sdi).getD i 0)
    ∧ target_field ConfKey.SR_CONF_COUPLING (some 0) = [2]
    ∧ target_field ConfKey.SR_CONF_COUPLING (some 1) = [12] := by
  obtain ⟨h1, h2, _⟩ := config_set_accepted decls key data sdi cg out hl hacc
  have hlen : out.length = SYS_DATA_SIZE := by
    rw [config_set_mutate_length decls _ _ _ key data cg hacc, slice_length]
  refine ⟨h1, ?_, h2, ?_, rfl, rfl⟩
  · rw [slice_eq_take_drop _ 4 SYS_DATA_SIZE (by simp [set_sys_data_frame, slice]; omega)]
    have h : (slice out 0 SYS_DATA_SIZE).length = SYS_DATA_SIZE := slice_length _ _ _
    have hall : slice out 0 SYS_DATA_SIZE = out := by
      have := slice_all out
      rw [hlen] at this
      exact this
    simp [set_sys_data_frame, h, hall]
    exact List.take_left' hlen
  · intro i hi hni
    rw [config_set_mutate_bytes decls _ _ _ key data cg hk hacc i hni, slice_getD _ _ _ _ hi,
      Nat.zero_add]

theorem shadow_after_fetch_enabled_sdi (in_results : List (Option (List Nat))) :
    shadow_after_fetch (enabled_sdi in_results) = (List.replicate SYS_DATA_SIZE 0).set 0 1 := rfl

/-- Witness of C28: in state `CAPTURE`, with channel 1 enabled in the shadow,
the coupling of channel 2 is set to "DC" (code 1): the committed snapshot is
the shadow with byte 12 set to 1. -/
theorem config_set_changes_target_only_witness :
    (config_set acquire_decls_example ConfKey.SR_CONF_COUPLING (MetaVal.string "DC")
        (enabled_sdi [some set_sys_data_response]) (some 1)).2.conn.out_log.getLast?
      = some (set_sys_data_frame (((List.replicate SYS_DATA_SIZE 0).set 0 1).set 12 1))
    ∧ (∀ i, i < SYS_DATA_SIZE → i ∉ target_field ConfKey.SR_CONF_COUPLING (some 1) →
        (((List.replicate SYS_DATA_SIZE 0).set 0 1).set 12 1).getD i 0
          = (shadow_after_fetch (enabled_sdi [some set_sys_data_response])).getD i 0) :=
  have hacc : config_set_mutate acquire_decls_example
      (shadow_after_fetch (enabled_sdi [some set_sys_data_response]))
      (slice (shadow_after_fetch (enabled_sdi [some set_sys_data_response])) 0 SYS_DATA_SIZE)
      ConfKey.SR_CONF_COUPLING (MetaVal.string "DC") (some 1)
      = Except.ok (((List.replicate SYS_DATA_SIZE 0).set 0 1).set 12 1) := by
    have hc : slice ((List.replicate SYS_DATA_SIZE 0).set 0 1) 0 SYS_DATA_SIZE
        = (List.replicate SYS_DATA_SIZE 0).set 0 1 := by
      set_option maxRecDepth 100000 in decide
    rw [shadow_after_fetch_enabled_sdi, hc]
    rfl
  ⟨(config_set_changes_target_only acquire_decls_example ConfKey.SR_CONF_COUPLING
      (MetaVal.string "DC") (enabled_sdi [some set_sys_data_response]) (some 1)
      (((List.replicate SYS_DATA_SIZE 0).set 0 1).set 12 1) (by decide) (by decide) hacc).1,
   (config_set_changes_target_only acquire_decls_example ConfKey.SR_CONF_COUPLING
      (MetaVal.string "DC") (enabled_sdi [some set_sys_data_response]) (some 1)
      (((List.replicate SYS_DATA_SIZE 0).set 0 1).set 12 1) (by decide) (by decide)
      hacc).2.2.2.1⟩

end Hantek5xxxb
